import Mathlib

/-!
# ArcaneFX: spawn resolution, the sequence runner, particles and frame loops

A shallow embedding of the parts of `src/ArcaneFX.js` that resolve spawn
requests (`_spawnGlobal`, `_spawnLocal`, the coordinate `parse` helper,
`updateCanvasSize`), that run a command sequence (`SequenceRunner`), that
hold and advance particles (`EffectInstance.spawn`, `update`, `render`, the
class `Particle`), that populate an instance (`registerEffects`,
`generateLightningFork`), that tick the instances (`_loop`,
`startLocalLoop`) and that compute the scale of an HTML animation
(`toPixels`, the `scale` paths of `HTMLAnimation`).

Conventions of the embedding.

* JavaScript numbers are exact rationals extended with `NaN` and the two
  infinities (`JsNum`); the rounding and overflow of IEEE doubles are not
  represented, and `-0` is identified with `0` (both are falsy and both
  compare equal in the source).
* JavaScript strings are Lean strings.  All patterns the source searches for
  are ASCII, so working on code points agrees with working on UTF-16 units.
* The runner is an `async` function.  Its observable behaviour is the ordered
  list of calls it makes on the engine and of the timers it awaits; this list
  is recorded as a trace of `Event`s next to the engine state.
* `Math.cos`, `Math.sin` and `Math.atan2` are taken from the host as a
  `JsMath`, and the results of `Math.random()` as a stream `rnd : ℕ → ℚ`.
* Drawing is recorded as the list of calls made on the canvas context
  (`CanvasOp`); a frame loop is one function per frame, and what it schedules
  for the next frame is a field of its result.
* A `Map` is a list of entries in insertion order.  The statements about the
  frame loop assume that the keys of such a list are distinct, which `mapSet`
  preserves.
-/

namespace Arcane

/-! ## JavaScript values -/

/-- JavaScript numbers: exact rationals, `NaN`, `+Infinity`, `-Infinity`. -/
inductive JsNum where
  | nan
  | posInf
  | negInf
  | fin (q : ℚ)
  deriving DecidableEq, Repr

namespace JsNum

/-- Truthiness of a number (`ToBoolean`): `NaN` and zero are falsy. -/
def truthy : JsNum → Bool
  | nan => false
  | posInf => true
  | negInf => true
  | fin q => decide (q ≠ 0)

/-- The product `a * b` of two numbers, for a finite right operand. -/
def mulFin : JsNum → ℚ → JsNum
  | nan, _ => nan
  | posInf, m => if m = 0 then nan else if 0 < m then posInf else negInf
  | negInf, m => if m = 0 then nan else if 0 < m then negInf else posInf
  | fin q, m => fin (q * m)

/-- The quotient `a / d` of a number by a finite positive constant. -/
def divPos : JsNum → ℚ → JsNum
  | nan, _ => nan
  | posInf, _ => posInf
  | negInf, _ => negInf
  | fin q, d => fin (q / d)

/-- The comparison `a > 0`. -/
def gtZero : JsNum → Bool
  | nan => false
  | posInf => true
  | negInf => false
  | fin q => decide (0 < q)

end JsNum

/-- The JavaScript values that reach the modelled code: command fields,
coordinates and option bags.  An object is kept as a token, since the
modelled code stores option objects without reading them. -/
inductive JsVal where
  | undefined
  | null
  | bool (b : Bool)
  | num (n : JsNum)
  | str (s : String)
  | obj
  deriving DecidableEq, Repr

namespace JsVal

/-- Truthiness (`ToBoolean`), as used by `||`, `&&` and `if`. -/
def truthy : JsVal → Bool
  | undefined => false
  | null => false
  | bool b => b
  | num n => n.truthy
  | str s => decide (s ≠ "")
  | obj => true

/-- The expression `a || b`. -/
def orElse (a b : JsVal) : JsVal := if a.truthy then a else b

end JsVal

/-! ## `parseFloat` -/

/-- White space skipped by `parseFloat` (`StrWhiteSpaceChar`). -/
def isStrWhiteSpaceChar (c : Char) : Bool :=
  c.val == 0x09 || c.val == 0x0A || c.val == 0x0B || c.val == 0x0C || c.val == 0x0D
    || c.val == 0x20 || c.val == 0xA0 || c.val == 0x1680
    || (0x2000 ≤ c.val && c.val ≤ 0x200A)
    || c.val == 0x2028 || c.val == 0x2029 || c.val == 0x202F || c.val == 0x205F
    || c.val == 0x3000 || c.val == 0xFEFF

/-- The value of a run of decimal digits, most significant first. -/
def digitsValue (ds : List Char) : ℕ :=
  ds.foldl (fun acc c => 10 * acc + (c.toNat - '0'.toNat)) 0

/-- The exponent part `e[+-]ddd` at the head of the input, if there is one
with at least one digit; otherwise the exponent is `0`. -/
def parseExponent : List Char → ℤ
  | c :: rest =>
    if c = 'e' ∨ c = 'E' then
      match rest with
      | '+' :: ds =>
        if (ds.takeWhile Char.isDigit).isEmpty then 0
        else (digitsValue (ds.takeWhile Char.isDigit) : ℤ)
      | '-' :: ds =>
        if (ds.takeWhile Char.isDigit).isEmpty then 0
        else - (digitsValue (ds.takeWhile Char.isDigit) : ℤ)
      | ds =>
        if (ds.takeWhile Char.isDigit).isEmpty then 0
        else (digitsValue (ds.takeWhile Char.isDigit) : ℤ)
    else 0
  | [] => 0

/-- The digits read for a decimal literal: integer digits, fraction digits
(with their count) and the exponent. -/
structure Decimal where
  intPart : ℕ
  fracPart : ℕ
  fracLen : ℕ
  exponent : ℤ
  deriving DecidableEq, Repr

/-- The mathematical value of a decimal literal. -/
def Decimal.value (d : Decimal) : ℚ :=
  ((d.intPart : ℚ) + (d.fracPart : ℚ) / (10 : ℚ) ^ d.fracLen) * (10 : ℚ) ^ d.exponent

/-- What `parseFloat` finds after the sign. -/
inductive Literal where
  | none
  | infinity
  | decimal (d : Decimal)
  deriving DecidableEq, Repr

/-- The unsigned part of a `StrDecimalLiteral` at the head of the input:
`Infinity`, or digits with an optional fraction and exponent.  The longest
prefix that is a literal is used. -/
def scanUnsigned (cs : List Char) : Literal :=
  if "Infinity".toList.isPrefixOf cs then Literal.infinity
  else
    let intDigits := cs.takeWhile Char.isDigit
    let afterInt := cs.dropWhile Char.isDigit
    match afterInt with
    | '.' :: afterDot =>
      let fracDigits := afterDot.takeWhile Char.isDigit
      let afterFrac := afterDot.dropWhile Char.isDigit
      if intDigits.isEmpty && fracDigits.isEmpty then Literal.none
      else
        Literal.decimal
          { intPart := digitsValue intDigits, fracPart := digitsValue fracDigits,
            fracLen := fracDigits.length, exponent := parseExponent afterFrac }
    | _ =>
      if intDigits.isEmpty then Literal.none
      else
        Literal.decimal
          { intPart := digitsValue intDigits, fracPart := 0, fracLen := 0,
            exponent := parseExponent afterInt }

/-- Negation of a number. -/
def JsNum.neg : JsNum → JsNum
  | JsNum.nan => JsNum.nan
  | JsNum.posInf => JsNum.negInf
  | JsNum.negInf => JsNum.posInf
  | JsNum.fin q => JsNum.fin (-q)

/-- The number denoted by a scanned literal; `NaN` when there is none. -/
def Literal.toNum : Literal → JsNum
  | Literal.none => JsNum.nan
  | Literal.infinity => JsNum.posInf
  | Literal.decimal d => JsNum.fin d.value

/-- The scan performed by `parseFloat` on a string: skip leading white
space, read an optional sign (the flag is `true` for `-`), then the longest
decimal literal. -/
def scanFloat (s : String) : Bool × Literal :=
  match s.toList.dropWhile isStrWhiteSpaceChar with
  | '+' :: cs => (false, scanUnsigned cs)
  | '-' :: cs => (true, scanUnsigned cs)
  | cs => (false, scanUnsigned cs)

/-- The builtin `parseFloat` on a string. -/
def parseFloatStr (s : String) : JsNum :=
  if (scanFloat s).1 then (scanFloat s).2.toNum.neg else (scanFloat s).2.toNum

/-- The builtin `parseFloat` on any value.  The argument is first converted
to a string; a number converts to a literal that reads back as itself, and
`undefined`, `null`, booleans and plain objects convert to text that is not
a literal. -/
def parseFloat : JsVal → JsNum
  | JsVal.str s => parseFloatStr s
  | JsVal.num n => n
  | _ => JsNum.nan

/-- The method `String.prototype.includes` with the argument `'%'`. -/
def includesPercent (s : String) : Bool := s.toList.contains '%'

/-- The `parse` closure of `_spawnGlobal` and of the `SequenceRunner`
constructor:
`(typeof v === 'string' && v.includes('%')) ? (parseFloat(v) / 100) * max
   : parseFloat(v) || max / 2`.
The conditional binds weaker than `||`, so the fallback `max / 2` belongs to
the second branch only. -/
def parse (v : JsVal) (max : ℚ) : JsNum :=
  match v with
  | JsVal.str s =>
    if includesPercent s then ((parseFloatStr s).divPos 100).mulFin max
    else if (parseFloatStr s).truthy then parseFloatStr s else JsNum.fin (max / 2)
  | _ => if (parseFloat v).truthy then parseFloat v else JsNum.fin (max / 2)

/-! ## Arithmetic on numbers -/

namespace JsNum

/-- The sum `a + b`. -/
def add : JsNum → JsNum → JsNum
  | fin a, fin b => fin (a + b)
  | nan, _ => nan
  | _, nan => nan
  | posInf, negInf => nan
  | negInf, posInf => nan
  | posInf, _ => posInf
  | _, posInf => posInf
  | negInf, _ => negInf
  | _, negInf => negInf

/-- The difference `a - b`. -/
def sub (a b : JsNum) : JsNum := a.add b.neg

/-- The sign of a number that is neither `NaN` nor zero: `true` when it is
negative. -/
def isNegative : JsNum → Bool
  | fin q => decide (q < 0)
  | negInf => true
  | _ => false

/-- The number is zero. -/
def isZero : JsNum → Bool
  | fin q => decide (q = 0)
  | _ => false

/-- The product `a * b`. -/
def mul : JsNum → JsNum → JsNum
  | fin a, fin b => fin (a * b)
  | nan, _ => nan
  | _, nan => nan
  | a, b =>
    if a.isZero || b.isZero then nan
    else if a.isNegative = b.isNegative then posInf else negInf

/-- The quotient `a / b`.  A finite non-zero number divided by zero is an
infinity with the sign of the dividend. -/
def div : JsNum → JsNum → JsNum
  | nan, _ => nan
  | _, nan => nan
  | fin a, fin b =>
    if b ≠ 0 then fin (a / b)
    else if a = 0 then nan else if 0 < a then posInf else negInf
  | fin _, _ => fin 0
  | posInf, fin b => if 0 ≤ b then posInf else negInf
  | negInf, fin b => if 0 ≤ b then negInf else posInf
  | _, _ => nan

/-- The call `Math.max(0, a)`. -/
def maxZero : JsNum → JsNum
  | nan => nan
  | posInf => posInf
  | negInf => fin 0
  | fin q => fin (max 0 q)

/-- The comparison `a < b`. -/
def lt : JsNum → JsNum → Bool
  | nan, _ => false
  | _, nan => false
  | fin a, fin b => decide (a < b)
  | fin _, posInf => true
  | fin _, negInf => false
  | posInf, _ => false
  | negInf, negInf => false
  | negInf, _ => true

end JsNum

/-- The functions of `Math` that the particle code calls, taken from the
host: cosine and sine on finite numbers, and `atan2`; and the constant
`Math.PI`, which is the double `884279719003555 / 2^48`. -/
structure JsMath where
  cos : ℚ → ℚ
  sin : ℚ → ℚ
  atan2 : JsNum → JsNum → JsNum
  pi : ℚ := 884279719003555 / 281474976710656

/-- The call `Math.cos(a)`: finite on a finite argument, `NaN` otherwise. -/
def JsMath.cosNum (M : JsMath) : JsNum → JsNum
  | JsNum.fin q => JsNum.fin (M.cos q)
  | _ => JsNum.nan

/-- The call `Math.sin(a)`: finite on a finite argument, `NaN` otherwise. -/
def JsMath.sinNum (M : JsMath) : JsNum → JsNum
  | JsNum.fin q => JsNum.fin (M.sin q)
  | _ => JsNum.nan

/-- A number that may be missing: `none` stands for `undefined`. -/
abbrev OptNum := Option JsNum

/-- The conversion of a possibly missing number to a number (`undefined`
converts to `NaN`). -/
def OptNum.toNum : OptNum → JsNum
  | none => JsNum.nan
  | some n => n

/-- The expression `v || d` on a possibly missing number. -/
def OptNum.orElse (v : OptNum) (d : JsNum) : JsNum :=
  match v with
  | some n => if n.truthy then n else d
  | none => d

/-- The test `v > 0` on a possibly missing number. -/
def OptNum.gtZero : OptNum → Bool
  | none => false
  | some n => n.gtZero

/-! ## Particles and effect instances -/

/-- A particle description: the object literal passed to
`EffectInstance.spawn` or to the constructor of `Particle`.  Every property
may be missing; the numeric ones are numbers when present.  The first group
is read by `spawn`, the second group only by the constructor of `Particle`. -/
structure ParticleSpec where
  x : OptNum := none
  y : OptNum := none
  vx : OptNum := none
  vy : OptNum := none
  life : OptNum := none
  size : OptNum := none
  color : JsVal := JsVal.undefined
  gravity : OptNum := none
  shrink : JsVal := JsVal.undefined
  growth : OptNum := none
  type : JsVal := JsVal.undefined
  length : OptNum := none
  lineWidth : OptNum := none
  offsetX : OptNum := none
  offsetY : OptNum := none
  drag : OptNum := none
  rotation : OptNum := none
  width : OptNum := none
  points : OptNum := none
  curve : OptNum := none
  flipSpeed : OptNum := none
  freq : OptNum := none
  amp : OptNum := none

/-- The object that `EffectInstance.spawn` pushes on `particles`.  The
fields `life`, `maxLife`, `color` hold the values of the description as they
are, so `life` and `maxLife` are missing when the description has no life. -/
structure SpawnedParticle where
  x : JsNum
  y : JsNum
  vx : JsNum
  vy : JsNum
  life : OptNum
  maxLife : OptNum
  size : JsNum
  color : JsVal
  gravity : JsNum
  shrink : JsVal
  growth : JsNum
  type : JsVal
  length : JsNum
  lineWidth : JsNum
  deriving DecidableEq, Repr

/-- An emitter closure.  Every emitter of the registry acts on its instance
only by calling `spawn`, so it is kept as the descriptions it passes to
`spawn` on its `n`-th invocation (counted from zero), together with the number
of invocations so far; captured variables and random draws are folded into
the function. -/
structure Emitter where
  calls : ℕ := 0
  emit : ℕ → List ParticleSpec

/-- The state of an `EffectInstance` (the constructor's fields).  The
rendering context is external; of the container only its presence matters
to the instance, which is `isLocal`. -/
structure EffectInstance where
  id : String
  w : ℚ
  h : ℚ
  isLocal : Bool
  x : JsNum
  y : JsNum
  life : ℤ := 100
  particles : List SpawnedParticle := []
  emitter : Option Emitter := none
  options : JsVal := JsVal.obj

/-- The constructor `new EffectInstance(ctx, w, h, container, x, y, options)`:
no particles, life 100, no emitter, `isLocal = !!container`,
`options = options || {}`.  The identifier is the value drawn from
`Math.random()`, passed as `id`. -/
def EffectInstance.new (id : String) (w h : ℚ) (hasContainer : Bool) (x y : JsNum)
    (options : JsVal) : EffectInstance :=
  { id := id, w := w, h := h, isLocal := hasContainer, x := x, y := y,
    life := 100, particles := [], emitter := none,
    options := options.orElse JsVal.obj }

namespace EffectInstance

/-- The method `addCSS(css, duration_ms)`: a global instance returns at once;
a local one restyles its parent element.  The instance itself is unchanged
in both cases. -/
def addCSS (fx : EffectInstance) (_css : String) (_duration_ms : ℚ) :
    EffectInstance := fx

/-- The method `flash(color, duration_ms)`: a global instance returns at
once; a local one shows a coloured `div` in its container for the duration.
The instance itself is unchanged in both cases. -/
def flash (fx : EffectInstance) (_color : String) (_duration_ms : ℚ) : EffectInstance := fx

/-- The object literal built by `spawn(p)` on an instance with origin
`(ox, oy)`. -/
def spawned (ox oy : JsNum) (p : ParticleSpec) : SpawnedParticle :=
  { x := ox.add (p.x.orElse (JsNum.fin 0))
    y := oy.add (p.y.orElse (JsNum.fin 0))
    vx := p.vx.orElse (JsNum.fin 0)
    vy := p.vy.orElse (JsNum.fin 0)
    life := p.life
    maxLife := p.life
    size := p.size.orElse (JsNum.fin 5)
    color := p.color
    gravity := p.gravity.orElse (JsNum.fin 0)
    shrink := p.shrink.orElse (JsVal.bool false)
    growth := p.growth.orElse (JsNum.fin 0)
    type := p.type.orElse (JsVal.str "circle")
    length := p.length.orElse (JsNum.fin 10)
    lineWidth := p.lineWidth.orElse (JsNum.fin 1) }

/-- The method `spawn(p)`: push one particle. -/
def spawn (fx : EffectInstance) (p : ParticleSpec) : EffectInstance :=
  { fx with particles := fx.particles ++ [spawned fx.x fx.y p] }

/-- The test `p.life > 0` of the filter in `update()`. -/
def isLive (p : SpawnedParticle) : Bool := p.life.gtZero

/-- The body of the `forEach` in `update()`:
`p.x += p.vx; p.y += p.vy; p.vy += p.gravity; p.life--; p.size += p.growth;
if (p.shrink) p.size *= 0.90`. -/
def advance (p : SpawnedParticle) : SpawnedParticle :=
  { p with
    x := p.x.add p.vx
    y := p.y.add p.vy
    vy := p.vy.add p.gravity
    life := some (p.life.toNum.sub (JsNum.fin 1))
    size :=
      if p.shrink.truthy then (p.size.add p.growth).mul (JsNum.fin (9 / 10))
      else p.size.add p.growth }

/-- The statement `if (this.emitter && this.life > 0) this.emitter()`, on the
instance whose life counter has already been decremented. -/
def runEmitter (fx : EffectInstance) : EffectInstance :=
  match fx.emitter with
  | some e =>
    if 0 < fx.life then
      { (e.emit e.calls).foldl spawn fx with emitter := some { e with calls := e.calls + 1 } }
    else fx
  | none => fx

/-- The particles that the emitter adds during an `update()` of `fx`: those
of one invocation when an emitter is present and instance life remains after
the decrement, none otherwise. -/
def emitted (fx : EffectInstance) : List SpawnedParticle :=
  match fx.emitter with
  | some e => if 0 < fx.life - 1 then (e.emit e.calls).map (spawned fx.x fx.y) else []
  | none => []

end EffectInstance

/-- A call on the 2D drawing context, or an assignment to one of its
properties. -/
inductive CanvasOp where
  | clearRect (x y w h : JsNum)
  | setGlobalCompositeOperation (mode : String)
  | setFillStyle (color : JsVal)
  | setStrokeStyle (color : JsVal)
  | setGlobalAlpha (alpha : JsNum)
  | setLineWidth (width : JsNum)
  | beginPath
  | arc (x y radius startAngle endAngle : JsNum)
  | moveTo (x y : JsNum)
  | lineTo (x y : JsNum)
  | fillRect (x y w h : JsNum)
  | fill
  | stroke
  deriving DecidableEq, Repr

/-- What `update()` yields: the instance afterwards, the returned flag, and
the calls made on the drawing context (a local instance clears its canvas). -/
structure UpdateResult where
  fx : EffectInstance
  active : Bool
  ops : List CanvasOp

namespace EffectInstance

/-- The state of the instance after `update()`: the life counter is
decremented, the emitter runs if there is one and life remains, the particles
that are not live are dropped and the others advanced. -/
def updated (fx : EffectInstance) : EffectInstance :=
  let fx1 : EffectInstance := { fx with life := fx.life - 1 }
  let fx2 := fx1.runEmitter
  { fx2 with particles := (fx2.particles.filter isLive).map advance }

/-- The method `update()`.  The returned flag is
`if (this.isLocal && this.life <= -100 && this.particles.length === 0) return false;
return this.particles.length > 0`, evaluated on the state after the step. -/
def update (fx : EffectInstance) : UpdateResult :=
  { fx := fx.updated
    active :=
      if fx.updated.isLocal && decide (fx.updated.life ≤ -100) && fx.updated.particles.isEmpty
      then false
      else decide (0 < fx.updated.particles.length)
    ops :=
      if fx.isLocal then
        [CanvasOp.clearRect (JsNum.fin 0) (JsNum.fin 0) (JsNum.fin fx.w) (JsNum.fin fx.h)]
      else [] }

/-- The draw calls of `render(ctx)` for one particle. -/
def renderParticle (M : JsMath) (p : SpawnedParticle) : List CanvasOp :=
  [CanvasOp.setFillStyle p.color, CanvasOp.setStrokeStyle p.color,
    CanvasOp.setGlobalAlpha (p.life.toNum.div p.maxLife.toNum), CanvasOp.beginPath]
  ++
  (if p.type = JsVal.str "circle" then
    [CanvasOp.arc p.x p.y p.size.maxZero (JsNum.fin 0) (JsNum.fin 6.28), CanvasOp.fill]
  else if p.type = JsVal.str "square" then
    [CanvasOp.fillRect (p.x.sub (p.size.div (JsNum.fin 2))) (p.y.sub (p.size.div (JsNum.fin 2)))
      p.size p.size]
  else if p.type = JsVal.str "triangle" then
    [CanvasOp.moveTo p.x (p.y.sub p.size),
      CanvasOp.lineTo (p.x.add (p.size.div (JsNum.fin 2))) (p.y.add (p.size.div (JsNum.fin 2))),
      CanvasOp.lineTo (p.x.sub (p.size.div (JsNum.fin 2))) (p.y.add (p.size.div (JsNum.fin 2))),
      CanvasOp.fill]
  else if p.type = JsVal.str "stroke" then
    [CanvasOp.arc p.x p.y p.size.maxZero (JsNum.fin 0) (JsNum.fin 6.28),
      CanvasOp.setLineWidth (if p.lineWidth.truthy then p.lineWidth else JsNum.fin 1),
      CanvasOp.stroke]
  else if p.type = JsVal.str "line" then
    [CanvasOp.moveTo p.x p.y,
      CanvasOp.lineTo (p.x.sub ((M.cosNum (M.atan2 p.vy p.vx)).mul p.length))
        (p.y.sub ((M.sinNum (M.atan2 p.vy p.vx)).mul p.length)),
      CanvasOp.setLineWidth p.size, CanvasOp.stroke]
  else [])

/-- The method `render(ctx)`. -/
def render (M : JsMath) (fx : EffectInstance) : List CanvasOp :=
  fx.particles.flatMap (renderParticle M)

end EffectInstance

/-- An effect generator, the kind of value `registerEffects` stores in the
registry: it is called on the fresh instance and populates it. -/
abbrev Generator := EffectInstance → EffectInstance

/-- A number that is present. -/
def OptNum.of (q : ℚ) : OptNum := some (JsNum.fin q)

/-! ## The effect registry

The generators of `registerEffects`.  Each takes the functions of `Math` and
the values `rnd 0, rnd 1, ...` that its calls of `Math.random()` return, in
the order of the calls; for an emitter, the draws of its `n`-th invocation are
numbered from `n` times the number of draws of one invocation.  Random draws
and the size of the instance are finite numbers, so the arithmetic on them is
done on the rationals. -/

/-- The registered generator `fire_engulf`. -/
def fire_engulf (rnd : ℕ → ℚ) : Generator := fun fx =>
  { fx.addCSS "box-shadow: inset 0 -10px 20px rgba(255, 69, 0, 0.5);" 1000 with
    emitter := some
      { emit := fun n =>
          [{ x := OptNum.of (rnd (4 * n) * fx.w), y := OptNum.of fx.h,
             vx := OptNum.of ((rnd (4 * n + 1) - 0.5) * 2),
             vy := OptNum.of (-2 - rnd (4 * n + 2) * 3),
             size := OptNum.of (6 + rnd (4 * n + 3) * 8), color := JsVal.str "#ff4500",
             life := OptNum.of 40, shrink := JsVal.bool true, type := JsVal.str "circle" }] } }

/-- The registered generator `fire_burst`. -/
def fire_burst (M : JsMath) (rnd : ℕ → ℚ) : Generator := fun fx =>
  (List.range 40).foldl
    (fun fx (i : ℕ) =>
      fx.spawn
        { x := OptNum.of (fx.w / 2), y := OptNum.of (fx.h / 2),
          vx := OptNum.of (M.cos (rnd (2 * i) * 6.28) * (2 + rnd (2 * i + 1) * 6)),
          vy := OptNum.of (M.sin (rnd (2 * i) * 6.28) * (2 + rnd (2 * i + 1) * 6)),
          size := OptNum.of 5, color := JsVal.str "#ffcc00", life := OptNum.of 30,
          shrink := JsVal.bool true })
    (fx.flash "#ffaa00" 50)

/-- The registered generator `fire_spiral`; the captured `angle` is `0.4`
times the number of invocations. -/
def fire_spiral (M : JsMath) : Generator := fun fx =>
  { fx with
    emitter := some
      { emit := fun n =>
          [{ x := OptNum.of (fx.w / 2 + M.cos (0.4 * (n + 1)) * (fx.w / 3)),
             y := OptNum.of (fx.h / 2 + M.sin (0.4 * (n + 1)) * (fx.w / 3)),
             vx := OptNum.of 0, vy := OptNum.of (-1), size := OptNum.of 8,
             color := JsVal.str "#ff0000", life := OptNum.of 25, shrink := JsVal.bool true }] } }

/-- The registered generator `water_bubble`; its emitter returns without
spawning when its first draw exceeds `0.3`. -/
def water_bubble (rnd : ℕ → ℚ) : Generator := fun fx =>
  { fx.addCSS "background: linear-gradient(0deg, rgba(0,200,255,0.2) 0%, transparent 100%);"
      1000 with
    emitter := some
      { emit := fun n =>
          if 0.3 < rnd (5 * n) then []
          else
            [{ x := OptNum.of (rnd (5 * n + 1) * fx.w), y := OptNum.of fx.h,
               vx := OptNum.of ((rnd (5 * n + 2) - 0.5) * 0.5),
               vy := OptNum.of (-1 - rnd (5 * n + 3)),
               size := OptNum.of (3 + rnd (5 * n + 4) * 5),
               color := JsVal.str "rgba(100,200,255,0.6)", life := OptNum.of 100,
               type := JsVal.str "stroke" }] } }

/-- The registered generator `water_splash`. -/
def water_splash (rnd : ℕ → ℚ) : Generator := fun fx =>
  (List.range 25).foldl
    (fun fx (i : ℕ) =>
      fx.spawn
        { x := OptNum.of (fx.w / 2), y := OptNum.of (fx.h / 2),
          vx := OptNum.of ((rnd (2 * i) - 0.5) * 10),
          vy := OptNum.of (-3 - rnd (2 * i + 1) * 5), size := OptNum.of 4,
          color := JsVal.str "#00ffff", life := OptNum.of 50, gravity := OptNum.of 0.4 })
    fx

/-- The registered generator `water_vortex`. -/
def water_vortex (M : JsMath) (rnd : ℕ → ℚ) : Generator := fun fx =>
  (List.range 30).foldl
    (fun fx (i : ℕ) =>
      fx.spawn
        { x := OptNum.of
            (fx.w / 2 + M.cos (rnd (2 * i) * 6.28) * (rnd (2 * i + 1) * (fx.w / 2))),
          y := OptNum.of
            (fx.h / 2 + M.sin (rnd (2 * i) * 6.28) * (rnd (2 * i + 1) * (fx.w / 2))),
          vx := OptNum.of (-(M.sin (rnd (2 * i) * 6.28)) * 4),
          vy := OptNum.of (M.cos (rnd (2 * i) * 6.28) * 4), size := OptNum.of 3,
          color := JsVal.str "#0088ff", life := OptNum.of 40, shrink := JsVal.bool true })
    fx

/-- The registered generator `wind_gust`. -/
def wind_gust (rnd : ℕ → ℚ) : Generator := fun fx =>
  { fx with
    emitter := some
      { emit := fun n =>
          [{ x := OptNum.of (-20), y := OptNum.of (rnd (2 * n) * fx.h),
             vx := OptNum.of (15 + rnd (2 * n + 1) * 10), vy := OptNum.of 0,
             size := OptNum.of 2, color := JsVal.str "rgba(255,255,255,0.8)",
             life := OptNum.of 30, type := JsVal.str "line", length := OptNum.of 60 }] } }

/-- The registered generator `wind_swirl`. -/
def wind_swirl (rnd : ℕ → ℚ) : Generator := fun fx =>
  { fx with
    emitter := some
      { emit := fun n =>
          [{ x := OptNum.of (rnd (2 * n) * fx.w), y := OptNum.of (rnd (2 * n + 1) * fx.h),
             vx := OptNum.of ((fx.w / 2 - rnd (2 * n) * fx.w) * 0.1),
             vy := OptNum.of ((fx.h / 2 - rnd (2 * n + 1) * fx.h) * 0.1 - 2),
             size := OptNum.of 2, color := JsVal.str "#ccffcc", life := OptNum.of 40 }] } }

/-- The registered generator `wind_cutter`. -/
def wind_cutter (rnd : ℕ → ℚ) : Generator := fun fx =>
  (List.range 10).foldl
    (fun fx (i : ℕ) =>
      fx.spawn
        { x := OptNum.of (i * (fx.w / 10)), y := OptNum.of (fx.h - i * (fx.h / 10)),
          vx := OptNum.of (1 + rnd (2 * i) * 2), vy := OptNum.of (-1 - rnd (2 * i + 1)),
          size := OptNum.of 2, color := JsVal.str "#fff", life := OptNum.of 40 })
    (fx.spawn
      { x := OptNum.of 0, y := OptNum.of (fx.h / 2), vx := OptNum.of 10, vy := OptNum.of 0,
        size := OptNum.of 3, color := JsVal.str "#fff", life := OptNum.of 30,
        type := JsVal.str "line", length := OptNum.of 150 })

/-- The registered generator `earth_crumble`. -/
def earth_crumble (rnd : ℕ → ℚ) : Generator := fun fx =>
  { fx with
    emitter := some
      { emit := fun n =>
          [{ x := OptNum.of (rnd (3 * n) * fx.w), y := OptNum.of 0, vx := OptNum.of 0,
             vy := OptNum.of (2 + rnd (3 * n + 1) * 4),
             size := OptNum.of (5 + rnd (3 * n + 2) * 5), color := JsVal.str "#5d4037",
             life := OptNum.of 60, type := JsVal.str "square" }] } }

/-- The registered generator `earth_spike`. -/
def earth_spike (rnd : ℕ → ℚ) : Generator := fun fx =>
  ((List.range 5).foldl
    (fun fx (i : ℕ) =>
      fx.spawn
        { x := OptNum.of (fx.w * (0.2 + i * 0.15)), y := OptNum.of fx.h, vx := OptNum.of 0,
          vy := OptNum.of (-5 - rnd i * 3), size := OptNum.of 15,
          color := JsVal.str "#3e2723", life := OptNum.of 40, type := JsVal.str "triangle",
          gravity := OptNum.of 0.1 })
    fx).addCSS "border-bottom: 5px solid #3e2723;" 320

/-- The registered generator `earth_shield`: a single `addCSS` call. -/
def earth_shield : Generator := fun fx =>
  fx.addCSS "border: 4px solid #795548; background: #3e2723; transform: scale(1.05); transition: transform 0.1s;" 1000

/-- The registered generator `anime_cut`. -/
def anime_cut : Generator := fun fx =>
  (fx.flash "rgba(255,255,255,0.8)" 50).spawn
    { x := OptNum.of 0, y := OptNum.of (fx.h / 2), vx := OptNum.of 25, vy := OptNum.of 0,
      size := OptNum.of 4, color := JsVal.str "#fff", life := OptNum.of 10,
      type := JsVal.str "line", length := OptNum.of (fx.w * 1.5) }

/-- The registered generator `hit_impact`. -/
def hit_impact (M : JsMath) (rnd : ℕ → ℚ) : Generator := fun fx =>
  ((List.range 15).foldl
    (fun fx (i : ℕ) =>
      fx.spawn
        { x := OptNum.of (fx.w / 2), y := OptNum.of (fx.h / 2),
          vx := OptNum.of (M.cos (rnd (2 * i) * 6.28) * (5 + rnd (2 * i + 1) * 10)),
          vy := OptNum.of (M.sin (rnd (2 * i) * 6.28) * (5 + rnd (2 * i + 1) * 10)),
          size := OptNum.of 2, color := JsVal.str "#ffff00", life := OptNum.of 20,
          type := JsVal.str "line", length := OptNum.of 10 })
    (fx.addCSS "filter: invert(1);" 64)).spawn
    { x := OptNum.of (fx.w / 2), y := OptNum.of (fx.h / 2), size := OptNum.of 5,
      color := JsVal.str "#fff", life := OptNum.of 15, growth := OptNum.of 10,
      type := JsVal.str "stroke" }

/-- The registered generator `flash_step`. -/
def flash_step (rnd : ℕ → ℚ) : Generator := fun fx =>
  (List.range 10).foldl
    (fun fx (i : ℕ) =>
      fx.spawn
        { x := OptNum.of (rnd (2 * i) * fx.w), y := OptNum.of (rnd (2 * i + 1) * fx.h),
          vx := OptNum.of 10, vy := OptNum.of 0, size := OptNum.of 1, color := JsVal.str "#fff",
          life := OptNum.of 20, type := JsVal.str "line", length := OptNum.of 40 })
    (fx.addCSS "opacity: 0.5; transform: translateX(10px); filter: blur(2px);" 160)

/-- The registered generator `impact_flash_white`. -/
def impact_flash_white (M : JsMath) (rnd : ℕ → ℚ) : Generator := fun fx =>
  ((List.range 50).foldl
    (fun fx (i : ℕ) =>
      fx.spawn
        { x := OptNum.of (fx.w / 2), y := OptNum.of (fx.h / 2),
          vx := OptNum.of (M.cos (rnd (2 * i) * 6.28) * (4 + rnd (2 * i + 1) * 8)),
          vy := OptNum.of (M.sin (rnd (2 * i) * 6.28) * (4 + rnd (2 * i + 1) * 8)),
          size := OptNum.of 8, color := JsVal.str "#ffffff", life := OptNum.of 25,
          shrink := JsVal.bool true })
    fx).spawn
    { x := OptNum.of (fx.w / 2), y := OptNum.of (fx.h / 2), size := OptNum.of 10,
      color := JsVal.str "#ffffff", life := OptNum.of 15, growth := OptNum.of 15,
      type := JsVal.str "stroke", lineWidth := OptNum.of 5 }

/-- The method `registerEffects()`: the registry it builds, in the order of
the `set` calls. -/
def registerEffects (M : JsMath) (rnd : ℕ → ℚ) : List (String × Generator) :=
  [("fire_engulf", fire_engulf rnd), ("fire_burst", fire_burst M rnd),
   ("fire_spiral", fire_spiral M), ("water_bubble", water_bubble rnd),
   ("water_splash", water_splash rnd), ("water_vortex", water_vortex M rnd),
   ("wind_gust", wind_gust rnd), ("wind_swirl", wind_swirl rnd),
   ("wind_cutter", wind_cutter rnd), ("earth_crumble", earth_crumble rnd),
   ("earth_spike", earth_spike rnd), ("earth_shield", earth_shield),
   ("anime_cut", anime_cut), ("hit_impact", hit_impact M rnd),
   ("flash_step", flash_step rnd), ("impact_flash_white", impact_flash_white M rnd)]

/-! ## The engine -/

/-- The field `viewport` of the engine. -/
structure Viewport where
  width : ℚ
  height : ℚ
  deriving DecidableEq, Repr

/-- The state of the engine `ArcaneFX`: the effect registry and the active
global instances (both insertion-ordered maps), the viewport, the device
pixel ratio, the size of the shared canvas, and the background colour of
the overlay element (`overlay.style.backgroundColor`, kept as the value
last assigned). -/
structure ArcaneFX where
  effects : List (String × Generator)
  activeGlobalEffects : List (String × EffectInstance) := []
  viewport : Viewport
  dpr : ℚ := 1
  canvasWidth : ℚ := 0
  canvasHeight : ℚ := 0
  overlay : JsVal := JsVal.str "transparent"

/-- The call `Map.prototype.get` on a map with string keys.  A key that is
not a string is never present. -/
def mapGet {β : Type} (m : List (String × β)) : JsVal → Option β
  | JsVal.str k => (m.find? (fun e => e.1 == k)).map Prod.snd
  | _ => none

/-- The call `Map.prototype.set`: an existing key keeps its place and gets
the new value, a new key is appended. -/
def mapSet {β : Type} (m : List (String × β)) (k : String) (v : β) : List (String × β) :=
  if m.any (fun e => e.1 == k) then m.map (fun e => if e.1 == k then (k, v) else e)
  else m ++ [(k, v)]

namespace ArcaneFX

/-- The method `updateCanvasSize()`, run at start-up and on every `resize`
event; the arguments are `window.devicePixelRatio`, `window.innerWidth` and
`window.innerHeight` at that moment.  The canvas size is kept as the value
assigned; the scaling of the drawing context is external. -/
def updateCanvasSize (E : ArcaneFX) (devicePixelRatio innerWidth innerHeight : ℚ) : ArcaneFX :=
  let dpr := if devicePixelRatio ≠ 0 then devicePixelRatio else 1
  { E with
    dpr := dpr
    viewport := { width := innerWidth, height := innerHeight }
    canvasWidth := innerWidth * dpr
    canvasHeight := innerHeight * dpr }

/-- The method `setOverlay(color)`. -/
def setOverlay (E : ArcaneFX) (color : JsVal) : ArcaneFX :=
  { E with overlay := color }

/-- What a spawn call yields: the returned instance (`none` for
`undefined`), the engine afterwards, and the name reported through
`console.warn` when the effect is missing. -/
structure SpawnOutcome where
  returned : Option EffectInstance
  engine : ArcaneFX
  warned : Option JsVal

/-- The method `_spawnGlobal(name, x, y, opts = {})`.  The argument `id` is
the identifier the new instance draws from `Math.random()`. -/
def _spawnGlobal (E : ArcaneFX) (id : String) (name x y opts : JsVal) : SpawnOutcome :=
  match mapGet E.effects name with
  | none => { returned := none, engine := E, warned := some name }
  | some generator =>
    let opts := if opts = JsVal.undefined then JsVal.obj else opts
    let parsedX := parse x E.viewport.width
    let parsedY := parse y E.viewport.height
    let inst :=
      generator (EffectInstance.new id E.viewport.width E.viewport.height false parsedX parsedY opts)
    { returned := some inst
      engine := { E with activeGlobalEffects := mapSet E.activeGlobalEffects inst.id inst }
      warned := none }

end ArcaneFX

/-- The container `div` that `_spawnLocal` appends to the target element,
with the canvas it holds. -/
structure LocalContainer where
  borderRadius : String
  canvasWidth : ℕ
  canvasHeight : ℕ
  deriving DecidableEq, Repr

/-- The part of a target `HTMLElement` that `_spawnLocal` reads or writes. -/
structure HTMLElement where
  offsetWidth : ℕ
  offsetHeight : ℕ
  computedBorderRadius : String
  computedPosition : String
  stylePosition : String := ""
  containers : List LocalContainer := []
  deriving DecidableEq, Repr

/-- What a local spawn yields: the returned instance, the target element
afterwards, the engine afterwards, and the name reported through
`console.warn` when the effect is missing. -/
structure LocalOutcome where
  returned : Option EffectInstance
  element : HTMLElement
  engine : ArcaneFX
  warned : Option JsVal

/-- The method `_spawnLocal(name, element, opts = {})`.  The instance is not
entered in `activeGlobalEffects`; `startLocalLoop()` schedules its own frame
loop, which is not part of this state. -/
def ArcaneFX._spawnLocal (E : ArcaneFX) (id : String) (name : JsVal) (element : HTMLElement)
    (opts : JsVal) : LocalOutcome :=
  match mapGet E.effects name with
  | none => { returned := none, element := element, engine := E, warned := some name }
  | some generator =>
    let opts := if opts = JsVal.undefined then JsVal.obj else opts
    let container : LocalContainer :=
      { borderRadius := element.computedBorderRadius
        canvasWidth := element.offsetWidth
        canvasHeight := element.offsetHeight }
    let element :=
      { element with
        stylePosition :=
          if element.computedPosition = "static" then "relative" else element.stylePosition
        containers := element.containers ++ [container] }
    let inst :=
      generator (EffectInstance.new id container.canvasWidth container.canvasHeight true
        (JsNum.fin 0) (JsNum.fin 0) opts)
    { returned := some inst, element := element, engine := E, warned := none }

/-! ## The frame loops -/

/-- The call `Map.prototype.delete`. -/
def mapDelete {β : Type} (m : List (String × β)) (k : String) : List (String × β) :=
  m.filter (fun e => !(e.1 == k))

/-- What one pass of the engine's frame loop yields: the engine afterwards,
the calls made on the shared drawing context, and the keys of the instances
whose `update()` and whose `render()` were called, in the order of the
calls. -/
structure FrameResult where
  engine : ArcaneFX
  ops : List CanvasOp
  ticked : List String
  rendered : List String

namespace ArcaneFX

/-- The callback of `activeGlobalEffects.forEach` in `_loop`, on the entry
`(id, eff)`: `const active = eff.update(); if (active) eff.render(this.ctx);
else this.activeGlobalEffects.delete(id)`.  The instance is updated in place,
so an active instance stays in the map under its key with its new state. -/
def animateEntry (M : JsMath) (acc : FrameResult) (entry : String × EffectInstance) :
    FrameResult :=
  if entry.2.update.active then
    { engine :=
        { acc.engine with
          activeGlobalEffects :=
            mapSet acc.engine.activeGlobalEffects entry.1 entry.2.update.fx }
      ops := acc.ops ++ entry.2.update.ops ++ entry.2.update.fx.render M
      ticked := acc.ticked ++ [entry.1]
      rendered := acc.rendered ++ [entry.1] }
  else
    { engine :=
        { acc.engine with
          activeGlobalEffects := mapDelete acc.engine.activeGlobalEffects entry.1 }
      ops := acc.ops ++ entry.2.update.ops
      ticked := acc.ticked ++ [entry.1]
      rendered := acc.rendered }

/-- One run of the function `animate` of `_loop()`: clear the shared canvas,
set additive blending, tick and render the registered instances, restore
normal blending.  The function then schedules itself for the next frame. -/
def animate (M : JsMath) (E : ArcaneFX) : FrameResult :=
  let start : FrameResult :=
    { engine := E
      ops := [CanvasOp.clearRect (JsNum.fin 0) (JsNum.fin 0) (JsNum.fin E.viewport.width)
                (JsNum.fin E.viewport.height),
              CanvasOp.setGlobalCompositeOperation "lighter"]
      ticked := []
      rendered := [] }
  let done := E.activeGlobalEffects.foldl (animateEntry M) start
  { done with ops := done.ops ++ [CanvasOp.setGlobalCompositeOperation "source-over"] }

/-- The engine after `n` frames. -/
def frames (M : JsMath) : ℕ → ArcaneFX → ArcaneFX
  | 0, E => E
  | n + 1, E => frames M n (E.animate M).engine

/-- The constructor `new ArcaneFX()` on a window of the given size: empty
maps, `init()` (transparent overlay, canvas sized to the window) and
`registerEffects()`. -/
def new (M : JsMath) (rnd : ℕ → ℚ) (devicePixelRatio innerWidth innerHeight : ℚ) : ArcaneFX :=
  updateCanvasSize
    { effects := registerEffects M rnd
      activeGlobalEffects := []
      viewport := { width := innerWidth, height := innerHeight }
      overlay := JsVal.str "transparent" }
    devicePixelRatio innerWidth innerHeight

end ArcaneFX

/-- What one run of the local loop yields: the instance afterwards, the
calls made on its own drawing context, whether the loop scheduled itself
again, and whether the container was removed from the page. -/
structure LocalFrame where
  fx : EffectInstance
  ops : List CanvasOp
  rescheduled : Bool
  containerRemoved : Bool

/-- One run of the function `loop` of `startLocalLoop()`:
`const active = this.update(); if (active) { this.render(this.ctx);
requestAnimationFrame(loop); } else if (this.container) this.container.remove()`. -/
def EffectInstance.loop (M : JsMath) (fx : EffectInstance) : LocalFrame :=
  if fx.update.active then
    { fx := fx.update.fx, ops := fx.update.ops ++ fx.update.fx.render M,
      rescheduled := true, containerRemoved := false }
  else
    { fx := fx.update.fx, ops := fx.update.ops, rescheduled := false,
      containerRemoved := fx.update.fx.isLocal }

/-! ## The class `Particle` -/

/-- The fields of a `Particle`. -/
structure Particle where
  x : JsNum
  y : JsNum
  vx : JsNum
  vy : JsNum
  life : JsNum
  maxLife : JsNum
  size : JsNum
  type : JsVal
  color : JsVal
  drag : JsNum
  gravity : JsNum
  rotation : JsNum
  growth : JsNum
  width : JsNum
  length : JsNum
  points : JsNum
  curve : JsNum
  flipSpeed : JsNum
  flipVal : JsNum
  freq : JsNum
  amp : JsNum
  initX : JsNum
  deriving DecidableEq, Repr

namespace Particle

/-- The constructor `new Particle(ox, oy, p)`. -/
def new (ox oy : JsNum) (p : ParticleSpec) : Particle :=
  { x := ox.add (p.offsetX.orElse (JsNum.fin 0))
    y := oy.add (p.offsetY.orElse (JsNum.fin 0))
    vx := p.vx.orElse (JsNum.fin 0)
    vy := p.vy.orElse (JsNum.fin 0)
    life := p.life.orElse (JsNum.fin 60)
    maxLife := p.life.orElse (JsNum.fin 60)
    size := p.size.orElse (JsNum.fin 5)
    type := p.type.orElse (JsVal.str "circle")
    color := p.color.orElse (JsVal.str "#fff")
    drag := p.drag.orElse (JsNum.fin 1)
    gravity := p.gravity.orElse (JsNum.fin 0)
    rotation := p.rotation.orElse (JsNum.fin 0)
    growth := p.growth.orElse (JsNum.fin 0)
    width := p.width.orElse (JsNum.fin 2)
    length := p.length.orElse (JsNum.fin 20)
    points := p.points.orElse (JsNum.fin 5)
    curve := p.curve.orElse (JsNum.fin 20)
    flipSpeed := p.flipSpeed.orElse (JsNum.fin 0)
    flipVal := JsNum.fin 0
    freq := p.freq.orElse (JsNum.fin 0.1)
    amp := p.amp.orElse (JsNum.fin 5)
    initX := ox.add (p.offsetX.orElse (JsNum.fin 0)) }

/-- The method `update()` of `Particle`. -/
def update (M : JsMath) (p : Particle) : Particle :=
  let q : Particle :=
    { p with
      x := p.x.add p.vx
      y := p.y.add p.vy
      vx := p.vx.mul p.drag
      vy := (p.vy.mul p.drag).add p.gravity
      size := p.size.add p.growth
      life := p.life.sub (JsNum.fin 1)
      flipVal := p.flipVal.add p.flipSpeed }
  if q.type = JsVal.str "wave" then
    { q with x := q.initX.add ((M.sinNum ((q.maxLife.sub q.life).mul q.freq)).mul q.amp) }
  else q

end Particle

/-! ## The host environment -/

/-- An element matched by a selector, as `createShadows` sees it: its
bounding rectangle and the computed styles that are copied. -/
structure MatchedElement where
  top : ℚ
  left : ℚ
  width : ℚ
  height : ℚ
  borderRadius : String
  transform : String
  deriving DecidableEq, Repr

/-- A shadow clone appended to the shadow layer. -/
structure ShadowClone where
  top : ℚ
  left : ℚ
  width : ℚ
  height : ℚ
  borderRadius : String
  transform : String
  backgroundColor : JsVal
  deriving DecidableEq, Repr

/-- The browser facilities the runner relies on.  `querySelectorAll` gives
the elements a selector matches, or `none` when the browser rejects the
selector (it then throws a `SyntaxError`).  `stringToNumber` is the numeric
conversion of a string, used when a string is compared with a number. -/
structure Host where
  querySelectorAll : JsVal → Option (List MatchedElement)
  stringToNumber : String → JsNum

/-- The conversion `ToNumber`. -/
def Host.toNumber (host : Host) : JsVal → JsNum
  | JsVal.undefined => JsNum.nan
  | JsVal.null => JsNum.fin 0
  | JsVal.bool b => if b then JsNum.fin 1 else JsNum.fin 0
  | JsVal.num n => n
  | JsVal.str s => host.stringToNumber s
  | JsVal.obj => JsNum.nan

/-- The test `v > 0`. -/
def Host.gtZero (host : Host) (v : JsVal) : Bool := (host.toNumber v).gtZero

/-- The method `createShadows(selector, color, duration_ms)`: one clone for
every matched element whose rectangle has non-zero width and height.
`none` when the selector is rejected. -/
def createShadows (host : Host) (selector color : JsVal) : Option (List ShadowClone) :=
  (host.querySelectorAll selector).map fun originals =>
    (originals.filter fun o => !(decide (o.width = 0) || decide (o.height = 0))).map fun o =>
      { top := o.top, left := o.left, width := o.width, height := o.height
        borderRadius := o.borderRadius
        transform := if o.transform = "none" then "" else o.transform
        backgroundColor := color }

/-! ## The sequence runner -/

/-- The constant `SEQUENCE_COMMANDS`: the four command kinds. -/
structure SequenceCommands where
  VFX : JsVal
  IMPACT_FRAME : JsVal
  WAIT : JsVal
  SHADOW : JsVal

/-- The exported constant `SEQUENCE_COMMANDS`. -/
abbrev SEQUENCE_COMMANDS : SequenceCommands :=
  { VFX := JsVal.str "VFX", IMPACT_FRAME := JsVal.str "IMPACT_FRAME",
    WAIT := JsVal.str "WAIT", SHADOW := JsVal.str "SHADOW" }

/-- The calls a runner makes, in the order it makes them.  The overlay
writes are told apart by call site: `setOverlay` is the write of a command's
own colour, `clearOverlay` is a call `setOverlay('transparent')` made after
an `IMPACT_FRAME` delay or as the final cleanup. -/
inductive Event where
  | spawnGlobal (name x y opts : JsVal)
  | applyHtmlFx (type duration_ms : JsVal)
  | setOverlay (color : JsVal)
  | clearOverlay
  | createShadows (selector color duration_ms : JsVal) (clones : List ShadowClone)
  | sleep (duration_ms : JsVal)
  | warnUnknownCommand (command : JsVal)
  deriving DecidableEq, Repr

/-- An exception thrown out of the runner. -/
inductive JsError where
  | typeError
  | syntaxError
  deriving DecidableEq, Repr

/-- The fields of a `SequenceRunner` (the engine is passed separately). -/
structure SequenceRunner where
  sequence : List (List JsVal)
  targetX : JsVal
  targetY : JsVal
  resolvedX : JsNum
  resolvedY : JsNum

/-- The constructor `new SequenceRunner(engine, sequence, targetX, targetY)`. -/
def SequenceRunner.new (engine : ArcaneFX) (sequence : List (List JsVal))
    (targetX targetY : JsVal) : SequenceRunner :=
  { sequence := sequence, targetX := targetX, targetY := targetY
    resolvedX :=
      if targetX.truthy then parse targetX engine.viewport.width
      else JsNum.fin (engine.viewport.width * (1 / 2))
    resolvedY :=
      if targetY.truthy then parse targetY engine.viewport.height
      else JsNum.fin (engine.viewport.height * (1 / 2)) }

/-- The state of a run of `execute`: the engine, the calls made so far, the
number of instance identifiers drawn so far, and the exception that ended
the run, if any. -/
structure Exec where
  engine : ArcaneFX
  trace : List Event := []
  draws : ℕ := 0
  error : Option JsError := none

/-- The method `String.prototype.startsWith` with a fixed prefix. -/
def startsWith (s pre : String) : Bool := pre.toList.isPrefixOf s.toList

/-- The suspension `if (duration_ms > 0) await new Promise(...)`. -/
def sleepIfPositive (host : Host) (duration_ms : JsVal) : List Event :=
  if host.gtZero duration_ms then [Event.sleep duration_ms] else []

namespace SequenceRunner

/-- The `VFX` case of `execute`; `args = [duration_ms, effect_name, x, y, options]`. -/
def vfxCase (host : Host) (rand : ℕ → String) (R : SequenceRunner) (st : Exec)
    (args : List JsVal) (duration_ms : JsVal) : Exec :=
  let vfxName := args.getD 1 JsVal.undefined
  let x := (args.getD 2 JsVal.undefined).orElse (JsVal.num R.resolvedX)
  let y := (args.getD 3 JsVal.undefined).orElse (JsVal.num R.resolvedY)
  let opts := args.getD 4 JsVal.undefined
  let out := st.engine._spawnGlobal (rand st.draws) vfxName x y opts
  { st with
    engine := out.engine
    draws := if out.returned.isSome then st.draws + 1 else st.draws
    trace := st.trace ++ [Event.spawnGlobal vfxName x y opts] ++ sleepIfPositive host duration_ms }

/-- The test `color !== 'black' && !color.startsWith('rgba(0,0,0')` on a
string `color`. -/
def clearsAfterDelay (color : String) : Bool :=
  decide (color ≠ "black") && !startsWith color "rgba(0,0,0"

/-- The statement
`if (htmlFx && htmlFx !== 'none') this.engine.applyHtmlFx(htmlFx, duration_ms)`. -/
def htmlFxEvents (htmlFx duration_ms : JsVal) : List Event :=
  if htmlFx.truthy && htmlFx != JsVal.str "none" then [Event.applyHtmlFx htmlFx duration_ms]
  else []

/-- The `IMPACT_FRAME` case of `execute`; `args = [duration_ms, color, htmlFx]`.
On a `color` that is not a string the test after the delay throws a
`TypeError`, since `color.startsWith` is then not callable. -/
def impactFrameCase (st : Exec) (args : List JsVal) (duration_ms : JsVal) : Exec :=
  let color := args.getD 1 JsVal.undefined
  let htmlFx := args.getD 2 JsVal.undefined
  let st1 : Exec :=
    { st with
      engine := st.engine.setOverlay color
      trace := st.trace ++ htmlFxEvents htmlFx duration_ms
        ++ [Event.setOverlay color, Event.sleep duration_ms] }
  match color with
  | JsVal.str c =>
    if clearsAfterDelay c then
      { st1 with
        engine := st1.engine.setOverlay (JsVal.str "transparent")
        trace := st1.trace ++ [Event.clearOverlay] }
    else st1
  | _ => { st1 with error := some JsError.typeError }

/-- The `SHADOW` case of `execute`; `args = [duration_ms, selector, color]`. -/
def shadowCase (host : Host) (st : Exec) (args : List JsVal) (duration_ms : JsVal) : Exec :=
  let selector := args.getD 1 JsVal.undefined
  let shadowColor := args.getD 2 JsVal.undefined
  match createShadows host selector shadowColor with
  | none => { st with error := some JsError.syntaxError }
  | some clones =>
    { st with
      trace := st.trace ++ [Event.createShadows selector shadowColor duration_ms clones]
        ++ sleepIfPositive host duration_ms }

/-- The `WAIT` case of `execute`. -/
def waitCase (st : Exec) (duration_ms : JsVal) : Exec :=
  { st with trace := st.trace ++ [Event.sleep duration_ms] }

/-- The `default` case of `execute`: a warning and nothing else. -/
def defaultCase (st : Exec) (command : JsVal) : Exec :=
  { st with trace := st.trace ++ [Event.warnUnknownCommand command] }

/-- One iteration of the loop of `execute`, on the command `cmd`:
`const [command, ...args] = step; const duration_ms = args[0] || 0;` and the
`switch` on `command`.  The stream `rand` gives the identifiers drawn by the
instances created. -/
def step (host : Host) (rand : ℕ → String) (R : SequenceRunner) (st : Exec)
    (cmd : List JsVal) : Exec :=
  let command := cmd.headD JsVal.undefined
  let args := cmd.tail
  let duration_ms := (args.getD 0 JsVal.undefined).orElse (JsVal.num (JsNum.fin 0))
  if command = SEQUENCE_COMMANDS.VFX then vfxCase host rand R st args duration_ms
  else if command = SEQUENCE_COMMANDS.IMPACT_FRAME then impactFrameCase st args duration_ms
  else if command = SEQUENCE_COMMANDS.SHADOW then shadowCase host st args duration_ms
  else if command = SEQUENCE_COMMANDS.WAIT then waitCase st duration_ms
  else defaultCase st command

/-- The loop of `execute` over the remaining commands, followed by the final
`setOverlay('transparent')`.  An exception ends the run where it occurs. -/
def run (host : Host) (rand : ℕ → String) (R : SequenceRunner) : List (List JsVal) → Exec → Exec
  | [], st =>
    { st with
      engine := st.engine.setOverlay (JsVal.str "transparent")
      trace := st.trace ++ [Event.clearOverlay] }
  | c :: cs, st =>
    if (step host rand R st c).error.isSome then step host rand R st c
    else run host rand R cs (step host rand R st c)

/-- The method `execute()`, started on the engine state `E`. -/
def execute (host : Host) (rand : ℕ → String) (R : SequenceRunner) (E : ArcaneFX) : Exec :=
  run host rand R R.sequence { engine := E }

end SequenceRunner

/-- The outcome of `runSequence(sequence, x = '50%', y = '50%')`: a runner is
built on the current engine and executed.  The list `activeSequences`, which
only records the runners in flight, is not represented. -/
def ArcaneFX.runSequence (E : ArcaneFX) (host : Host) (rand : ℕ → String)
    (sequence : List (List JsVal)) (x y : JsVal) : Exec :=
  let x := if x = JsVal.undefined then JsVal.str "50%" else x
  let y := if y = JsVal.undefined then JsVal.str "50%" else y
  (SequenceRunner.new E sequence x y).execute host rand E

/-! ## Observations on traces -/

/-- The colour an event writes to the overlay, if it is an overlay write. -/
def Event.overlayWrite : Event → Option JsVal
  | Event.setOverlay color => some color
  | Event.clearOverlay => some (JsVal.str "transparent")
  | _ => none

/-- The overlay writes of a trace, in order. -/
def overlayWrites (trace : List Event) : List JsVal := trace.filterMap Event.overlayWrite

/-- The calls made by the `IMPACT_FRAME` case, in order. -/
def impactFrameEvents (args : List JsVal) (duration_ms : JsVal) : List Event :=
  SequenceRunner.htmlFxEvents (args.getD 2 JsVal.undefined) duration_ms
    ++ [Event.setOverlay (args.getD 1 JsVal.undefined), Event.sleep duration_ms]
    ++ (match args.getD 1 JsVal.undefined with
        | JsVal.str c => if SequenceRunner.clearsAfterDelay c then [Event.clearOverlay] else []
        | _ => [])

/-- The calls made by the `SHADOW` case, in order. -/
def shadowEvents (host : Host) (args : List JsVal) (duration_ms : JsVal) : List Event :=
  match createShadows host (args.getD 1 JsVal.undefined) (args.getD 2 JsVal.undefined) with
  | none => []
  | some clones =>
    [Event.createShadows (args.getD 1 JsVal.undefined) (args.getD 2 JsVal.undefined)
        duration_ms clones] ++ sleepIfPositive host duration_ms

/-- The delay of a command as the loop reads it: `args[0] || 0`. -/
def durationOf (cmd : List JsVal) : JsVal :=
  (cmd.tail.getD 0 JsVal.undefined).orElse (JsVal.num (JsNum.fin 0))

/-- The calls one command adds to the trace, up to the point where its
iteration ends or throws. -/
def stepEvents (host : Host) (R : SequenceRunner) (cmd : List JsVal) : List Event :=
  if cmd.headD JsVal.undefined = JsVal.str "VFX" then
    [Event.spawnGlobal (cmd.tail.getD 1 JsVal.undefined)
        ((cmd.tail.getD 2 JsVal.undefined).orElse (JsVal.num R.resolvedX))
        ((cmd.tail.getD 3 JsVal.undefined).orElse (JsVal.num R.resolvedY))
        (cmd.tail.getD 4 JsVal.undefined)]
      ++ sleepIfPositive host (durationOf cmd)
  else if cmd.headD JsVal.undefined = JsVal.str "IMPACT_FRAME" then
    impactFrameEvents cmd.tail (durationOf cmd)
  else if cmd.headD JsVal.undefined = JsVal.str "SHADOW" then
    shadowEvents host cmd.tail (durationOf cmd)
  else if cmd.headD JsVal.undefined = JsVal.str "WAIT" then [Event.sleep (durationOf cmd)]
  else [Event.warnUnknownCommand (cmd.headD JsVal.undefined)]

/-- The exception one command throws, if it throws. -/
def stepError (host : Host) (cmd : List JsVal) : Option JsError :=
  if cmd.headD JsVal.undefined = JsVal.str "VFX" then none
  else if cmd.headD JsVal.undefined = JsVal.str "IMPACT_FRAME" then
    match cmd.tail.getD 1 JsVal.undefined with
    | JsVal.str _ => none
    | _ => some JsError.typeError
  else if cmd.headD JsVal.undefined = JsVal.str "SHADOW" then
    match createShadows host (cmd.tail.getD 1 JsVal.undefined)
        (cmd.tail.getD 2 JsVal.undefined) with
    | none => some JsError.syntaxError
    | some _ => none
  else none

/-- The calls of a whole run on the commands `cs`: the calls of each command
up to the first one that throws, then the final cleanup if none throws. -/
def runEvents (host : Host) (R : SequenceRunner) : List (List JsVal) → List Event
  | [] => [Event.clearOverlay]
  | c :: cs =>
    if (stepError host c).isSome then stepEvents host R c
    else stepEvents host R c ++ runEvents host R cs

/-- The exception that ends a run on the commands `cs`, if one does. -/
def runError (host : Host) : List (List JsVal) → Option JsError
  | [] => none
  | c :: cs => if (stepError host c).isSome then stepError host c else runError host cs

/-! ## Reading the claims on traces -/

/-- The test `typeof v === 'string'`. -/
def JsVal.isString : JsVal → Bool
  | JsVal.str _ => true
  | _ => false

/-- The colour strings that the specification names as black: `black` itself
and the form `rgba(0,0,0,<alpha>)`. -/
def specDenotesBlack (color : String) : Bool :=
  color == "black" || (startsWith color "rgba(0,0,0," && color.toList.getLast? == some ')')

/-- A command whose kind is one of `VFX`, `IMPACT_FRAME`, `WAIT`, `SHADOW`. -/
def knownKind (cmd : List JsVal) : Bool :=
  cmd.headD JsVal.undefined == JsVal.str "VFX"
    || cmd.headD JsVal.undefined == JsVal.str "IMPACT_FRAME"
    || cmd.headD JsVal.undefined == JsVal.str "WAIT"
    || cmd.headD JsVal.undefined == JsVal.str "SHADOW"

/-- A command with the fields its kind requires: the colour of an
`IMPACT_FRAME` is a string, and the selector of a `SHADOW` is one the browser
accepts. -/
def wellFormed (host : Host) (cmd : List JsVal) : Bool :=
  if cmd.headD JsVal.undefined = JsVal.str "IMPACT_FRAME" then
    (cmd.tail.getD 1 JsVal.undefined).isString
  else if cmd.headD JsVal.undefined = JsVal.str "SHADOW" then
    (host.querySelectorAll (cmd.tail.getD 1 JsVal.undefined)).isSome
  else true

/-- The events that are a command's side effect: an engine spawn, the write
of a colour to the overlay, a creation of shadow clones. -/
def Event.isSideEffect : Event → Bool
  | Event.spawnGlobal _ _ _ _ => true
  | Event.setOverlay _ => true
  | Event.createShadows _ _ _ _ => true
  | _ => false

/-- The suspensions of the runner. -/
def Event.isSleep : Event → Bool
  | Event.sleep _ => true
  | _ => false

/-- The warnings about an unknown command. -/
def Event.isUnknownWarn : Event → Bool
  | Event.warnUnknownCommand _ => true
  | _ => false

/-- The side effect that a command declares: the spawn of a `VFX` with its
resolved arguments, the overlay write of an `IMPACT_FRAME`, the clones of a
`SHADOW`; none for `WAIT` and for an unknown kind. -/
def sideEffectOf (host : Host) (R : SequenceRunner) (cmd : List JsVal) : Option Event :=
  if cmd.headD JsVal.undefined = JsVal.str "VFX" then
    some (Event.spawnGlobal (cmd.tail.getD 1 JsVal.undefined)
      ((cmd.tail.getD 2 JsVal.undefined).orElse (JsVal.num R.resolvedX))
      ((cmd.tail.getD 3 JsVal.undefined).orElse (JsVal.num R.resolvedY))
      (cmd.tail.getD 4 JsVal.undefined))
  else if cmd.headD JsVal.undefined = JsVal.str "IMPACT_FRAME" then
    some (Event.setOverlay (cmd.tail.getD 1 JsVal.undefined))
  else if cmd.headD JsVal.undefined = JsVal.str "SHADOW" then
    (createShadows host (cmd.tail.getD 1 JsVal.undefined) (cmd.tail.getD 2 JsVal.undefined)).map
      (Event.createShadows (cmd.tail.getD 1 JsVal.undefined) (cmd.tail.getD 2 JsVal.undefined)
        (durationOf cmd))
  else none

/-- A `VFX` command whose effect name is in the registry `effects`. -/
def spawnsInstance (effects : List (String × Generator)) (cmd : List JsVal) : Bool :=
  cmd.headD JsVal.undefined == JsVal.str "VFX"
    && (mapGet effects (cmd.tail.getD 1 JsVal.undefined)).isSome

/-- The delay requested from the timer by `setTimeout(r, v)`: the numeric
value of `v`, and zero when that is negative or not finite.  The latency of
the timer and its rounding to whole milliseconds are not represented. -/
def Host.timerDelay (host : Host) (v : JsVal) : ℚ :=
  match host.toNumber v with
  | JsNum.fin q => max q 0
  | _ => 0

/-- The time the runner is suspended by an event. -/
def suspendedFor (host : Host) : Event → ℚ
  | Event.sleep d => host.timerDelay d
  | _ => 0

/-- The total time the runner is suspended over a trace. -/
def totalSuspended (host : Host) (trace : List Event) : ℚ :=
  (trace.map (suspendedFor host)).sum

/-- The delay a command declares, when it is a finite number. -/
def declaredDelay (cmd : List JsVal) : ℚ :=
  match cmd.tail.getD 0 JsVal.undefined with
  | JsVal.num (JsNum.fin q) => q
  | _ => 0

/-! ## Sample data -/

/-- A host for the sample runs: a page on which the selectors match no
element.  The sample sequences give their delays as numbers, so the
conversion of strings is not exercised. -/
def sampleHost : Host :=
  { querySelectorAll := fun _ => some [], stringToNumber := fun _ => JsNum.nan }

/-- An engine on an 800 by 600 viewport with `earth_shield` registered. -/
def sampleEngine : ArcaneFX :=
  { effects := [("earth_shield", earth_shield)], viewport := { width := 800, height := 600 } }

/-- A target element of 200 by 100 pixels. -/
def sampleElement : HTMLElement :=
  { offsetWidth := 200, offsetHeight := 100, computedBorderRadius := "0px",
    computedPosition := "static" }

/-- A stream of instance identifiers. -/
def sampleIds : ℕ → String := fun n => String.mk (List.replicate (n + 1) 'a')

/-- The sequence `[[WAIT, 50]]`. -/
def waitSequence : List (List JsVal) := [[JsVal.str "WAIT", JsVal.num (JsNum.fin 50)]]

/-- The sequence `[[IMPACT_FRAME, 100, 'black', 'none'], [WAIT, 0]]`. -/
def blackHoldSequence : List (List JsVal) :=
  [[JsVal.str "IMPACT_FRAME", JsVal.num (JsNum.fin 100), JsVal.str "black", JsVal.str "none"],
   [JsVal.str "WAIT", JsVal.num (JsNum.fin 0)]]

/-- The sequence `ULTIMATE_SEQUENCE` of `showcase.js`. -/
def ULTIMATE_SEQUENCE : List (List JsVal) :=
  [[JsVal.str "IMPACT_FRAME", JsVal.num (JsNum.fin 1), JsVal.str "black", JsVal.str "none"],
   [JsVal.str "WAIT", JsVal.num (JsNum.fin 100)],
   [JsVal.str "SHADOW", JsVal.num (JsNum.fin 500), JsVal.str ".effect-card, button",
     JsVal.str "#FF00FF"],
   [JsVal.str "VFX", JsVal.num (JsNum.fin 100), JsVal.str "anime_cut", JsVal.str "20%",
     JsVal.str "30%", JsVal.obj],
   [JsVal.str "VFX", JsVal.num (JsNum.fin 100), JsVal.str "anime_cut", JsVal.str "80%",
     JsVal.str "70%", JsVal.obj],
   [JsVal.str "WAIT", JsVal.num (JsNum.fin 200)],
   [JsVal.str "IMPACT_FRAME", JsVal.num (JsNum.fin 50), JsVal.str "transparent",
     JsVal.str "shake"],
   [JsVal.str "VFX", JsVal.num (JsNum.fin 1), JsVal.str "impact_flash_white", JsVal.str "50%",
     JsVal.str "50%", JsVal.obj],
   [JsVal.str "WAIT", JsVal.num (JsNum.fin 300)]]

/-- A global instance on a viewport of 800 by 600 pixels, with its origin at
the centre and nothing spawned yet. -/
def sampleInstance : EffectInstance :=
  EffectInstance.new "a" 800 600 false (JsNum.fin 400) (JsNum.fin 300) JsVal.obj

/-- The description `{ x: 0, y: 0, color: '#fff' }`, which gives no `life`. -/
def lifelessSpec : ParticleSpec :=
  { x := OptNum.of 0, y := OptNum.of 0, color := JsVal.str "#fff" }

/-- The description `{ x: 0, y: 0, color: '#fff', life: -1 }`. -/
def expiredSpec : ParticleSpec :=
  { x := OptNum.of 0, y := OptNum.of 0, color := JsVal.str "#fff", life := OptNum.of (-1) }

/-- The description `{ x: 0, y: 0, color: '#fff', life: 1 }`. -/
def lastTickSpec : ParticleSpec :=
  { x := OptNum.of 0, y := OptNum.of 0, color := JsVal.str "#fff", life := OptNum.of 1 }

/-- The description `{ x: 0, y: 0, color: '#fff', life: 30 }`. -/
def liveSpec : ParticleSpec :=
  { x := OptNum.of 0, y := OptNum.of 0, color := JsVal.str "#fff", life := OptNum.of 30 }

/-- A stand-in for the functions of `Math` used in sample evaluations. -/
def sampleMath : JsMath :=
  { cos := fun _ => 1, sin := fun _ => 0, atan2 := fun _ _ => JsNum.fin 0 }

/-- A stream of `Math.random()` results that are all 0.5. -/
def sampleRandom : ℕ → ℚ := fun _ => 1 / 2

/-- The registered effects whose generator spawns particles itself, each with
the number of `spawn` calls the generator makes. -/
def burstEffects : List (String × ℕ) :=
  [("fire_burst", 40), ("water_splash", 25), ("water_vortex", 30), ("wind_cutter", 11),
   ("earth_spike", 5), ("anime_cut", 1), ("hit_impact", 16), ("flash_step", 10),
   ("impact_flash_white", 51)]

/-- The registered effects whose generator only installs an emitter. -/
def emitterEffects : List String :=
  ["fire_engulf", "fire_spiral", "water_bubble", "wind_gust", "wind_swirl", "earth_crumble"]

/-- An engine with two registered global instances: `a` holds one particle of
life 30, `b` holds none. -/
def sampleFrameEngine : ArcaneFX :=
  { sampleEngine with
    activeGlobalEffects :=
      [("a", sampleInstance.spawn liveSpec),
       ("b", EffectInstance.new "b" 800 600 false (JsNum.fin 400) (JsNum.fin 300) JsVal.obj)] }

/-- An engine whose only registered global instance was populated by
`fire_engulf`. -/
def sampleEmitterEngine : ArcaneFX :=
  { sampleEngine with
    activeGlobalEffects := [("a", fire_engulf sampleRandom sampleInstance)] }

/-- The particle `new Particle(0, 0, { vx: 2, vy: 1, life: 3, drag: 0.5, gravity: 1 })`. -/
def sampleParticle : Particle :=
  Particle.new (JsNum.fin 0) (JsNum.fin 0)
    { vx := OptNum.of 2, vy := OptNum.of 1, life := OptNum.of 3, drag := OptNum.of 0.5,
      gravity := OptNum.of 1 }

/-! ## Repeated updates -/

/-- The instance after `n` calls of `update()`. -/
def EffectInstance.updates : ℕ → EffectInstance → EffectInstance
  | 0, fx => fx
  | n + 1, fx => (EffectInstance.updates n fx).update.fx

/-- The flag returned by call number `n + 1` of `update()`. -/
def EffectInstance.activeAt (fx : EffectInstance) (n : ℕ) : Bool :=
  (fx.updates n).update.active

/-! ## The hybrid `spawn` -/

/-- The second argument of `spawn`: an `HTMLElement`, or any other value. -/
inductive SpawnTarget where
  | element (el : HTMLElement)
  | value (v : JsVal)

/-- The method `spawn(name, targetOrX, y, options = {})`: a local spawn on an
element (with `opts = y || {}`), a global spawn at `(targetOrX, y || '50%')`
when `targetOrX` is a string or a number, and a global spawn at the centre
otherwise. -/
def ArcaneFX.spawn (E : ArcaneFX) (id : String) (name : JsVal) (targetOrX : SpawnTarget)
    (y options : JsVal) : LocalOutcome ⊕ SpawnOutcome :=
  match targetOrX with
  | SpawnTarget.element el => Sum.inl (E._spawnLocal id name el (y.orElse JsVal.obj))
  | SpawnTarget.value (JsVal.str s) =>
    Sum.inr (E._spawnGlobal id name (JsVal.str s) (y.orElse (JsVal.str "50%")) options)
  | SpawnTarget.value (JsVal.num n) =>
    Sum.inr (E._spawnGlobal id name (JsVal.num n) (y.orElse (JsVal.str "50%")) options)
  | SpawnTarget.value _ =>
    Sum.inr (E._spawnGlobal id name (JsVal.str "50%") (JsVal.str "50%") options)

/-! ## HTML animations: the `scale` option -/

/-- The method `String.prototype.endsWith`. -/
def endsWith (s suffix : String) : Bool := suffix.toList.isSuffixOf s.toList

/-- The method `toPixels(value)`. -/
def ArcaneFX.toPixels (E : ArcaneFX) : JsVal → JsNum
  | JsVal.num n => n
  | JsVal.str s =>
    if endsWith s "px" then parseFloatStr s
    else if endsWith s "%" then
      ((parseFloatStr s).div (JsNum.fin 100)).mul (JsNum.fin E.viewport.width)
    else if (parseFloatStr s).truthy then parseFloatStr s else JsNum.fin 0
  | v => if (parseFloat v).truthy then parseFloat v else JsNum.fin 0

/-- The entry `target.scale` of an `HTMLAnimation`. -/
structure ScaleTarget where
  x : JsNum
  y : JsNum
  deriving DecidableEq, Repr

namespace HTMLAnimation

/-- The branch of `calculateTarget()` for the key `scale` when the option is
not an object: `const pixelValue = this.arcaneFX.toPixels(value);
target[key] = { x: pixelValue, y: pixelValue }`.  An object value takes the
first branch of `calculateTarget()`, which copies the properties of the
object; it is not part of this function. -/
def scaleTarget (E : ArcaneFX) (value : JsVal) : Option ScaleTarget :=
  match value with
  | JsVal.obj => none
  | v => some { x := E.toPixels v, y := E.toPixels v }

/-- The computation of `newScale` in the case `scale` of
`applyTransformation(progress)`:
`const targetScale = parseFloat(targetValue.x) / 100;
const newScale = 1 + (targetScale - 1) * progress`. -/
def newScale (targetValue progress : JsNum) : JsNum :=
  (JsNum.fin 1).add
    ((((parseFloat (JsVal.num targetValue)).div (JsNum.fin 100)).sub (JsNum.fin 1)).mul progress)

/-- The factors of `scaleX(..)` and `scaleY(..)` that `applyTransformation`
writes into the transform of the element at the given eased progress, for an
animation created with the option `scale: value`. -/
def appliedScale (E : ArcaneFX) (value : JsVal) (progress : JsNum) : Option (JsNum × JsNum) :=
  (scaleTarget E value).map (fun t => (newScale t.x progress, newScale t.y progress))

end HTMLAnimation

/-! ## The generator `generateLightningFork` -/

/-- The number of runs of the body of `for (let j = 0; j < length; j++)`:
the least natural number that is not below `length`. -/
def loopCount (length : ℚ) : ℕ := ⌈length⌉₊

/-- One run of the body of the loop over the branches in
`generateLightningFork`, with its random draws numbered from `k`: the
particles it pushes and the number of the next draw. -/
def lightningBranch (M : JsMath) (rnd : ℕ → ℚ) (x y : ℚ) (k : ℕ) : List Particle × ℕ :=
  ((List.range (loopCount (3 + rnd (k + 2) * 3))).map
      (fun (j : ℕ) =>
        Particle.new
          (JsNum.fin (x + M.sin ((rnd (k + 1) - 0.5) * M.pi / 3) * ((2 + rnd k * 4 + j) * 15)))
          (JsNum.fin (y - (2 + rnd k * 4 + j) * 15))
          { size := OptNum.of (1 + rnd (k + 3 + j)), color := JsVal.str "#00FFFF",
            life := OptNum.of 300 }),
    k + 3 + loopCount (3 + rnd (k + 2) * 3))

/-- The loop over the branches in `generateLightningFork`: `b` runs of the
body, with the draws numbered from `k`. -/
def lightningBranches (M : JsMath) (rnd : ℕ → ℚ) (x y : ℚ) : ℕ → ℕ → List Particle × ℕ
  | 0, k => ([], k)
  | b + 1, k =>
    ((lightningBranch M rnd x y k).1
        ++ (lightningBranches M rnd x y b (lightningBranch M rnd x y k).2).1,
      (lightningBranches M rnd x y b (lightningBranch M rnd x y k).2).2)

/-- The method `generateLightningFork(x, y, effectInstance)`, as a function on
the array `effectInstance.particles`: eight particles of the main bolt, three
branches, ten sparks.  The draws of `Math.random()` are numbered in the order
of the calls. -/
def generateLightningFork (M : JsMath) (rnd : ℕ → ℚ) (x y : ℚ) (particles : List Particle) :
    List Particle :=
  particles
    ++ (List.range 8).map
        (fun (i : ℕ) =>
          Particle.new (JsNum.fin (x + (rnd (2 * i) - 0.5) * 10)) (JsNum.fin (y - i * 15))
            { size := OptNum.of (2 + rnd (2 * i + 1) * 2), color := JsVal.str "#00FFFF",
              life := OptNum.of (400 - i * 30) })
    ++ (lightningBranches M rnd x y 3 16).1
    ++ (List.range 10).map
        (fun (i : ℕ) =>
          Particle.new
            (JsNum.fin (x + M.cos (rnd ((lightningBranches M rnd x y 3 16).2 + 2 * i) * M.pi * 2)
              * (20 + rnd ((lightningBranches M rnd x y 3 16).2 + 2 * i + 1) * 30)))
            (JsNum.fin (y + M.sin (rnd ((lightningBranches M rnd x y 3 16).2 + 2 * i) * M.pi * 2)
              * (20 + rnd ((lightningBranches M rnd x y 3 16).2 + 2 * i + 1) * 30)))
            { size := OptNum.of 1, color := JsVal.str "#FFFFFF", life := OptNum.of 200 })

/-! ## A `Particle` object in the collection of an instance -/

/-- The fields of a `Particle` object that the loop body of
`EffectInstance.update()` reads and writes, as an entry of the collection;
`shrink` is the value of the property `shrink` of the object (`undefined`
unless it was added to the object), and `lineWidth` is not a property of a
`Particle`. -/
def Particle.asEntry (p : Particle) (shrink : JsVal) : SpawnedParticle :=
  { x := p.x, y := p.y, vx := p.vx, vy := p.vy, size := p.size, gravity := p.gravity,
    growth := p.growth, length := p.length, lineWidth := JsNum.nan, life := some p.life,
    maxLife := some p.maxLife, color := p.color, shrink := shrink, type := p.type }

/-! ## Reading the claims on draw calls -/

/-- The draw call paints: `fill()`, `stroke()` or `fillRect(..)`. -/
def CanvasOp.isPaint : CanvasOp → Bool
  | CanvasOp.fill => true
  | CanvasOp.stroke => true
  | CanvasOp.fillRect _ _ _ _ => true
  | _ => false

/-- The radius, widths, heights and line widths that a call passes. -/
def CanvasOp.extents : CanvasOp → List JsNum
  | CanvasOp.arc _ _ radius _ _ => [radius]
  | CanvasOp.fillRect _ _ w h => [w, h]
  | CanvasOp.clearRect _ _ w h => [w, h]
  | CanvasOp.setLineWidth width => [width]
  | _ => []

/-- The opacity that a call sets, if it sets one. -/
def CanvasOp.alpha : CanvasOp → Option JsNum
  | CanvasOp.setGlobalAlpha a => some a
  | _ => none

/-- The comparison `a >= 0`. -/
def JsNum.geZero : JsNum → Bool
  | JsNum.fin q => decide (0 ≤ q)
  | JsNum.posInf => true
  | _ => false

/-- The number of painting calls in a list of draw calls. -/
def paintCount (ops : List CanvasOp) : ℕ := (ops.filter CanvasOp.isPaint).length

/-- The archetypes for which `EffectInstance.render` has a branch. -/
def renderedArchetypes : List JsVal :=
  [JsVal.str "circle", JsVal.str "square", JsVal.str "triangle", JsVal.str "stroke",
   JsVal.str "line"]

/-- The archetypes of the specification for which `EffectInstance.render` has
no branch. -/
def unrenderedArchetypes : List JsVal :=
  [JsVal.str "wave", JsVal.str "lightning", JsVal.str "card", JsVal.str "slash",
   JsVal.str "flash"]

/-- The particle was spawned with the positive whole life `L` and has been
advanced `k` times, `k ≤ L`. -/
def SpawnedParticle.agedFrom (p : SpawnedParticle) (L k : ℕ) : Prop :=
  0 < L ∧ k ≤ L ∧ p.maxLife = some (JsNum.fin L) ∧ p.life = some (JsNum.fin ((L : ℚ) - k))

/-- Every description the emitter of the instance ever passes to `spawn` has
a whole life between 1 and `L`. -/
def EffectInstance.emitsLivesUpTo (fx : EffectInstance) (L : ℕ) : Prop :=
  ∀ e : Emitter, fx.emitter = some e →
    ∀ (i : ℕ) (s : ParticleSpec), s ∈ e.emit i →
      ∃ l : ℕ, 1 ≤ l ∧ l ≤ L ∧ s.life = some (JsNum.fin l)

/-- Every particle in the collection has a whole life between 1 and `L`. -/
def EffectInstance.holdsLivesUpTo (fx : EffectInstance) (L : ℕ) : Prop :=
  ∀ p ∈ fx.particles, ∃ l : ℕ, 1 ≤ l ∧ l ≤ L ∧ p.life = some (JsNum.fin l)

/-! ## More sample data -/

/-- The description `{ x: 0, y: 0, color: '#fff', life: 30, size: 5,
growth: -8, type: 'square' }`. -/
def shrinkingSquareSpec : ParticleSpec :=
  { x := OptNum.of 0, y := OptNum.of 0, color := JsVal.str "#fff", life := OptNum.of 30,
    size := OptNum.of 5, growth := OptNum.of (-8), type := JsVal.str "square" }

/-- The description `{ x: 0, y: 0, color: '#fff', life: 30, type: 'wave' }`. -/
def waveSpec : ParticleSpec :=
  { x := OptNum.of 0, y := OptNum.of 0, color := JsVal.str "#fff", life := OptNum.of 30,
    type := JsVal.str "wave" }

/-- A stream of `Math.random()` results that are all 0. -/
def zeroRandom : ℕ → ℚ := fun _ => 0

/-- The particle `new Particle(0, 0, { life: 3, drag: 0.5 })`, which does not
move. -/
def stillParticle : Particle :=
  Particle.new (JsNum.fin 0) (JsNum.fin 0) { life := OptNum.of 3, drag := OptNum.of 0.5 }

/-- The description `{ x: 0, y: 0, vx: 2, vy: -3, gravity: 0.4, size: 5,
color: '#fff', life: 30, shrink: true }`. -/
def fallingSpec : ParticleSpec :=
  { x := OptNum.of 0, y := OptNum.of 0, vx := OptNum.of 2, vy := OptNum.of (-3),
    gravity := OptNum.of (2 / 5), size := OptNum.of 5, color := JsVal.str "#fff",
    life := OptNum.of 30, shrink := JsVal.bool true }

/-- The particle that `spawn` pushes for `fallingSpec` on an instance with
its origin at `(400, 300)`. -/
def fallingParticle : SpawnedParticle :=
  EffectInstance.spawned (JsNum.fin 400) (JsNum.fin 300) fallingSpec

/-- The number of `spawn` calls that the registered generator of the given
name makes: the entry of `burstEffects`, and 0 for the other names. -/
def spawnCalls (name : String) : ℕ := (burstEffects.lookup name).getD 0

/-! ## Lemmas on maps and runs -/

theorem mapGet_of_not_key {β : Type} (m : List (String × β)) (name : JsVal)
    (h : ∀ e ∈ m, JsVal.str e.1 ≠ name) : mapGet m name = none := by
  cases name with
  | str k =>
    have hfind : m.find? (fun e => e.1 == k) = none := by
      rw [List.find?_eq_none]
      intro e he hk
      exact h e he (by simpa using hk)
    simp [mapGet, hfind]
  | _ => rfl

theorem run_completed (host : Host) (rand : ℕ → String) (R : SequenceRunner)
    (cs : List (List JsVal)) (st : Exec)
    (h : (SequenceRunner.run host rand R cs st).error = none) :
    (∃ t, (SequenceRunner.run host rand R cs st).trace = t ++ [Event.clearOverlay]) ∧
      (SequenceRunner.run host rand R cs st).engine.overlay = JsVal.str "transparent" := by
  induction cs generalizing st with
  | nil => exact ⟨⟨st.trace, rfl⟩, rfl⟩
  | cons c cs ih =>
    unfold SequenceRunner.run at h ⊢
    by_cases hc : (SequenceRunner.step host rand R st c).error.isSome
    · rw [if_pos hc] at h
      rw [h] at hc
      exact absurd hc (by simp)
    · rw [if_neg hc] at h ⊢
      exact ih _ h

theorem overlayWrites_append_clear (t : List Event) :
    (overlayWrites (t ++ [Event.clearOverlay])).getLast? = some (JsVal.str "transparent") := by
  simp [overlayWrites, List.filterMap_append, Event.overlayWrite]

theorem impactFrameCase_trace (st : Exec) (args : List JsVal) (d : JsVal) :
    (SequenceRunner.impactFrameCase st args d).trace = st.trace ++ impactFrameEvents args d := by
  unfold SequenceRunner.impactFrameCase impactFrameEvents
  generalize args.getD 1 JsVal.undefined = color
  cases color with
  | str c => by_cases hc : SequenceRunner.clearsAfterDelay c = true <;> simp [hc]
  | _ => simp

theorem step_trace (host : Host) (rand : ℕ → String) (R : SequenceRunner) (st : Exec)
    (cmd : List JsVal) :
    (SequenceRunner.step host rand R st cmd).trace = st.trace ++ stepEvents host R cmd := by
  simp only [stepEvents, SequenceRunner.step, durationOf]
  split_ifs
  · simp [SequenceRunner.vfxCase]
  · exact impactFrameCase_trace _ _ _
  · simp only [SequenceRunner.shadowCase, shadowEvents]
    generalize createShadows host _ _ = r
    cases r <;> simp
  · simp [SequenceRunner.waitCase]
  · simp [SequenceRunner.defaultCase]

theorem step_error (host : Host) (rand : ℕ → String) (R : SequenceRunner) (st : Exec)
    (cmd : List JsVal) (h : st.error = none) :
    (SequenceRunner.step host rand R st cmd).error = stepError host cmd := by
  simp only [stepError, SequenceRunner.step]
  split_ifs
  · simp [SequenceRunner.vfxCase, h]
  · unfold SequenceRunner.impactFrameCase
    generalize cmd.tail.getD 1 JsVal.undefined = color
    cases color with
    | str c => by_cases hc : SequenceRunner.clearsAfterDelay c = true <;> simp [hc, h]
    | _ => simp
  · simp only [SequenceRunner.shadowCase]
    generalize createShadows host _ _ = r
    cases r <;> simp [h]
  · simp [SequenceRunner.waitCase, h]
  · simp [SequenceRunner.defaultCase, h]

theorem run_trace_error (host : Host) (rand : ℕ → String) (R : SequenceRunner)
    (cs : List (List JsVal)) (st : Exec) (h : st.error = none) :
    (SequenceRunner.run host rand R cs st).trace = st.trace ++ runEvents host R cs ∧
      (SequenceRunner.run host rand R cs st).error = runError host cs := by
  induction cs generalizing st with
  | nil => exact ⟨rfl, h⟩
  | cons c cs ih =>
    have he := step_error host rand R st c h
    have ht := step_trace host rand R st c
    unfold SequenceRunner.run runEvents runError
    by_cases hc : (stepError host c).isSome
    · rw [if_pos (by rw [he]; exact hc), if_pos hc, if_pos hc]
      exact ⟨ht, he⟩
    · rw [if_neg (by rw [he]; exact hc), if_neg hc, if_neg hc]
      have hnone : (SequenceRunner.step host rand R st c).error = none := by
        rw [he]; simpa using hc
      obtain ⟨h1, h2⟩ := ih _ hnone
      exact ⟨by rw [h1, ht, List.append_assoc], h2⟩

theorem startsWith_rgba (alpha : String) :
    startsWith ("rgba(0,0,0," ++ alpha ++ ")") "rgba(0,0,0" = true := by
  simp only [startsWith, String.toList, String.data_append]
  rw [List.isPrefixOf_iff_prefix]
  exact ⟨[','] ++ alpha.data ++ [')'], by simp⟩

theorem stepError_of_wellFormed (host : Host) (cmd : List JsVal)
    (h : wellFormed host cmd = true) : stepError host cmd = none := by
  unfold wellFormed at h
  unfold stepError
  by_cases h1 : cmd.headD JsVal.undefined = JsVal.str "VFX"
  · rw [if_pos h1]
  · rw [if_neg h1]
    by_cases h2 : cmd.headD JsVal.undefined = JsVal.str "IMPACT_FRAME"
    · rw [if_pos h2] at h ⊢
      generalize cmd.tail.getD 1 JsVal.undefined = color at h ⊢
      cases color <;> simp_all [JsVal.isString]
    · rw [if_neg h2] at h ⊢
      by_cases h3 : cmd.headD JsVal.undefined = JsVal.str "SHADOW"
      · rw [if_pos h3] at h ⊢
        simp only [createShadows]
        generalize host.querySelectorAll _ = r at h ⊢
        cases r <;> simp_all
      · rw [if_neg h3]

theorem runEvents_of_wellFormed (host : Host) (R : SequenceRunner) (cs : List (List JsVal))
    (h : ∀ c ∈ cs, wellFormed host c = true) :
    runEvents host R cs = cs.flatMap (stepEvents host R) ++ [Event.clearOverlay] ∧
      runError host cs = none := by
  induction cs with
  | nil => exact ⟨rfl, rfl⟩
  | cons c cs ih =>
    have hc := stepError_of_wellFormed host c (h c (List.mem_cons_self _ _))
    obtain ⟨h1, h2⟩ := ih (fun d hd => h d (List.mem_cons_of_mem _ hd))
    simp [runEvents, runError, hc, h1, h2]

theorem stepEvents_sideEffect (host : Host) (R : SequenceRunner) (cmd : List JsVal) :
    (stepEvents host R cmd).filter Event.isSideEffect = (sideEffectOf host R cmd).toList := by
  unfold stepEvents sideEffectOf
  split_ifs
  · simp only [sleepIfPositive]
    split_ifs <;> simp [List.filter_cons, Event.isSideEffect]
  · unfold impactFrameEvents SequenceRunner.htmlFxEvents
    generalize cmd.tail.getD 1 JsVal.undefined = color
    cases color with
    | str c => by_cases hc : SequenceRunner.clearsAfterDelay c = true <;>
        (split_ifs <;> simp [List.filter_cons, Event.isSideEffect, hc])
    | _ => split_ifs <;> simp [List.filter_cons, Event.isSideEffect]
  · simp only [shadowEvents]
    generalize createShadows host _ _ = r
    cases r with
    | none => simp
    | some clones =>
      simp only [sleepIfPositive]
      split_ifs <;> simp [List.filter_cons, Event.isSideEffect]
  · simp [Event.isSideEffect]
  · simp [Event.isSideEffect]

theorem stepEvents_sideEffect_sleep (host : Host) (R : SequenceRunner) (cmd : List JsVal) :
    (stepEvents host R cmd).filter (fun e => e.isSideEffect || e.isSleep)
      = (sideEffectOf host R cmd).toList ++ (stepEvents host R cmd).filter Event.isSleep := by
  unfold stepEvents sideEffectOf
  split_ifs
  · simp only [sleepIfPositive]
    split_ifs <;> simp [List.filter_cons, Event.isSideEffect, Event.isSleep]
  · unfold impactFrameEvents SequenceRunner.htmlFxEvents
    generalize cmd.tail.getD 1 JsVal.undefined = color
    cases color with
    | str c => by_cases hc : SequenceRunner.clearsAfterDelay c = true <;>
        (split_ifs <;> simp [List.filter_cons, Event.isSideEffect, Event.isSleep, hc])
    | _ => split_ifs <;> simp [List.filter_cons, Event.isSideEffect, Event.isSleep]
  · simp only [shadowEvents]
    generalize createShadows host _ _ = r
    cases r with
    | none => simp
    | some clones =>
      simp only [sleepIfPositive]
      split_ifs <;> simp [List.filter_cons, Event.isSideEffect, Event.isSleep]
  · simp [Event.isSideEffect, Event.isSleep]
  · simp [Event.isSideEffect, Event.isSleep]

theorem durationOf_of_nonneg (cmd : List JsVal) (q : ℚ)
    (hd : cmd.tail.getD 0 JsVal.undefined = JsVal.num (JsNum.fin q)) :
    durationOf cmd = JsVal.num (JsNum.fin q) := by
  unfold durationOf JsVal.orElse
  rw [hd]
  by_cases hq : q = 0
  · subst hq; simp [JsVal.truthy, JsNum.truthy]
  · simp [JsVal.truthy, JsNum.truthy, hq]

theorem timerDelay_fin (host : Host) (q : ℚ) (hq : 0 ≤ q) :
    host.timerDelay (JsVal.num (JsNum.fin q)) = q := by
  simp [Host.timerDelay, Host.toNumber, hq]

theorem totalSuspended_sleepIfPositive (host : Host) (q : ℚ) (hq : 0 ≤ q) :
    totalSuspended host (sleepIfPositive host (JsVal.num (JsNum.fin q))) = q := by
  unfold sleepIfPositive Host.gtZero
  by_cases h0 : 0 < q
  · simp [Host.toNumber, JsNum.gtZero, h0, totalSuspended, suspendedFor, timerDelay_fin host q hq]
  · have : q = 0 := le_antisymm (not_lt.mp h0) hq
    simp [Host.toNumber, JsNum.gtZero, h0, totalSuspended, this]

theorem totalSuspended_append (host : Host) (a b : List Event) :
    totalSuspended host (a ++ b) = totalSuspended host a + totalSuspended host b := by
  simp [totalSuspended]

theorem totalSuspended_stepEvents (host : Host) (R : SequenceRunner) (cmd : List JsVal) (q : ℚ)
    (hk : knownKind cmd = true) (hw : wellFormed host cmd = true) (hq : 0 ≤ q)
    (hd : cmd.tail.getD 0 JsVal.undefined = JsVal.num (JsNum.fin q)) :
    totalSuspended host (stepEvents host R cmd) = q := by
  have hdur := durationOf_of_nonneg cmd q hd
  have ht := timerDelay_fin host q hq
  unfold stepEvents
  rw [hdur]
  by_cases h1 : cmd.headD JsVal.undefined = JsVal.str "VFX"
  · rw [if_pos h1, totalSuspended_append, totalSuspended_sleepIfPositive host q hq]
    simp [totalSuspended, suspendedFor]
  · rw [if_neg h1]
    by_cases h2 : cmd.headD JsVal.undefined = JsVal.str "IMPACT_FRAME"
    · rw [if_pos h2]
      unfold impactFrameEvents SequenceRunner.htmlFxEvents
      generalize cmd.tail.getD 1 JsVal.undefined = color
      cases color with
      | str c => by_cases hc : SequenceRunner.clearsAfterDelay c = true <;>
          (split_ifs <;> simp [totalSuspended, suspendedFor, hc, ht])
      | _ => split_ifs <;> simp [totalSuspended, suspendedFor, ht]
    · rw [if_neg h2]
      by_cases h3 : cmd.headD JsVal.undefined = JsVal.str "SHADOW"
      · rw [if_pos h3]
        have hw2 : (host.querySelectorAll (cmd.tail.getD 1 JsVal.undefined)).isSome = true := by
          unfold wellFormed at hw
          rw [if_neg h2, if_pos h3] at hw
          exact hw
        obtain ⟨els, hels⟩ := Option.isSome_iff_exists.mp hw2
        simp only [shadowEvents, createShadows, hels, Option.map_some']
        rw [totalSuspended_append, totalSuspended_sleepIfPositive host q hq]
        simp [totalSuspended, suspendedFor]
      · rw [if_neg h3]
        have h4 : cmd.headD JsVal.undefined = JsVal.str "WAIT" := by
          simp only [knownKind, Bool.or_eq_true, beq_iff_eq] at hk
          rcases hk with ((h | h) | h) | h
          · exact absurd h h1
          · exact absurd h h2
          · exact h
          · exact absurd h h3
        rw [if_pos h4]
        simp [totalSuspended, suspendedFor, ht]

theorem spawnGlobal_effects_returned (E : ArcaneFX) (id : String) (name x y opts : JsVal) :
    (E._spawnGlobal id name x y opts).engine.effects = E.effects ∧
      (E._spawnGlobal id name x y opts).returned.isSome = (mapGet E.effects name).isSome := by
  unfold ArcaneFX._spawnGlobal
  split <;> rename_i hg <;> simp [hg]

theorem step_engine_draws (host : Host) (rand : ℕ → String) (R : SequenceRunner) (st : Exec)
    (cmd : List JsVal) :
    (SequenceRunner.step host rand R st cmd).engine.effects = st.engine.effects ∧
      (SequenceRunner.step host rand R st cmd).draws
        = st.draws + (if spawnsInstance st.engine.effects cmd = true then 1 else 0) := by
  unfold SequenceRunner.step
  by_cases h1 : cmd.headD JsVal.undefined = JsVal.str "VFX"
  · have hb : (cmd.headD JsVal.undefined == JsVal.str "VFX") = true := by
      rw [beq_iff_eq]; exact h1
    simp only [if_pos h1, SequenceRunner.vfxCase, spawnsInstance, hb, Bool.true_and]
    rw [(spawnGlobal_effects_returned _ _ _ _ _ _).1, (spawnGlobal_effects_returned _ _ _ _ _ _).2]
    refine ⟨rfl, ?_⟩
    split_ifs <;> rfl
  · have hb : (cmd.headD JsVal.undefined == JsVal.str "VFX") = false := by
      rw [beq_eq_false_iff_ne]; exact h1
    have hs : spawnsInstance st.engine.effects cmd = false := by
      simp only [spawnsInstance, hb, Bool.false_and]
    rw [if_neg h1, hs]
    by_cases h2 : cmd.headD JsVal.undefined = JsVal.str "IMPACT_FRAME"
    · rw [if_pos h2]
      unfold SequenceRunner.impactFrameCase
      generalize cmd.tail.getD 1 JsVal.undefined = color
      cases color with
      | str c => by_cases hc : SequenceRunner.clearsAfterDelay c = true <;> simp [hc, ArcaneFX.setOverlay]
      | _ => simp [ArcaneFX.setOverlay]
    · rw [if_neg h2]
      by_cases h3 : cmd.headD JsVal.undefined = JsVal.str "SHADOW"
      · rw [if_pos h3]
        simp only [SequenceRunner.shadowCase]
        generalize createShadows host _ _ = r
        cases r <;> simp
      · rw [if_neg h3]
        by_cases h4 : cmd.headD JsVal.undefined = JsVal.str "WAIT"
        · rw [if_pos h4]; simp [SequenceRunner.waitCase]
        · rw [if_neg h4]; simp [SequenceRunner.defaultCase]

theorem run_engine_draws (host : Host) (rand : ℕ → String) (R : SequenceRunner)
    (cs : List (List JsVal)) (st : Exec) (h : ∀ c ∈ cs, wellFormed host c = true)
    (he : st.error = none) :
    (SequenceRunner.run host rand R cs st).engine.effects = st.engine.effects ∧
      (SequenceRunner.run host rand R cs st).draws
        = st.draws + (cs.filter (spawnsInstance st.engine.effects)).length := by
  induction cs generalizing st with
  | nil => exact ⟨rfl, by simp [SequenceRunner.run]⟩
  | cons c cs ih =>
    have hc := stepError_of_wellFormed host c (h c (List.mem_cons_self _ _))
    have herr := step_error host rand R st c he
    rw [hc] at herr
    obtain ⟨h1, h2⟩ := step_engine_draws host rand R st c
    obtain ⟨i1, i2⟩ := ih (SequenceRunner.step host rand R st c) (fun d hd => h d (List.mem_cons_of_mem _ hd)) herr
    unfold SequenceRunner.run
    rw [if_neg (by rw [herr]; simp)]
    refine ⟨i1.trans h1, ?_⟩
    rw [i2, h2, h1, List.filter_cons]
    split_ifs <;> simp
    omega

theorem flatMap_filter_sideEffect (host : Host) (R : SequenceRunner) (cs : List (List JsVal)) :
    (cs.flatMap (stepEvents host R)).filter Event.isSideEffect
      = cs.filterMap (sideEffectOf host R) := by
  induction cs with
  | nil => rfl
  | cons c cs ih =>
    rw [List.flatMap_cons, List.filter_append, ih, stepEvents_sideEffect, List.filterMap_cons]
    cases sideEffectOf host R c <;> simp

theorem flatMap_filter_sideEffect_sleep (host : Host) (R : SequenceRunner)
    (cs : List (List JsVal)) :
    (cs.flatMap (stepEvents host R)).filter (fun e => e.isSideEffect || e.isSleep)
      = cs.flatMap (fun c =>
          (sideEffectOf host R c).toList ++ (stepEvents host R c).filter Event.isSleep) := by
  induction cs with
  | nil => rfl
  | cons c cs ih =>
    rw [List.flatMap_cons, List.filter_append, ih, stepEvents_sideEffect_sleep, List.flatMap_cons]

theorem totalSuspended_flatMap (host : Host) (R : SequenceRunner) (cs : List (List JsVal))
    (h : ∀ c ∈ cs, totalSuspended host (stepEvents host R c) = declaredDelay c) :
    totalSuspended host (cs.flatMap (stepEvents host R)) = (cs.map declaredDelay).sum := by
  induction cs with
  | nil => rfl
  | cons c cs ih =>
    rw [List.flatMap_cons, totalSuspended_append, h c (List.mem_cons_self _ _),
      ih (fun d hd => h d (List.mem_cons_of_mem _ hd)), List.map_cons, List.sum_cons]

theorem totalSuspended_filter_isSleep (host : Host) (t : List Event) :
    totalSuspended host (t.filter Event.isSleep) = totalSuspended host t := by
  induction t with
  | nil => rfl
  | cons e t ih =>
    cases e <;> simp_all [List.filter_cons, Event.isSleep, totalSuspended, suspendedFor]

theorem step_unknown (host : Host) (rand : ℕ → String) (R : SequenceRunner) (st : Exec)
    (cmd : List JsVal) (h : knownKind cmd = false) :
    SequenceRunner.step host rand R st cmd
      = { st with trace := st.trace ++ [Event.warnUnknownCommand (cmd.headD JsVal.undefined)] } := by
  simp only [knownKind, Bool.or_eq_false_iff, beq_eq_false_iff_ne, ne_eq] at h
  obtain ⟨⟨⟨h1, h2⟩, h4⟩, h3⟩ := h
  unfold SequenceRunner.step
  simp only [if_neg h1, if_neg h2, if_neg h3, if_neg h4, SequenceRunner.defaultCase]

theorem stepEvents_unknown (host : Host) (R : SequenceRunner) (cmd : List JsVal)
    (h : knownKind cmd = false) :
    stepEvents host R cmd = [Event.warnUnknownCommand (cmd.headD JsVal.undefined)] ∧
      stepError host cmd = none := by
  simp only [knownKind, Bool.or_eq_false_iff, beq_eq_false_iff_ne, ne_eq] at h
  obtain ⟨⟨⟨h1, h2⟩, h4⟩, h3⟩ := h
  unfold stepEvents stepError
  simp only [if_neg h1, if_neg h2, if_neg h3, if_neg h4, and_self]

theorem stepEvents_known_no_warn (host : Host) (R : SequenceRunner) (cmd : List JsVal)
    (h : knownKind cmd = true) :
    (stepEvents host R cmd).filter (fun e => !e.isUnknownWarn) = stepEvents host R cmd := by
  unfold stepEvents
  split_ifs with h1 h2 h3 h4
  · simp only [sleepIfPositive]
    split_ifs <;> simp [List.filter_cons, Event.isUnknownWarn]
  · unfold impactFrameEvents SequenceRunner.htmlFxEvents
    generalize cmd.tail.getD 1 JsVal.undefined = color
    cases color with
    | str c => by_cases hc : SequenceRunner.clearsAfterDelay c = true <;>
        (split_ifs <;> simp [List.filter_cons, Event.isUnknownWarn, hc])
    | _ => split_ifs <;> simp [List.filter_cons, Event.isUnknownWarn]
  · simp only [shadowEvents]
    generalize createShadows host _ _ = r
    cases r with
    | none => simp
    | some clones =>
      simp only [sleepIfPositive]
      split_ifs <;> simp [List.filter_cons, Event.isUnknownWarn]
  · simp [Event.isUnknownWarn]
  · exfalso
    simp only [knownKind, Bool.or_eq_true, beq_iff_eq] at h
    rcases h with ((h | h) | h) | h
    · exact h1 h
    · exact h2 h
    · exact h4 h
    · exact h3 h

theorem runEvents_cons (host : Host) (R : SequenceRunner) (c : List JsVal)
    (cs : List (List JsVal)) :
    runEvents host R (c :: cs)
      = if (stepError host c).isSome then stepEvents host R c
        else stepEvents host R c ++ runEvents host R cs := rfl

theorem runError_cons (host : Host) (c : List JsVal) (cs : List (List JsVal)) :
    runError host (c :: cs)
      = if (stepError host c).isSome then stepError host c else runError host cs := rfl

theorem runEvents_filter_known (host : Host) (R : SequenceRunner) (cs : List (List JsVal)) :
    runEvents host R (cs.filter knownKind) = (runEvents host R cs).filter (fun e => !e.isUnknownWarn)
      ∧ runError host (cs.filter knownKind) = runError host cs := by
  induction cs with
  | nil => exact ⟨rfl, rfl⟩
  | cons c cs ih =>
    obtain ⟨ih1, ih2⟩ := ih
    by_cases hk : knownKind c = true
    · rw [List.filter_cons_of_pos hk, runEvents_cons, runEvents_cons, runError_cons, runError_cons]
      by_cases he : (stepError host c).isSome
      · rw [if_pos he, if_pos he, if_pos he, if_pos he]
        exact ⟨(stepEvents_known_no_warn host R c hk).symm, rfl⟩
      · rw [if_neg he, if_neg he, if_neg he, if_neg he, List.filter_append,
          stepEvents_known_no_warn host R c hk, ih1]
        exact ⟨rfl, ih2⟩
    · have hk2 : knownKind c = false := by simpa using hk
      obtain ⟨h1, h2⟩ := stepEvents_unknown host R c hk2
      rw [List.filter_cons_of_neg hk, runEvents_cons, runError_cons, h2, h1]
      simp only [Option.isSome_none, Bool.false_eq_true, if_false]
      refine ⟨?_, ih2⟩
      rw [ih1]
      rfl

theorem step_agree (host : Host) (rand : ℕ → String) (R R2 : SequenceRunner)
    (hx : R2.resolvedX = R.resolvedX) (hy : R2.resolvedY = R.resolvedY) (st st2 : Exec)
    (cmd : List JsVal) (h1 : st2.engine = st.engine) (h2 : st2.draws = st.draws)
    (h3 : st2.error = st.error) :
    (SequenceRunner.step host rand R2 st2 cmd).engine
        = (SequenceRunner.step host rand R st cmd).engine ∧
      (SequenceRunner.step host rand R2 st2 cmd).draws
        = (SequenceRunner.step host rand R st cmd).draws ∧
      (SequenceRunner.step host rand R2 st2 cmd).error
        = (SequenceRunner.step host rand R st cmd).error := by
  simp only [SequenceRunner.step]
  split_ifs
  · simp [SequenceRunner.vfxCase, h1, h2, h3, hx, hy]
  · unfold SequenceRunner.impactFrameCase
    generalize cmd.tail.getD 1 JsVal.undefined = color
    cases color with
    | str c => by_cases hc : SequenceRunner.clearsAfterDelay c = true <;> simp [hc, h1, h2, h3]
    | _ => simp [h1, h2, h3]
  · simp only [SequenceRunner.shadowCase]
    generalize createShadows host _ _ = r
    cases r <;> simp [h1, h2, h3]
  · simp [SequenceRunner.waitCase, h1, h2, h3]
  · simp [SequenceRunner.defaultCase, h1, h2, h3]

theorem stepEvents_congr (host : Host) (R R2 : SequenceRunner)
    (hx : R2.resolvedX = R.resolvedX) (hy : R2.resolvedY = R.resolvedY) (cmd : List JsVal) :
    stepEvents host R2 cmd = stepEvents host R cmd := by
  unfold stepEvents
  rw [hx, hy]

theorem runEvents_congr (host : Host) (R R2 : SequenceRunner)
    (hx : R2.resolvedX = R.resolvedX) (hy : R2.resolvedY = R.resolvedY)
    (cs : List (List JsVal)) : runEvents host R2 cs = runEvents host R cs := by
  induction cs with
  | nil => rfl
  | cons c cs ih => rw [runEvents_cons, runEvents_cons, ih, stepEvents_congr host R R2 hx hy]

theorem run_filter_known (host : Host) (rand : ℕ → String) (R R2 : SequenceRunner)
    (hx : R2.resolvedX = R.resolvedX) (hy : R2.resolvedY = R.resolvedY)
    (cs : List (List JsVal)) (st st2 : Exec)
    (h1 : st2.engine = st.engine) (h2 : st2.draws = st.draws) (h3 : st.error = none)
    (h4 : st2.error = none) :
    (SequenceRunner.run host rand R2 (cs.filter knownKind) st2).engine
        = (SequenceRunner.run host rand R cs st).engine ∧
      (SequenceRunner.run host rand R2 (cs.filter knownKind) st2).draws
        = (SequenceRunner.run host rand R cs st).draws := by
  induction cs generalizing st st2 with
  | nil => simp [SequenceRunner.run, h1, h2]
  | cons c cs ih =>
    by_cases hk : knownKind c = true
    · obtain ⟨a1, a2, a3⟩ := step_agree host rand R R2 hx hy st st2 c h1 h2 (h4.trans h3.symm)
      rw [List.filter_cons_of_pos hk]
      unfold SequenceRunner.run
      rw [a3]
      by_cases he : (SequenceRunner.step host rand R st c).error.isSome
      · rw [if_pos he, if_pos he]; exact ⟨a1, a2⟩
      · rw [if_neg he, if_neg he]
        have hn : (SequenceRunner.step host rand R st c).error = none := by simpa using he
        exact ih _ _ a1 a2 hn (a3.trans hn)
    · have hk2 : knownKind c = false := by simpa using hk
      have hs := step_unknown host rand R st c hk2
      rw [List.filter_cons_of_neg hk]
      have hrun : SequenceRunner.run host rand R (c :: cs) st
          = SequenceRunner.run host rand R cs (SequenceRunner.step host rand R st c) := by
        conv_lhs => unfold SequenceRunner.run
        rw [if_neg]
        rw [hs]; simp [h3]
      rw [hrun]
      exact ih _ _ (by rw [hs]; exact h1) (by rw [hs]; exact h2) (by rw [hs]; exact h3) h4

theorem find_map_replace {β : Type} (m : List (String × β)) (k : String) (v : β) :
    (m.map (fun e => if e.1 == k then (k, v) else e)).find? (fun e => e.1 == k)
      = (m.find? (fun e => e.1 == k)).map (fun _ => (k, v)) := by
  induction m with
  | nil => rfl
  | cons e m ih =>
    rw [List.map_cons, List.find?_cons, List.find?_cons]
    by_cases he : e.1 = k
    · have hb : (e.1 == k) = true := beq_iff_eq.mpr he
      rw [hb, if_pos rfl]
      have hk : ((k, v).1 == k) = true := beq_iff_eq.mpr rfl
      rw [hk]
      rfl
    · have hb : (e.1 == k) = false := beq_eq_false_iff_ne.mpr he
      rw [hb, if_neg (by simp), hb]
      exact ih

theorem mapGet_mapSet_self {β : Type} (m : List (String × β)) (k : String) (v : β) :
    mapGet (mapSet m k v) (JsVal.str k) = some v := by
  simp only [mapGet, mapSet]
  by_cases hany : m.any (fun e => e.1 == k) = true
  · rw [if_pos hany, find_map_replace]
    obtain ⟨e, he, hk⟩ := List.any_eq_true.mp hany
    cases hf : m.find? (fun e => e.1 == k) with
    | none =>
      rw [List.find?_eq_none] at hf
      exact absurd hk (hf e he)
    | some e2 => rfl
  · rw [if_neg hany]
    have hnone : m.find? (fun e => e.1 == k) = none := by
      rw [List.find?_eq_none]
      intro e he hk
      exact hany (List.any_eq_true.mpr ⟨e, he, hk⟩)
    simp [List.find?_append, hnone]

theorem parse_percent (s : String) (p max : ℚ) (hs : includesPercent s = true)
    (hp : parseFloatStr s = JsNum.fin p) :
    parse (JsVal.str s) max = JsNum.fin (p / 100 * max) := by
  simp only [parse, hs, if_true, hp, JsNum.divPos, JsNum.mulFin]

theorem parseFloatStr_fifty : parseFloatStr "50%" = JsNum.fin 50 := by
  have h : scanFloat "50%" = (false, Literal.decimal ⟨50, 0, 0, 0⟩) := by decide
  norm_num [parseFloatStr, h, Literal.toNum, Decimal.value]

theorem spawnGlobal_registered (E : ArcaneFX) (id : String) (name x y opts : JsVal)
    (g : Generator) (hreg : mapGet E.effects name = some g) :
    (E._spawnGlobal id name x y opts).returned
        = some (g (EffectInstance.new id E.viewport.width E.viewport.height false
            (parse x E.viewport.width) (parse y E.viewport.height)
            (if opts = JsVal.undefined then JsVal.obj else opts))) ∧
      (E._spawnGlobal id name x y opts).engine.activeGlobalEffects
        = mapSet E.activeGlobalEffects
            (g (EffectInstance.new id E.viewport.width E.viewport.height false
              (parse x E.viewport.width) (parse y E.viewport.height)
              (if opts = JsVal.undefined then JsVal.obj else opts))).id
            (g (EffectInstance.new id E.viewport.width E.viewport.height false
              (parse x E.viewport.width) (parse y E.viewport.height)
              (if opts = JsVal.undefined then JsVal.obj else opts))) := by
  unfold ArcaneFX._spawnGlobal
  rw [hreg]
  exact ⟨rfl, rfl⟩

theorem parse_malformed (s : String) (max : ℚ) (hs : includesPercent s = false)
    (hn : parseFloatStr s = JsNum.nan) :
    parse (JsVal.str s) max = JsNum.fin (max / 2) := by
  simp [parse, hs, hn, JsNum.truthy]

/-! ## Spawning an unknown effect -/

/-- C1: when `name` is not a key of the effect registry, `_spawnGlobal` and
`_spawnLocal` both return no instance and leave the engine, hence its
`activeGlobalEffects`, as it was; the local spawn also leaves the target
element untouched, and each call reports the name through `console.warn`. -/
theorem spawn_unknown_effect (E : ArcaneFX) (id : String) (name x y opts : JsVal)
    (element : HTMLElement) (h : ∀ e ∈ E.effects, JsVal.str e.1 ≠ name) :
    (E._spawnGlobal id name x y opts).returned = none ∧
      (E._spawnGlobal id name x y opts).engine.activeGlobalEffects = E.activeGlobalEffects ∧
      (E._spawnGlobal id name x y opts).engine = E ∧
      (E._spawnGlobal id name x y opts).warned = some name ∧
      (E._spawnLocal id name element opts).returned = none ∧
      (E._spawnLocal id name element opts).engine.activeGlobalEffects = E.activeGlobalEffects ∧
      (E._spawnLocal id name element opts).engine = E ∧
      (E._spawnLocal id name element opts).element = element ∧
      (E._spawnLocal id name element opts).warned = some name := by
  have hget := mapGet_of_not_key E.effects name h
  simp [ArcaneFX._spawnGlobal, ArcaneFX._spawnLocal, hget]

theorem spawn_unknown_effect_witness :
    (∀ e ∈ sampleEngine.effects, JsVal.str e.1 ≠ JsVal.str "fire_storm") ∧
      (sampleEngine._spawnGlobal "a" (JsVal.str "fire_storm") (JsVal.str "50%")
        (JsVal.str "50%") JsVal.obj).returned = none ∧
      (sampleEngine._spawnLocal "a" (JsVal.str "fire_storm") sampleElement
        JsVal.obj).returned = none :=
  have h : ∀ e ∈ sampleEngine.effects, JsVal.str e.1 ≠ JsVal.str "fire_storm" := by
    intro e he
    simp [sampleEngine] at he
    subst he
    decide
  have key := spawn_unknown_effect sampleEngine "a" (JsVal.str "fire_storm") (JsVal.str "50%")
    (JsVal.str "50%") JsVal.obj sampleElement h
  ⟨h, key.1, key.2.2.2.2.1⟩

/-! ## Terminal cleanup -/

/-- C2: on every command list on which `execute` runs to completion, the
last call in the trace is the final `setOverlay('transparent')`, the last
overlay write is `'transparent'`, and the overlay of the engine is
`'transparent'` at the end, whatever the commands wrote before.  In
particular `[[WAIT, 50]]` completes on every engine, suspends once for 50 and
ends with the overlay transparent. -/
theorem execute_ends_transparent (host : Host) (rand : ℕ → String) (R : SequenceRunner)
    (E : ArcaneFX) (h : (R.execute host rand E).error = none) :
    (R.execute host rand E).trace.getLast? = some Event.clearOverlay ∧
      (overlayWrites (R.execute host rand E).trace).getLast? = some (JsVal.str "transparent") ∧
      (R.execute host rand E).engine.overlay = JsVal.str "transparent" ∧
      (∀ x y : JsVal,
        (E.runSequence host rand waitSequence x y).error = none ∧
        (E.runSequence host rand waitSequence x y).trace
          = [Event.sleep (JsVal.num (JsNum.fin 50)), Event.clearOverlay] ∧
        (E.runSequence host rand waitSequence x y).engine.overlay = JsVal.str "transparent") := by
  obtain ⟨⟨t, ht⟩, hov⟩ := run_completed host rand R R.sequence { engine := E } h
  refine ⟨?_, ?_, hov, ?_⟩
  · show (SequenceRunner.run host rand R R.sequence { engine := E }).trace.getLast? = _
    rw [ht]; simp
  · show (overlayWrites (SequenceRunner.run host rand R R.sequence { engine := E }).trace).getLast?
      = _
    rw [ht]; exact overlayWrites_append_clear t
  · intro x y
    refine ⟨?_, ?_, ?_⟩ <;> rfl

theorem execute_ends_transparent_witness :
    ((SequenceRunner.new sampleEngine blackHoldSequence (JsVal.str "50%")
        (JsVal.str "50%")).execute sampleHost sampleIds sampleEngine).error = none ∧
      ((SequenceRunner.new sampleEngine blackHoldSequence (JsVal.str "50%")
        (JsVal.str "50%")).execute sampleHost sampleIds sampleEngine).engine.overlay
        = JsVal.str "transparent" :=
  ⟨by decide,
    (execute_ends_transparent sampleHost sampleIds
      (SequenceRunner.new sampleEngine blackHoldSequence (JsVal.str "50%") (JsVal.str "50%"))
      sampleEngine (by decide)).2.2.1⟩

/-! ## The sustained-black policy -/

theorem clearsAfterDelay_black_forms (color alpha : String)
    (h : color = "black" ∨ color = "rgba(0,0,0," ++ alpha ++ ")") :
    SequenceRunner.clearsAfterDelay color = false := by
  rcases h with h | h
  · subst h; decide
  · subst h; simp [SequenceRunner.clearsAfterDelay, startsWith_rgba]

theorem step_of_impactFrame (host : Host) (rand : ℕ → String) (R : SequenceRunner) (st : Exec)
    (cmd : List JsVal) (hk : cmd.headD JsVal.undefined = JsVal.str "IMPACT_FRAME") :
    SequenceRunner.step host rand R st cmd
      = SequenceRunner.impactFrameCase st cmd.tail (durationOf cmd) := by
  have h1 : ¬ cmd.headD JsVal.undefined = JsVal.str "VFX" := by rw [hk]; decide
  simp only [SequenceRunner.step, if_neg h1, if_pos hk, durationOf]

theorem impactFrameCase_string (st : Exec) (args : List JsVal) (d : JsVal) (color : String)
    (hcol : args.getD 1 JsVal.undefined = JsVal.str color) :
    (SequenceRunner.impactFrameCase st args d).engine.overlay
        = (if SequenceRunner.clearsAfterDelay color = true then JsVal.str "transparent"
            else JsVal.str color) ∧
      (SequenceRunner.impactFrameCase st args d).error = st.error ∧
      impactFrameEvents args d
        = SequenceRunner.htmlFxEvents (args.getD 2 JsVal.undefined) d
          ++ [Event.setOverlay (JsVal.str color), Event.sleep d]
          ++ (if SequenceRunner.clearsAfterDelay color = true then [Event.clearOverlay] else []) := by
  unfold SequenceRunner.impactFrameCase impactFrameEvents
  rw [hcol]
  by_cases hc : SequenceRunner.clearsAfterDelay color = true <;>
    simp [hc, ArcaneFX.setOverlay]

theorem step_overlay_of_not_impactFrame (host : Host) (rand : ℕ → String) (R : SequenceRunner)
    (st : Exec) (cmd : List JsVal)
    (hk : cmd.headD JsVal.undefined ≠ JsVal.str "IMPACT_FRAME") :
    (SequenceRunner.step host rand R st cmd).engine.overlay = st.engine.overlay := by
  simp only [SequenceRunner.step, if_neg hk]
  split_ifs
  · simp only [SequenceRunner.vfxCase, ArcaneFX._spawnGlobal]
    split <;> rfl
  · simp only [SequenceRunner.shadowCase]
    generalize createShadows host _ _ = r
    cases r <;> rfl
  · rfl
  · rfl

/-- C3: an `IMPACT_FRAME` command whose colour is `'black'` or of the form
`'rgba(0,0,0,<alpha>)'` writes that colour to the overlay and makes no
`'transparent'` write: the colour is its only overlay write, the delay is its
last call, the step does not throw, and the overlay of the engine holds the
colour when the step ends.  A later step of any other kind leaves the overlay
as it is.  For `[[IMPACT_FRAME, 100, 'black', 'none'], [WAIT, 0]]` the overlay
is `'black'` both when the `WAIT` step starts and when it ends, and the only
`'transparent'` write of the run is the final cleanup. -/
theorem impact_black_sustained (host : Host) (rand : ℕ → String) (R : SequenceRunner)
    (st : Exec) (cmd : List JsVal) (color alpha : String)
    (hk : cmd.headD JsVal.undefined = JsVal.str "IMPACT_FRAME")
    (hcol : cmd.tail.getD 1 JsVal.undefined = JsVal.str color)
    (h : color = "black" ∨ color = "rgba(0,0,0," ++ alpha ++ ")") :
    (SequenceRunner.step host rand R st cmd).engine.overlay = JsVal.str color ∧
      overlayWrites (SequenceRunner.step host rand R st cmd).trace
        = overlayWrites st.trace ++ [JsVal.str color] ∧
      (SequenceRunner.step host rand R st cmd).trace.getLast?
        = some (Event.sleep (durationOf cmd)) ∧
      (SequenceRunner.step host rand R st cmd).error = st.error ∧
      (∀ (st2 : Exec) (next : List JsVal),
        next.headD JsVal.undefined ≠ JsVal.str "IMPACT_FRAME" →
        (SequenceRunner.step host rand R st2 next).engine.overlay = st2.engine.overlay) ∧
      (∀ (E : ArcaneFX) (x y : JsVal),
        (SequenceRunner.step host rand (SequenceRunner.new E blackHoldSequence x y)
            { engine := E }
            [JsVal.str "IMPACT_FRAME", JsVal.num (JsNum.fin 100), JsVal.str "black",
              JsVal.str "none"]).engine.overlay = JsVal.str "black" ∧
        (SequenceRunner.step host rand (SequenceRunner.new E blackHoldSequence x y)
            (SequenceRunner.step host rand (SequenceRunner.new E blackHoldSequence x y)
              { engine := E }
              [JsVal.str "IMPACT_FRAME", JsVal.num (JsNum.fin 100), JsVal.str "black",
                JsVal.str "none"])
            [JsVal.str "WAIT", JsVal.num (JsNum.fin 0)]).engine.overlay = JsVal.str "black" ∧
        ((SequenceRunner.new E blackHoldSequence x y).execute host rand E).trace
          = [Event.setOverlay (JsVal.str "black"), Event.sleep (JsVal.num (JsNum.fin 100)),
              Event.sleep (JsVal.num (JsNum.fin 0)), Event.clearOverlay]) := by
  have hc := clearsAfterDelay_black_forms color alpha h
  obtain ⟨h1, h2, h3⟩ := impactFrameCase_string st cmd.tail (durationOf cmd) color hcol
  rw [step_of_impactFrame host rand R st cmd hk, impactFrameCase_trace, h3]
  refine ⟨?_, ?_, ?_, h2, ?_, ?_⟩
  · rw [h1, hc]; rfl
  · have hfx : overlayWrites
        (SequenceRunner.htmlFxEvents (cmd.tail.getD 2 JsVal.undefined) (durationOf cmd)) = [] := by
      unfold SequenceRunner.htmlFxEvents
      split_ifs <;> rfl
    simp only [overlayWrites, List.filterMap_append] at hfx ⊢
    rw [hfx, hc]
    rfl
  · simp [hc]
  · intro st2 next hn
    exact step_overlay_of_not_impactFrame host rand R st2 next hn
  · intro E x y
    exact ⟨rfl, rfl, rfl⟩

theorem impact_black_sustained_witness :
    ([JsVal.str "IMPACT_FRAME", JsVal.num (JsNum.fin 100), JsVal.str "rgba(0,0,0,0.7)",
        JsVal.str "shake"].headD JsVal.undefined = JsVal.str "IMPACT_FRAME") ∧
      ("rgba(0,0,0,0.7)" = "black" ∨ "rgba(0,0,0,0.7)" = "rgba(0,0,0," ++ "0.7" ++ ")") ∧
      (SequenceRunner.step sampleHost sampleIds
          (SequenceRunner.new sampleEngine [] (JsVal.str "50%") (JsVal.str "50%"))
          { engine := sampleEngine }
          [JsVal.str "IMPACT_FRAME", JsVal.num (JsNum.fin 100), JsVal.str "rgba(0,0,0,0.7)",
            JsVal.str "shake"]).engine.overlay = JsVal.str "rgba(0,0,0,0.7)" :=
  ⟨rfl, by decide,
    (impact_black_sustained sampleHost sampleIds
      (SequenceRunner.new sampleEngine [] (JsVal.str "50%") (JsVal.str "50%"))
      { engine := sampleEngine }
      [JsVal.str "IMPACT_FRAME", JsVal.num (JsNum.fin 100), JsVal.str "rgba(0,0,0,0.7)",
        JsVal.str "shake"]
      "rgba(0,0,0,0.7)" "0.7" rfl rfl (by decide)).1⟩

/-- C4 (counterexample): the colour `'rgba(0,0,0255,1)'` (pure blue) is
neither `'black'` nor of the form `'rgba(0,0,0,<alpha>)'`, yet an
`IMPACT_FRAME` step with it does not end by clearing the overlay: the step
ends on its delay and leaves the overlay at that colour.  So "the step clears
if and only if the colour is not black" fails at this colour. -/
theorem impact_clear_spec_black_counterexample :
    specDenotesBlack "rgba(0,0,0255,1)" = false ∧
      (SequenceRunner.step sampleHost sampleIds
          (SequenceRunner.new sampleEngine [] (JsVal.str "50%") (JsVal.str "50%"))
          { engine := sampleEngine }
          [JsVal.str "IMPACT_FRAME", JsVal.num (JsNum.fin 50), JsVal.str "rgba(0,0,0255,1)",
            JsVal.str "none"]).trace
        = [Event.setOverlay (JsVal.str "rgba(0,0,0255,1)"),
            Event.sleep (JsVal.num (JsNum.fin 50))] ∧
      (SequenceRunner.step sampleHost sampleIds
          (SequenceRunner.new sampleEngine [] (JsVal.str "50%") (JsVal.str "50%"))
          { engine := sampleEngine }
          [JsVal.str "IMPACT_FRAME", JsVal.num (JsNum.fin 50), JsVal.str "rgba(0,0,0255,1)",
            JsVal.str "none"]).engine.overlay = JsVal.str "rgba(0,0,0255,1)" ∧
      ¬ ((SequenceRunner.step sampleHost sampleIds
            (SequenceRunner.new sampleEngine [] (JsVal.str "50%") (JsVal.str "50%"))
            { engine := sampleEngine }
            [JsVal.str "IMPACT_FRAME", JsVal.num (JsNum.fin 50), JsVal.str "rgba(0,0,0255,1)",
              JsVal.str "none"]).trace.getLast? = some Event.clearOverlay
          ↔ specDenotesBlack "rgba(0,0,0255,1)" = false) := by
  refine ⟨by decide, by decide, by decide, by decide⟩

/-- C4 (amended): for every `IMPACT_FRAME` command whose colour is a string,
the step ends by clearing the overlay to `'transparent'` if and only if the
string is not exactly `'black'` and does not start with the literal prefix
`'rgba(0,0,0'`; when it clears, the overlay ends transparent, otherwise it
keeps the colour.  In particular `'rgba(10,10,10,0.5)'` is cleared after its
delay. -/
theorem impact_clear_iff_prefix_test (host : Host) (rand : ℕ → String) (R : SequenceRunner)
    (st : Exec) (cmd : List JsVal) (color : String) :
    (cmd.headD JsVal.undefined = JsVal.str "IMPACT_FRAME" →
      cmd.tail.getD 1 JsVal.undefined = JsVal.str color →
      (((SequenceRunner.step host rand R st cmd).trace.getLast? = some Event.clearOverlay
          ↔ (color ≠ "black" ∧ startsWith color "rgba(0,0,0" = false)) ∧
        ((color ≠ "black" ∧ startsWith color "rgba(0,0,0" = false) →
          (SequenceRunner.step host rand R st cmd).engine.overlay = JsVal.str "transparent") ∧
        (¬ (color ≠ "black" ∧ startsWith color "rgba(0,0,0" = false) →
          (SequenceRunner.step host rand R st cmd).engine.overlay = JsVal.str color))) ∧
    (SequenceRunner.step host rand R st [JsVal.str "IMPACT_FRAME", JsVal.num (JsNum.fin 50),
        JsVal.str "rgba(10,10,10,0.5)", JsVal.str "none"]).trace
      = st.trace ++ [Event.setOverlay (JsVal.str "rgba(10,10,10,0.5)"),
          Event.sleep (JsVal.num (JsNum.fin 50)), Event.clearOverlay] ∧
    (SequenceRunner.step host rand R st [JsVal.str "IMPACT_FRAME", JsVal.num (JsNum.fin 50),
        JsVal.str "rgba(10,10,10,0.5)", JsVal.str "none"]).engine.overlay
      = JsVal.str "transparent" := by
  have hiff : ∀ c : String, SequenceRunner.clearsAfterDelay c = true
      ↔ (c ≠ "black" ∧ startsWith c "rgba(0,0,0" = false) := by
    intro c
    simp [SequenceRunner.clearsAfterDelay]
  have hgrey : SequenceRunner.clearsAfterDelay "rgba(10,10,10,0.5)" = true := by decide
  refine ⟨?_, ?_, ?_⟩
  · intro hk hcol
    obtain ⟨h1, _, h3⟩ := impactFrameCase_string st cmd.tail (durationOf cmd) color hcol
    rw [step_of_impactFrame host rand R st cmd hk, impactFrameCase_trace, h3, h1, ← hiff]
    by_cases hc : SequenceRunner.clearsAfterDelay color = true <;> simp [hc]
  · obtain ⟨_, _, h3⟩ := impactFrameCase_string st
      [JsVal.num (JsNum.fin 50), JsVal.str "rgba(10,10,10,0.5)", JsVal.str "none"]
      (JsVal.num (JsNum.fin 50)) "rgba(10,10,10,0.5)" rfl
    have hd : durationOf [JsVal.str "IMPACT_FRAME", JsVal.num (JsNum.fin 50),
        JsVal.str "rgba(10,10,10,0.5)", JsVal.str "none"] = JsVal.num (JsNum.fin 50) := by
      decide
    rw [step_of_impactFrame host rand R st [JsVal.str "IMPACT_FRAME", JsVal.num (JsNum.fin 50),
      JsVal.str "rgba(10,10,10,0.5)", JsVal.str "none"] rfl, impactFrameCase_trace, hd]
    simp only [List.tail_cons]
    rw [h3, hgrey]
    have h2 : SequenceRunner.htmlFxEvents (JsVal.str "none") (JsVal.num (JsNum.fin 50)) = [] := by
      decide
    simp [h2]
  · obtain ⟨h1, _, _⟩ := impactFrameCase_string st
      [JsVal.num (JsNum.fin 50), JsVal.str "rgba(10,10,10,0.5)", JsVal.str "none"]
      (JsVal.num (JsNum.fin 50)) "rgba(10,10,10,0.5)" rfl
    have hd : durationOf [JsVal.str "IMPACT_FRAME", JsVal.num (JsNum.fin 50),
        JsVal.str "rgba(10,10,10,0.5)", JsVal.str "none"] = JsVal.num (JsNum.fin 50) := by
      decide
    rw [step_of_impactFrame host rand R st [JsVal.str "IMPACT_FRAME", JsVal.num (JsNum.fin 50),
      JsVal.str "rgba(10,10,10,0.5)", JsVal.str "none"] rfl, hd]
    simp only [List.tail_cons]
    rw [h1, hgrey]
    rfl

/-! ## Side effects and delays of a sequence -/

/-- C5: on every sequence whose commands are well formed (the colour of an
`IMPACT_FRAME` is a string, the selector of a `SHADOW` is accepted by the
browser), `execute` completes, and the side effects in its trace (engine
spawns, writes of a colour to the overlay, creations of shadow clones) are
exactly the side effects the commands declare, one per `VFX`, `IMPACT_FRAME`
and `SHADOW` command, in the order of the commands.  The number of instance
identifiers drawn is the number of `VFX` commands naming a registered
effect. -/
theorem side_effects_once_in_order (host : Host) (rand : ℕ → String) (R : SequenceRunner)
    (E : ArcaneFX) (h : ∀ c ∈ R.sequence, wellFormed host c = true) :
    (R.execute host rand E).error = none ∧
      (R.execute host rand E).trace.filter Event.isSideEffect
        = R.sequence.filterMap (sideEffectOf host R) ∧
      (R.execute host rand E).draws = (R.sequence.filter (spawnsInstance E.effects)).length := by
  obtain ⟨ht, he⟩ := run_trace_error host rand R R.sequence { engine := E } rfl
  obtain ⟨hev, herr⟩ := runEvents_of_wellFormed host R R.sequence h
  obtain ⟨_, hd⟩ := run_engine_draws host rand R R.sequence { engine := E } h rfl
  refine ⟨?_, ?_, ?_⟩
  · exact he.trans herr
  · show (SequenceRunner.run host rand R R.sequence { engine := E }).trace.filter _ = _
    rw [ht, hev]
    simp [List.filter_append, flatMap_filter_sideEffect, Event.isSideEffect]
  · show (SequenceRunner.run host rand R R.sequence { engine := E }).draws = _
    rw [hd]; simp

theorem side_effects_once_in_order_witness :
    (∀ c ∈ (SequenceRunner.new sampleEngine ULTIMATE_SEQUENCE (JsVal.str "50%")
        (JsVal.str "50%")).sequence, wellFormed sampleHost c = true) ∧
      ((SequenceRunner.new sampleEngine ULTIMATE_SEQUENCE (JsVal.str "50%")
        (JsVal.str "50%")).execute sampleHost sampleIds sampleEngine).error = none :=
  ⟨by decide,
    (side_effects_once_in_order sampleHost sampleIds
      (SequenceRunner.new sampleEngine ULTIMATE_SEQUENCE (JsVal.str "50%") (JsVal.str "50%"))
      sampleEngine (by decide)).1⟩

/-- C6: on every sequence of well-formed commands of the four known kinds
whose delays are non-negative numbers, `execute` completes; in its trace the
side effect of each command comes first, then the suspensions of that
command, then the side effect of the next command; the suspensions of each
command last exactly its declared delay; and the total time the runner is
suspended is the sum of the declared delays. -/
theorem suspended_for_declared_delays (host : Host) (rand : ℕ → String) (R : SequenceRunner)
    (E : ArcaneFX)
    (h : ∀ c ∈ R.sequence, knownKind c = true ∧ wellFormed host c = true ∧
      ∃ q : ℚ, 0 ≤ q ∧ c.tail.getD 0 JsVal.undefined = JsVal.num (JsNum.fin q)) :
    (R.execute host rand E).error = none ∧
      (R.execute host rand E).trace.filter (fun e => e.isSideEffect || e.isSleep)
        = R.sequence.flatMap (fun c =>
            (sideEffectOf host R c).toList ++ (stepEvents host R c).filter Event.isSleep) ∧
      (∀ c ∈ R.sequence,
        totalSuspended host ((stepEvents host R c).filter Event.isSleep) = declaredDelay c) ∧
      totalSuspended host (R.execute host rand E).trace = (R.sequence.map declaredDelay).sum := by
  obtain ⟨ht, he⟩ := run_trace_error host rand R R.sequence { engine := E } rfl
  obtain ⟨hev, herr⟩ := runEvents_of_wellFormed host R R.sequence (fun c hc => (h c hc).2.1)
  have hstep : ∀ c ∈ R.sequence, totalSuspended host (stepEvents host R c) = declaredDelay c := by
    intro c hc
    obtain ⟨hk, hw, q, hq, hd⟩ := h c hc
    rw [totalSuspended_stepEvents host R c q hk hw hq hd]
    unfold declaredDelay
    rw [hd]
  refine ⟨he.trans herr, ?_, ?_, ?_⟩
  · show (SequenceRunner.run host rand R R.sequence { engine := E }).trace.filter _ = _
    rw [ht, hev, List.nil_append, List.filter_append, flatMap_filter_sideEffect_sleep]
    have hclear : [Event.clearOverlay].filter (fun e => e.isSideEffect || e.isSleep) = [] := rfl
    rw [hclear, List.append_nil]
  · intro c hc
    rw [totalSuspended_filter_isSleep]; exact hstep c hc
  · show totalSuspended host (SequenceRunner.run host rand R R.sequence { engine := E }).trace = _
    rw [ht, hev]
    simp only [List.nil_append, totalSuspended_append, totalSuspended_flatMap host R _ hstep]
    simp [totalSuspended, suspendedFor]

theorem ultimate_sequence_delays :
    ∀ c ∈ (SequenceRunner.new sampleEngine ULTIMATE_SEQUENCE (JsVal.str "50%")
        (JsVal.str "50%")).sequence,
      knownKind c = true ∧ wellFormed sampleHost c = true ∧
        ∃ q : ℚ, 0 ≤ q ∧ c.tail.getD 0 JsVal.undefined = JsVal.num (JsNum.fin q) := by
  intro c hc
  simp only [SequenceRunner.new, ULTIMATE_SEQUENCE, List.mem_cons, List.mem_singleton,
    List.not_mem_nil, or_false] at hc
  rcases hc with h | h | h | h | h | h | h | h | h <;> subst h <;>
    exact ⟨by decide, by decide, _, by norm_num, rfl⟩

theorem suspended_for_declared_delays_witness :
    (∀ c ∈ (SequenceRunner.new sampleEngine ULTIMATE_SEQUENCE (JsVal.str "50%")
        (JsVal.str "50%")).sequence,
      knownKind c = true ∧ wellFormed sampleHost c = true ∧
        ∃ q : ℚ, 0 ≤ q ∧ c.tail.getD 0 JsVal.undefined = JsVal.num (JsNum.fin q)) ∧
      totalSuspended sampleHost
          ((SequenceRunner.new sampleEngine ULTIMATE_SEQUENCE (JsVal.str "50%")
            (JsVal.str "50%")).execute sampleHost sampleIds sampleEngine).trace
        = ((SequenceRunner.new sampleEngine ULTIMATE_SEQUENCE (JsVal.str "50%")
            (JsVal.str "50%")).sequence.map declaredDelay).sum :=
  ⟨ultimate_sequence_delays,
    (suspended_for_declared_delays sampleHost sampleIds
      (SequenceRunner.new sampleEngine ULTIMATE_SEQUENCE (JsVal.str "50%") (JsVal.str "50%"))
      sampleEngine ultimate_sequence_delays).2.2.2⟩

/-! ## Malformed and unknown commands -/

/-- C7 (failing input): on `[[IMPACT_FRAME, 50], [WAIT, 10]]` the run ends
with a `TypeError` raised after the delay of the first command: the trace
holds the overlay write and the delay of the `IMPACT_FRAME` only, so the
`WAIT` command is not processed and the final `setOverlay('transparent')` is
not made. -/
theorem impact_frame_without_color_throws (host : Host) (rand : ℕ → String) (E : ArcaneFX)
    (x y : JsVal) :
    (E.runSequence host rand
        [[JsVal.str "IMPACT_FRAME", JsVal.num (JsNum.fin 50)],
          [JsVal.str "WAIT", JsVal.num (JsNum.fin 10)]] x y).error = some JsError.typeError ∧
      (E.runSequence host rand
        [[JsVal.str "IMPACT_FRAME", JsVal.num (JsNum.fin 50)],
          [JsVal.str "WAIT", JsVal.num (JsNum.fin 10)]] x y).trace
        = [Event.setOverlay JsVal.undefined, Event.sleep (JsVal.num (JsNum.fin 50))] ∧
      Event.clearOverlay ∉ (E.runSequence host rand
        [[JsVal.str "IMPACT_FRAME", JsVal.num (JsNum.fin 50)],
          [JsVal.str "WAIT", JsVal.num (JsNum.fin 10)]] x y).trace := by
  have ht : (E.runSequence host rand
        [[JsVal.str "IMPACT_FRAME", JsVal.num (JsNum.fin 50)],
          [JsVal.str "WAIT", JsVal.num (JsNum.fin 10)]] x y).trace
        = [Event.setOverlay JsVal.undefined, Event.sleep (JsVal.num (JsNum.fin 50))] := rfl
  refine ⟨rfl, ht, ?_⟩
  rw [ht]; decide

/-- C8: a command whose kind is not one of `VFX`, `IMPACT_FRAME`, `WAIT`,
`SHADOW` only adds a warning to the trace: it changes neither the engine nor
the outcome, and adds no suspension, whatever delay it declares.  Running a
sequence yields the same engine, the same outcome and, the warnings about
unknown commands apart, the same calls in the same order as running the
sequence with the unknown-kind commands removed; so the commands after an
unknown one still execute. -/
theorem unknown_commands_skipped (host : Host) (rand : ℕ → String) (R : SequenceRunner)
    (E : ArcaneFX) :
    (∀ (st : Exec) (cmd : List JsVal), knownKind cmd = false →
      SequenceRunner.step host rand R st cmd
        = { st with
            trace := st.trace ++ [Event.warnUnknownCommand (cmd.headD JsVal.undefined)] }) ∧
      (SequenceRunner.execute host rand { R with sequence := R.sequence.filter knownKind } E).trace
        = (R.execute host rand E).trace.filter (fun e => !e.isUnknownWarn) ∧
      (SequenceRunner.execute host rand { R with sequence := R.sequence.filter knownKind } E).engine
        = (R.execute host rand E).engine ∧
      (SequenceRunner.execute host rand { R with sequence := R.sequence.filter knownKind } E).draws
        = (R.execute host rand E).draws ∧
      (SequenceRunner.execute host rand { R with sequence := R.sequence.filter knownKind } E).error
        = (R.execute host rand E).error := by
  obtain ⟨t1, e1⟩ := run_trace_error host rand R R.sequence { engine := E } rfl
  obtain ⟨t2, e2⟩ := run_trace_error host rand { R with sequence := R.sequence.filter knownKind }
    (R.sequence.filter knownKind) { engine := E } rfl
  obtain ⟨f1, f2⟩ := runEvents_filter_known host { R with sequence := R.sequence.filter knownKind }
    R.sequence
  obtain ⟨g1, g2⟩ := run_filter_known host rand R { R with sequence := R.sequence.filter knownKind }
    rfl rfl R.sequence { engine := E } { engine := E } rfl rfl rfl rfl
  have hev : runEvents host { R with sequence := R.sequence.filter knownKind } R.sequence
      = runEvents host R R.sequence :=
    runEvents_congr host R { R with sequence := R.sequence.filter knownKind } rfl rfl R.sequence
  refine ⟨fun st cmd h => step_unknown host rand R st cmd h, ?_, g1, g2, ?_⟩
  · show (SequenceRunner.run host rand _ (R.sequence.filter knownKind) { engine := E }).trace
      = (SequenceRunner.run host rand R R.sequence { engine := E }).trace.filter _
    rw [t1, t2, f1, hev]; rfl
  · show (SequenceRunner.run host rand _ (R.sequence.filter knownKind) { engine := E }).error
      = (SequenceRunner.run host rand R R.sequence { engine := E }).error
    rw [e1, e2, f2]

/-! ## Coordinate resolution -/

/-- C9: a global spawn of a registered effect at the percentage strings `s`
and `t`, read by `parseFloat` as `p` and `q`, returns an instance whose origin
is exactly `(p / 100 * W, q / 100 * H)` for the viewport `(W, H)` of that
moment, provided the generator leaves the origin alone (all registered
generators do); the instance is the one stored in `activeGlobalEffects`, and
it is still stored there, unchanged, after any later `updateCanvasSize`.  For
`'50%', '50%'` the origin is exactly `(W / 2, H / 2)`. -/
theorem percent_origin_fixed_at_spawn (E : ArcaneFX) (id : String) (name opts : JsVal)
    (g : Generator) (s t : String) (p q : ℚ)
    (hreg : mapGet E.effects name = some g)
    (hg : ∀ fx : EffectInstance, (g fx).x = fx.x ∧ (g fx).y = fx.y)
    (hs : includesPercent s = true) (ht : includesPercent t = true)
    (hp : parseFloatStr s = JsNum.fin p) (hq : parseFloatStr t = JsNum.fin q) :
    (∃ inst : EffectInstance,
      (E._spawnGlobal id name (JsVal.str s) (JsVal.str t) opts).returned = some inst ∧
      inst.x = JsNum.fin (p / 100 * E.viewport.width) ∧
      inst.y = JsNum.fin (q / 100 * E.viewport.height) ∧
      ∀ dpr w h : ℚ,
        mapGet (((E._spawnGlobal id name (JsVal.str s) (JsVal.str t) opts).engine.updateCanvasSize
          dpr w h).activeGlobalEffects) (JsVal.str inst.id) = some inst) ∧
    (∃ inst : EffectInstance,
      (E._spawnGlobal id name (JsVal.str "50%") (JsVal.str "50%") opts).returned = some inst ∧
      inst.x = JsNum.fin (E.viewport.width / 2) ∧
      inst.y = JsNum.fin (E.viewport.height / 2) ∧
      ∀ dpr w h : ℚ,
        mapGet (((E._spawnGlobal id name (JsVal.str "50%") (JsVal.str "50%")
          opts).engine.updateCanvasSize dpr w h).activeGlobalEffects) (JsVal.str inst.id)
          = some inst) := by
  constructor
  · obtain ⟨h1, h2⟩ := spawnGlobal_registered E id name (JsVal.str s) (JsVal.str t) opts g hreg
    refine ⟨_, h1, ?_, ?_, ?_⟩
    · rw [(hg _).1]
      exact parse_percent s p _ hs hp
    · rw [(hg _).2]
      exact parse_percent t q _ ht hq
    · intro dpr w h
      show mapGet (E._spawnGlobal id name (JsVal.str s) (JsVal.str t) opts).engine.activeGlobalEffects
        _ = _
      rw [h2]
      exact mapGet_mapSet_self _ _ _
  · obtain ⟨h1, h2⟩ :=
      spawnGlobal_registered E id name (JsVal.str "50%") (JsVal.str "50%") opts g hreg
    have h50 : ∀ max : ℚ, parse (JsVal.str "50%") max = JsNum.fin (max / 2) := by
      intro max
      rw [parse_percent "50%" 50 max (by decide) parseFloatStr_fifty]
      congr 1
      ring
    refine ⟨_, h1, ?_, ?_, ?_⟩
    · rw [(hg _).1]; exact h50 _
    · rw [(hg _).2]; exact h50 _
    · intro dpr w h
      show mapGet (E._spawnGlobal id name (JsVal.str "50%") (JsVal.str "50%")
        opts).engine.activeGlobalEffects _ = _
      rw [h2]
      exact mapGet_mapSet_self _ _ _

theorem percent_origin_fixed_at_spawn_witness :
    mapGet sampleEngine.effects (JsVal.str "earth_shield") = some earth_shield ∧
      (∀ fx : EffectInstance, (earth_shield fx).x = fx.x ∧ (earth_shield fx).y = fx.y) ∧
      includesPercent "20%" = true ∧ includesPercent "30%" = true ∧
      parseFloatStr "20%" = JsNum.fin 20 ∧ parseFloatStr "30%" = JsNum.fin 30 ∧
      ∃ inst : EffectInstance,
        (sampleEngine._spawnGlobal "a" (JsVal.str "earth_shield") (JsVal.str "20%")
          (JsVal.str "30%") JsVal.obj).returned = some inst ∧
        inst.x = JsNum.fin (20 / 100 * sampleEngine.viewport.width) ∧
        inst.y = JsNum.fin (30 / 100 * sampleEngine.viewport.height) ∧
        ∀ dpr w h : ℚ,
          mapGet (((sampleEngine._spawnGlobal "a" (JsVal.str "earth_shield") (JsVal.str "20%")
            (JsVal.str "30%") JsVal.obj).engine.updateCanvasSize dpr w h).activeGlobalEffects)
            (JsVal.str inst.id) = some inst :=
  have h20 : parseFloatStr "20%" = JsNum.fin 20 := by
    have h : scanFloat "20%" = (false, Literal.decimal ⟨20, 0, 0, 0⟩) := by decide
    norm_num [parseFloatStr, h, Literal.toNum, Decimal.value]
  have h30 : parseFloatStr "30%" = JsNum.fin 30 := by
    have h : scanFloat "30%" = (false, Literal.decimal ⟨30, 0, 0, 0⟩) := by decide
    norm_num [parseFloatStr, h, Literal.toNum, Decimal.value]
  ⟨rfl, fun _ => ⟨rfl, rfl⟩, by decide, by decide, h20, h30,
    (percent_origin_fixed_at_spawn sampleEngine "a" (JsVal.str "earth_shield") JsVal.obj
      earth_shield "20%" "30%" 20 30 rfl (fun _ => ⟨rfl, rfl⟩) (by decide) (by decide)
      h20 h30).1⟩

/-- C10 (counterexample): the positions `'abc%'` and `'abc'` are neither
numbers nor percentages, and a global
spawn at `('abc%', 'abc')` on an 800 by 600 viewport returns an instance whose
origin is `NaN` on the first axis and 300, not zero, on the second. -/
theorem malformed_coordinate_counterexample :
    parseFloatStr "abc%" = JsNum.nan ∧ parseFloatStr "abc" = JsNum.nan ∧
      ∃ inst : EffectInstance,
        (sampleEngine._spawnGlobal "a" (JsVal.str "earth_shield") (JsVal.str "abc%")
          (JsVal.str "abc") JsVal.obj).returned = some inst ∧
        inst.x = JsNum.nan ∧ inst.y = JsNum.fin 300 ∧ inst.y ≠ JsNum.fin 0 := by
  have hreg : mapGet sampleEngine.effects (JsVal.str "earth_shield") = some earth_shield := rfl
  obtain ⟨h1, _⟩ := spawnGlobal_registered sampleEngine "a" (JsVal.str "earth_shield")
    (JsVal.str "abc%") (JsVal.str "abc") JsVal.obj earth_shield hreg
  have hy : parse (JsVal.str "abc") sampleEngine.viewport.height = JsNum.fin 300 := by
    rw [parse_malformed "abc" _ (by decide) (by decide)]
    norm_num [sampleEngine]
  refine ⟨by decide, by decide, _, h1, ?_, ?_, ?_⟩
  · show parse (JsVal.str "abc%") sampleEngine.viewport.width = JsNum.nan
    decide
  · exact hy
  · show parse (JsVal.str "abc") sampleEngine.viewport.height ≠ JsNum.fin 0
    rw [hy]; decide

/-- C10 (amended): for every position string that contains no `%` and in
which `parseFloat` finds no number, coordinate resolution does not fail and
yields half of the viewport dimension of that axis (the centre, not zero):
a global spawn of a registered effect whose generator leaves the origin alone
returns an instance with that finite origin on the axis, whatever the other
coordinate is, and a `SequenceRunner` built on such a target resolves it to
the centre as well. -/
theorem malformed_coordinate_defaults_to_centre (E : ArcaneFX) (id : String) (name opts : JsVal)
    (g : Generator) (s : String)
    (hreg : mapGet E.effects name = some g)
    (hg : ∀ fx : EffectInstance, (g fx).x = fx.x ∧ (g fx).y = fx.y)
    (hs : includesPercent s = false) (hn : parseFloatStr s = JsNum.nan) :
    (∀ y : JsVal, ∃ inst : EffectInstance,
      (E._spawnGlobal id name (JsVal.str s) y opts).returned = some inst ∧
      inst.x = JsNum.fin (E.viewport.width / 2)) ∧
    (∀ x : JsVal, ∃ inst : EffectInstance,
      (E._spawnGlobal id name x (JsVal.str s) opts).returned = some inst ∧
      inst.y = JsNum.fin (E.viewport.height / 2)) ∧
    (∀ sequence : List (List JsVal),
      (SequenceRunner.new E sequence (JsVal.str s) (JsVal.str s)).resolvedX
        = JsNum.fin (E.viewport.width / 2) ∧
      (SequenceRunner.new E sequence (JsVal.str s) (JsVal.str s)).resolvedY
        = JsNum.fin (E.viewport.height / 2)) := by
  refine ⟨?_, ?_, ?_⟩
  · intro y
    obtain ⟨h1, _⟩ := spawnGlobal_registered E id name (JsVal.str s) y opts g hreg
    exact ⟨_, h1, by rw [(hg _).1]; exact parse_malformed s _ hs hn⟩
  · intro x
    obtain ⟨h1, _⟩ := spawnGlobal_registered E id name x (JsVal.str s) opts g hreg
    exact ⟨_, h1, by rw [(hg _).2]; exact parse_malformed s _ hs hn⟩
  · intro sequence
    unfold SequenceRunner.new
    by_cases ht : (JsVal.str s).truthy = true
    · simp only [ht, if_true, parse_malformed s _ hs hn, and_self]
    · have hf : (JsVal.str s).truthy = false := by simpa using ht
      simp only [hf, Bool.false_eq_true, if_false]
      constructor <;> (congr 1; ring)

theorem malformed_coordinate_defaults_to_centre_witness :
    mapGet sampleEngine.effects (JsVal.str "earth_shield") = some earth_shield ∧
      (∀ fx : EffectInstance, (earth_shield fx).x = fx.x ∧ (earth_shield fx).y = fx.y) ∧
      includesPercent "left" = false ∧ parseFloatStr "left" = JsNum.nan ∧
      ∀ y : JsVal, ∃ inst : EffectInstance,
        (sampleEngine._spawnGlobal "a" (JsVal.str "earth_shield") (JsVal.str "left") y
          JsVal.obj).returned = some inst ∧
        inst.x = JsNum.fin (sampleEngine.viewport.width / 2) :=
  ⟨rfl, fun _ => ⟨rfl, rfl⟩, by decide, by decide,
    (malformed_coordinate_defaults_to_centre sampleEngine "a" (JsVal.str "earth_shield")
      JsVal.obj earth_shield "left" rfl (fun _ => ⟨rfl, rfl⟩) (by decide) (by decide)).1⟩

/-! ## Lemmas on particles and instances -/

theorem optNum_orElse_fin (a d : ℚ) (h : a = 0 → d = 0) :
    OptNum.orElse (some (JsNum.fin a)) (JsNum.fin d) = JsNum.fin a := by
  unfold OptNum.orElse JsNum.truthy
  by_cases ha : a = 0
  · simp [ha, h ha]
  · simp [ha]

theorem spawnAll_eq (fx : EffectInstance) (specs : List ParticleSpec) :
    specs.foldl EffectInstance.spawn fx
      = { fx with
          particles := fx.particles ++ specs.map (EffectInstance.spawned fx.x fx.y) } := by
  induction specs generalizing fx with
  | nil => simp
  | cons p ps ih =>
    rw [List.foldl_cons, ih]
    simp [EffectInstance.spawn]

theorem updated_eq (fx : EffectInstance) :
    fx.updated
      = { fx with
          life := fx.life - 1
          particles :=
            ((fx.particles ++ fx.emitted).filter EffectInstance.isLive).map
              EffectInstance.advance
          emitter :=
            match fx.emitter with
            | some e => if 0 < fx.life - 1 then some { e with calls := e.calls + 1 } else some e
            | none => none } := by
  unfold EffectInstance.updated EffectInstance.emitted
  cases he : fx.emitter with
  | none => simp [EffectInstance.runEmitter, he]
  | some e =>
    simp only [EffectInstance.runEmitter, he]
    by_cases hl : 0 < fx.life - 1
    · simp [hl, spawnAll_eq]
    · simp [hl, he]

theorem update_active (fx : EffectInstance) :
    fx.update.active = decide (0 < fx.update.fx.particles.length) := by
  unfold EffectInstance.update
  simp only
  split_ifs with h
  · simp only [Bool.and_eq_true, List.isEmpty_iff] at h
    simp [h.2]
  · rfl

theorem update_active_iff (fx : EffectInstance) :
    (fx.update.active = false ↔ fx.update.fx.particles = []) ∧
      (fx.update.active = true ↔ fx.update.fx.particles ≠ []) := by
  rw [update_active]
  cases fx.update.fx.particles <;> simp

theorem optNum_orElse_zero (v : JsNum) (h : v ≠ JsNum.nan) :
    OptNum.orElse (some v) (JsNum.fin 0) = v := by
  cases v with
  | nan => exact absurd rfl h
  | posInf => rfl
  | negInf => rfl
  | fin a => exact optNum_orElse_fin a 0 (fun _ => rfl)

theorem emitted_spawn (fx : EffectInstance) (p : ParticleSpec) :
    (fx.spawn p).emitted = fx.emitted := rfl

theorem updated_particles (fx : EffectInstance) :
    fx.update.fx.particles
      = ((fx.particles ++ fx.emitted).filter EffectInstance.isLive).map
          EffectInstance.advance := by
  show fx.updated.particles = _
  rw [updated_eq]

theorem sampleInstance_emitted : sampleInstance.emitted = [] := rfl

theorem lastTick_update_particles :
    (sampleInstance.spawn lastTickSpec).update.fx.particles
      = [{ x := JsNum.fin 400, y := JsNum.fin 300, vx := JsNum.fin 0, vy := JsNum.fin 0,
           size := JsNum.fin 5, gravity := JsNum.fin 0, growth := JsNum.fin 0,
           length := JsNum.fin 10, lineWidth := JsNum.fin 1, life := some (JsNum.fin 0),
           maxLife := some (JsNum.fin 1), color := JsVal.str "#fff",
           shrink := JsVal.bool false, type := JsVal.str "circle" }] := by
  rw [updated_particles]
  have he : (sampleInstance.spawn lastTickSpec).emitted = [] := rfl
  have hp : (sampleInstance.spawn lastTickSpec).particles
      = [EffectInstance.spawned (JsNum.fin 400) (JsNum.fin 300) lastTickSpec] := rfl
  rw [he, hp]
  simp [EffectInstance.spawned, lastTickSpec, OptNum.of, OptNum.orElse, JsNum.truthy,
    JsVal.orElse, JsVal.truthy, EffectInstance.isLive, OptNum.gtZero, JsNum.gtZero,
    EffectInstance.advance, JsNum.add, JsNum.sub, JsNum.neg, OptNum.toNum]

theorem foldl_spawn (f : EffectInstance → ℕ → ParticleSpec) (l : List ℕ) (fx : EffectInstance) :
    (l.foldl (fun acc (i : ℕ) => acc.spawn (f acc i)) fx).particles.length
        = fx.particles.length + l.length ∧
      (l.foldl (fun acc (i : ℕ) => acc.spawn (f acc i)) fx).emitter = fx.emitter := by
  induction l generalizing fx with
  | nil => exact ⟨rfl, rfl⟩
  | cons i l ih =>
    rw [List.foldl_cons]
    refine ⟨?_, (ih _).2⟩
    rw [(ih _).1]
    simp [EffectInstance.spawn]
    omega

theorem spawn_length (fx : EffectInstance) (p : ParticleSpec) :
    (fx.spawn p).particles.length = fx.particles.length + 1 ∧
      (fx.spawn p).emitter = fx.emitter := by
  simp [EffectInstance.spawn]

theorem burst_generators (M : JsMath) (rnd : ℕ → ℚ) (fx : EffectInstance)
    (hp : fx.particles = []) (he : fx.emitter = none) :
    ((fire_burst M rnd fx).particles.length = 40 ∧ (fire_burst M rnd fx).emitter = none) ∧
    ((water_splash rnd fx).particles.length = 25 ∧ (water_splash rnd fx).emitter = none) ∧
    ((water_vortex M rnd fx).particles.length = 30 ∧ (water_vortex M rnd fx).emitter = none) ∧
    ((wind_cutter rnd fx).particles.length = 11 ∧ (wind_cutter rnd fx).emitter = none) ∧
    ((earth_spike rnd fx).particles.length = 5 ∧ (earth_spike rnd fx).emitter = none) ∧
    ((anime_cut fx).particles.length = 1 ∧ (anime_cut fx).emitter = none) ∧
    ((hit_impact M rnd fx).particles.length = 16 ∧ (hit_impact M rnd fx).emitter = none) ∧
    ((flash_step rnd fx).particles.length = 10 ∧ (flash_step rnd fx).emitter = none) ∧
    ((impact_flash_white M rnd fx).particles.length = 51 ∧
      (impact_flash_white M rnd fx).emitter = none) := by
  refine ⟨?_, ?_, ?_, ?_, ?_, ?_, ?_, ?_, ?_⟩
  · unfold fire_burst
    rw [(foldl_spawn _ _ _).1, (foldl_spawn _ _ _).2]
    simp [EffectInstance.flash, hp, he]
  · unfold water_splash
    rw [(foldl_spawn _ _ _).1, (foldl_spawn _ _ _).2]
    simp [hp, he]
  · unfold water_vortex
    rw [(foldl_spawn _ _ _).1, (foldl_spawn _ _ _).2]
    simp [hp, he]
  · unfold wind_cutter
    rw [(foldl_spawn _ _ _).1, (foldl_spawn _ _ _).2]
    simp [EffectInstance.spawn, hp, he]
  · unfold earth_spike
    simp only [EffectInstance.addCSS]
    rw [(foldl_spawn _ _ _).1, (foldl_spawn _ _ _).2]
    simp [hp, he]
  · simp [anime_cut, EffectInstance.flash, EffectInstance.spawn, hp, he]
  · unfold hit_impact
    rw [(spawn_length _ _).1, (spawn_length _ _).2, (foldl_spawn _ _ _).1, (foldl_spawn _ _ _).2]
    simp [EffectInstance.addCSS, hp, he]
  · unfold flash_step
    rw [(foldl_spawn _ _ _).1, (foldl_spawn _ _ _).2]
    simp [EffectInstance.addCSS, hp, he]
  · unfold impact_flash_white
    rw [(spawn_length _ _).1, (spawn_length _ _).2, (foldl_spawn _ _ _).1, (foldl_spawn _ _ _).2]
    simp [hp, he]

theorem emitter_generators (M : JsMath) (rnd : ℕ → ℚ) (fx : EffectInstance)
    (hp : fx.particles = []) :
    ((fire_engulf rnd fx).particles = [] ∧ (fire_engulf rnd fx).emitter.isSome = true) ∧
    ((fire_spiral M fx).particles = [] ∧ (fire_spiral M fx).emitter.isSome = true) ∧
    ((water_bubble rnd fx).particles = [] ∧ (water_bubble rnd fx).emitter.isSome = true) ∧
    ((wind_gust rnd fx).particles = [] ∧ (wind_gust rnd fx).emitter.isSome = true) ∧
    ((wind_swirl rnd fx).particles = [] ∧ (wind_swirl rnd fx).emitter.isSome = true) ∧
    ((earth_crumble rnd fx).particles = [] ∧ (earth_crumble rnd fx).emitter.isSome = true) := by
  refine ⟨⟨hp, rfl⟩, ⟨hp, rfl⟩, ⟨hp, rfl⟩, ⟨hp, rfl⟩, ⟨hp, rfl⟩, ⟨hp, rfl⟩⟩

theorem registry_lookup (M : JsMath) (rnd : ℕ → ℚ) :
    mapGet (registerEffects M rnd) (JsVal.str "fire_engulf") = some (fire_engulf rnd) ∧
    mapGet (registerEffects M rnd) (JsVal.str "fire_burst") = some (fire_burst M rnd) ∧
    mapGet (registerEffects M rnd) (JsVal.str "fire_spiral") = some (fire_spiral M) ∧
    mapGet (registerEffects M rnd) (JsVal.str "water_bubble") = some (water_bubble rnd) ∧
    mapGet (registerEffects M rnd) (JsVal.str "water_splash") = some (water_splash rnd) ∧
    mapGet (registerEffects M rnd) (JsVal.str "water_vortex") = some (water_vortex M rnd) ∧
    mapGet (registerEffects M rnd) (JsVal.str "wind_gust") = some (wind_gust rnd) ∧
    mapGet (registerEffects M rnd) (JsVal.str "wind_swirl") = some (wind_swirl rnd) ∧
    mapGet (registerEffects M rnd) (JsVal.str "wind_cutter") = some (wind_cutter rnd) ∧
    mapGet (registerEffects M rnd) (JsVal.str "earth_crumble") = some (earth_crumble rnd) ∧
    mapGet (registerEffects M rnd) (JsVal.str "earth_spike") = some (earth_spike rnd) ∧
    mapGet (registerEffects M rnd) (JsVal.str "earth_shield") = some earth_shield ∧
    mapGet (registerEffects M rnd) (JsVal.str "anime_cut") = some anime_cut ∧
    mapGet (registerEffects M rnd) (JsVal.str "hit_impact") = some (hit_impact M rnd) ∧
    mapGet (registerEffects M rnd) (JsVal.str "flash_step") = some (flash_step rnd) ∧
    mapGet (registerEffects M rnd) (JsVal.str "impact_flash_white")
      = some (impact_flash_white M rnd) := by
  refine ⟨?_, ?_, ?_, ?_, ?_, ?_, ?_, ?_, ?_, ?_, ?_, ?_, ?_, ?_, ?_, ?_⟩ <;>
    simp [mapGet, registerEffects, List.find?]

theorem spawn_summary (E : ArcaneFX) (id : String) (name x y opts : JsVal) (g : Generator)
    (hreg : mapGet E.effects name = some g) (P : EffectInstance → Prop)
    (hP : ∀ fx : EffectInstance, fx.particles = [] → fx.emitter = none → P (g fx)) :
    ∃ inst : EffectInstance, (E._spawnGlobal id name x y opts).returned = some inst ∧ P inst :=
  ⟨_, (spawnGlobal_registered E id name x y opts g hreg).1, hP _ rfl rfl⟩

theorem mapSet_mid {β : Type} (pre rest : List (String × β)) (k : String) (v w : β)
    (hpre : ∀ e ∈ pre, e.1 ≠ k) (hrest : ∀ e ∈ rest, e.1 ≠ k) :
    mapSet (pre ++ (k, v) :: rest) k w = pre ++ (k, w) :: rest := by
  unfold mapSet
  have hany : (pre ++ (k, v) :: rest).any (fun e => e.1 == k) = true := by simp
  rw [if_pos hany, List.map_append, List.map_cons]
  have h1 : pre.map (fun e => if (e.1 == k) = true then (k, w) else e) = pre := by
    conv_rhs => rw [← List.map_id pre]
    refine List.map_congr_left (fun e he => ?_)
    simp [hpre e he]
  have h2 : rest.map (fun e => if (e.1 == k) = true then (k, w) else e) = rest := by
    conv_rhs => rw [← List.map_id rest]
    refine List.map_congr_left (fun e he => ?_)
    simp [hrest e he]
  rw [h1, h2]
  simp

theorem mapDelete_mid {β : Type} (pre rest : List (String × β)) (k : String) (v : β)
    (hpre : ∀ e ∈ pre, e.1 ≠ k) (hrest : ∀ e ∈ rest, e.1 ≠ k) :
    mapDelete (pre ++ (k, v) :: rest) k = pre ++ rest := by
  unfold mapDelete
  rw [List.filter_append, List.filter_cons]
  have h1 : pre.filter (fun e => !(e.1 == k)) = pre :=
    List.filter_eq_self.mpr (fun e he => by simp [hpre e he])
  have h2 : rest.filter (fun e => !(e.1 == k)) = rest :=
    List.filter_eq_self.mpr (fun e he => by simp [hrest e he])
  rw [h1, h2]
  simp

theorem nodup_mid {β : Type} (pre rest : List (String × β)) (k : String) (v : β)
    (h : ((pre ++ (k, v) :: rest).map Prod.fst).Nodup) :
    (∀ e ∈ pre, e.1 ≠ k) ∧ (∀ e ∈ rest, e.1 ≠ k) := by
  rw [List.map_append, List.map_cons, List.nodup_append] at h
  obtain ⟨_, h2, h3⟩ := h
  rw [List.nodup_cons] at h2
  refine ⟨fun e he hk => ?_, fun e he hk => ?_⟩
  · exact h3 (List.mem_map.mpr ⟨e, he, hk⟩) (List.mem_cons_self _ _)
  · exact h2.1 (List.mem_map.mpr ⟨e, he, hk⟩)

theorem foldl_animateEntry (M : JsMath) (post : List (String × EffectInstance)) :
    ∀ (pre : List (String × EffectInstance)) (acc : FrameResult),
      acc.engine.activeGlobalEffects = pre ++ post →
      ((pre ++ post).map Prod.fst).Nodup →
      (post.foldl (ArcaneFX.animateEntry M) acc).engine
          = { acc.engine with
              activeGlobalEffects :=
                pre ++ (post.filter (fun e => e.2.update.active)).map
                  (fun e => (e.1, e.2.update.fx)) } ∧
        (post.foldl (ArcaneFX.animateEntry M) acc).ticked = acc.ticked ++ post.map Prod.fst ∧
        (post.foldl (ArcaneFX.animateEntry M) acc).rendered
          = acc.rendered ++ (post.filter (fun e => e.2.update.active)).map Prod.fst := by
  induction post with
  | nil =>
    intro pre acc hacc _
    simp [← hacc]
  | cons e rest ih =>
    intro pre acc hacc hnd
    obtain ⟨k, fx⟩ := e
    obtain ⟨hpre, hrest⟩ := nodup_mid pre rest k fx hnd
    rw [List.foldl_cons]
    by_cases ha : fx.update.active = true
    · have hstep : ArcaneFX.animateEntry M acc (k, fx)
          = { engine := { acc.engine with
                activeGlobalEffects := (pre ++ [(k, fx.update.fx)]) ++ rest }
              ops := acc.ops ++ fx.update.ops ++ fx.update.fx.render M
              ticked := acc.ticked ++ [k]
              rendered := acc.rendered ++ [k] } := by
        simp only [ArcaneFX.animateEntry, ha, if_true, hacc]
        rw [mapSet_mid pre rest k fx fx.update.fx hpre hrest]
        simp
      have hnd2 : (((pre ++ [(k, fx.update.fx)]) ++ rest).map Prod.fst).Nodup := by
        simpa using hnd
      obtain ⟨h1, h2, h3⟩ := ih (pre ++ [(k, fx.update.fx)])
        (ArcaneFX.animateEntry M acc (k, fx)) (by rw [hstep]) hnd2
      rw [h1, h2, h3, hstep]
      simp [ha]
    · have ha2 : fx.update.active = false := by simpa using ha
      have hstep : ArcaneFX.animateEntry M acc (k, fx)
          = { engine := { acc.engine with activeGlobalEffects := pre ++ rest }
              ops := acc.ops ++ fx.update.ops
              ticked := acc.ticked ++ [k]
              rendered := acc.rendered } := by
        simp only [ArcaneFX.animateEntry, ha2, hacc]
        rw [mapDelete_mid pre rest k fx hpre hrest]
        simp
      have hnd2 : ((pre ++ rest).map Prod.fst).Nodup := by
        rw [List.map_append, List.map_cons] at hnd
        rw [List.map_append]
        exact List.Nodup.sublist
          (List.Sublist.append (List.Sublist.refl _) (List.sublist_cons_self _ _)) hnd
      obtain ⟨h1, h2, h3⟩ := ih pre (ArcaneFX.animateEntry M acc (k, fx)) (by rw [hstep]) hnd2
      rw [h1, h2, h3, hstep]
      simp [ha2]

theorem animate_eq (M : JsMath) (E : ArcaneFX)
    (hnd : (E.activeGlobalEffects.map Prod.fst).Nodup) :
    (E.animate M).engine
        = { E with
            activeGlobalEffects :=
              (E.activeGlobalEffects.filter (fun e => e.2.update.active)).map
                (fun e => (e.1, e.2.update.fx)) } ∧
      (E.animate M).ticked = E.activeGlobalEffects.map Prod.fst ∧
      (E.animate M).rendered
        = (E.activeGlobalEffects.filter (fun e => e.2.update.active)).map Prod.fst := by
  have h := foldl_animateEntry M E.activeGlobalEffects []
    { engine := E
      ops := [CanvasOp.clearRect (JsNum.fin 0) (JsNum.fin 0) (JsNum.fin E.viewport.width)
                (JsNum.fin E.viewport.height),
              CanvasOp.setGlobalCompositeOperation "lighter"]
      ticked := []
      rendered := [] } rfl (by simpa using hnd)
  simpa [ArcaneFX.animate] using h

theorem keys_filter_map (m : List (String × EffectInstance)) :
    ((m.filter (fun e => e.2.update.active)).map (fun e => (e.1, e.2.update.fx))).map Prod.fst
      = (m.filter (fun e => e.2.update.active)).map Prod.fst := by
  rw [List.map_map]
  rfl

theorem animate_keys (M : JsMath) (E : ArcaneFX)
    (hnd : (E.activeGlobalEffects.map Prod.fst).Nodup) :
    ((E.animate M).engine.activeGlobalEffects.map Prod.fst).Nodup ∧
      ∀ k ∈ (E.animate M).engine.activeGlobalEffects.map Prod.fst,
        k ∈ E.activeGlobalEffects.map Prod.fst := by
  rw [(animate_eq M E hnd).1]
  simp only [keys_filter_map]
  exact ⟨List.Nodup.sublist (List.Sublist.map _ (List.filter_sublist _)) hnd,
    fun k hk => (List.Sublist.map _ (List.filter_sublist _)).subset hk⟩

theorem frames_keys (M : JsMath) (n : ℕ) :
    ∀ E : ArcaneFX, (E.activeGlobalEffects.map Prod.fst).Nodup →
      ((ArcaneFX.frames M n E).activeGlobalEffects.map Prod.fst).Nodup ∧
        ∀ k ∈ (ArcaneFX.frames M n E).activeGlobalEffects.map Prod.fst,
          k ∈ E.activeGlobalEffects.map Prod.fst := by
  induction n with
  | zero => exact fun E hnd => ⟨hnd, fun k hk => hk⟩
  | succ n ih =>
    intro E hnd
    obtain ⟨h1, h2⟩ := animate_keys M E hnd
    obtain ⟨h3, h4⟩ := ih (E.animate M).engine h1
    exact ⟨h3, fun k hk => h2 k (h4 k hk)⟩

theorem mapSet_keys_nodup {β : Type} (m : List (String × β)) (k : String) (v : β)
    (hnd : (m.map Prod.fst).Nodup) : ((mapSet m k v).map Prod.fst).Nodup := by
  unfold mapSet
  split_ifs with h
  · have hk : (m.map (fun e => if (e.1 == k) = true then (k, v) else e)).map Prod.fst
        = m.map Prod.fst := by
      rw [List.map_map]
      refine List.map_congr_left (fun e _ => ?_)
      by_cases he : e.1 = k
      · simp [he]
      · simp [he]
    rw [hk]
    exact hnd
  · rw [List.map_append, List.map_cons, List.map_nil]
    refine List.Nodup.append hnd (List.nodup_singleton _) ?_
    intro a hmem hk
    rw [List.mem_singleton] at hk
    obtain ⟨e, he, hek⟩ := List.mem_map.mp hmem
    exact h (List.any_eq_true.mpr ⟨e, he, by simp [hek, hk]⟩)

theorem spawnLocal_registered (E : ArcaneFX) (id : String) (name : JsVal) (element : HTMLElement)
    (opts : JsVal) (g : Generator) (hreg : mapGet E.effects name = some g) :
    (E._spawnLocal id name element opts).returned
      = some (g (EffectInstance.new id element.offsetWidth element.offsetHeight true
          (JsNum.fin 0) (JsNum.fin 0) (if opts = JsVal.undefined then JsVal.obj else opts))) := by
  unfold ArcaneFX._spawnLocal
  rw [hreg]

theorem bubble_instance_idle :
    (water_bubble sampleRandom
      (EffectInstance.new "a" 800 600 false (parse (JsVal.str "50%") 800)
        (parse (JsVal.str "50%") 600) JsVal.obj)).update.fx.particles = [] := by
  rw [updated_particles]
  have he : (water_bubble sampleRandom
      (EffectInstance.new "a" 800 600 false (parse (JsVal.str "50%") 800)
        (parse (JsVal.str "50%") 600) JsVal.obj)).emitted = [] := by
    simp [EffectInstance.emitted, water_bubble, EffectInstance.addCSS, EffectInstance.new,
      sampleRandom]
    norm_num
  rw [he]
  rfl

theorem particle_update_life (M : JsMath) (p : Particle) :
    (p.update M).life = p.life.sub (JsNum.fin 1) := by
  unfold Particle.update
  simp only
  split_ifs <;> rfl

theorem particle_iterate_life (M : JsMath) (n : ℕ) :
    ∀ (p : Particle) (L : ℚ), p.life = JsNum.fin L →
      ((Particle.update M)^[n] p).life = JsNum.fin (L - n) := by
  induction n with
  | zero => intro p L h; simp [h]
  | succ n ih =>
    intro p L h
    rw [Function.iterate_succ_apply]
    have h1 : (p.update M).life = JsNum.fin (L - 1) := by
      rw [particle_update_life, h]
      simp [JsNum.sub, JsNum.neg, JsNum.add, sub_eq_add_neg]
    rw [ih _ _ h1]
    push_cast
    congr 1
    ring

theorem updates_succ (fx : EffectInstance) (n : ℕ) :
    fx.updates (n + 1) = (fx.updates n).update.fx := rfl

theorem advance_life (p : SpawnedParticle) (a : ℚ) (h : p.life = some (JsNum.fin a)) :
    (EffectInstance.advance p).life = some (JsNum.fin (a - 1)) := by
  simp [EffectInstance.advance, h, OptNum.toNum, JsNum.sub, JsNum.neg, JsNum.add,
    sub_eq_add_neg]

theorem advance_maxLife (p : SpawnedParticle) :
    (EffectInstance.advance p).maxLife = p.maxLife := rfl

theorem isLive_of_life (p : SpawnedParticle) (a : ℚ) (h : p.life = some (JsNum.fin a)) :
    EffectInstance.isLive p = decide (0 < a) := by
  simp [EffectInstance.isLive, h, OptNum.gtZero, JsNum.gtZero]

theorem mem_update_of_live (fx : EffectInstance) (p : SpawnedParticle) (hp : p ∈ fx.particles)
    (hl : EffectInstance.isLive p = true) :
    EffectInstance.advance p ∈ fx.update.fx.particles := by
  rw [updated_particles]
  exact List.mem_map.mpr ⟨p, List.mem_filter.mpr ⟨List.mem_append_left _ hp, hl⟩, rfl⟩

theorem mem_update_iff (fx : EffectInstance) (q : SpawnedParticle) :
    q ∈ fx.update.fx.particles
      ↔ ∃ p, (p ∈ fx.particles ∨ p ∈ fx.emitted) ∧ EffectInstance.isLive p = true
          ∧ q = EffectInstance.advance p := by
  rw [updated_particles]
  constructor
  · intro h
    obtain ⟨p, hp, rfl⟩ := List.mem_map.mp h
    obtain ⟨hm, hl⟩ := List.mem_filter.mp hp
    exact ⟨p, List.mem_append.mp hm, hl, rfl⟩
  · rintro ⟨p, hm, hl, rfl⟩
    exact List.mem_map.mpr ⟨p, List.mem_filter.mpr ⟨List.mem_append.mpr hm, hl⟩, rfl⟩

theorem update_life (fx : EffectInstance) : fx.update.fx.life = fx.life - 1 := by
  show fx.updated.life = _
  rw [updated_eq]

theorem update_emitter (fx : EffectInstance) :
    fx.update.fx.emitter
      = match fx.emitter with
        | some e => if 0 < fx.life - 1 then some { e with calls := e.calls + 1 } else some e
        | none => none := by
  exact congrArg EffectInstance.emitter (updated_eq fx)

theorem updates_life (fx : EffectInstance) (n : ℕ) : (fx.updates n).life = fx.life - n := by
  induction n with
  | zero => simp [EffectInstance.updates]
  | succ n ih =>
    rw [updates_succ, update_life, ih]
    push_cast
    ring

theorem update_emit (fx : EffectInstance) :
    (fx.update.fx.emitter.map (fun e => e.emit)) = fx.emitter.map (fun e => e.emit) := by
  rw [update_emitter]
  cases fx.emitter with
  | none => rfl
  | some e =>
    simp only
    split_ifs <;> rfl

theorem updates_emit (fx : EffectInstance) (n : ℕ) :
    ((fx.updates n).emitter.map (fun e => e.emit)) = fx.emitter.map (fun e => e.emit) := by
  induction n with
  | zero => rfl
  | succ n ih => rw [updates_succ, update_emit, ih]

theorem emitsLivesUpTo_of_emit (fx g : EffectInstance) (L : ℕ)
    (h : g.emitter.map (fun e => e.emit) = fx.emitter.map (fun e => e.emit))
    (he : fx.emitsLivesUpTo L) : g.emitsLivesUpTo L := by
  intro e hg i s hs
  rw [hg] at h
  cases hf : fx.emitter with
  | none => rw [hf] at h; exact Option.noConfusion h
  | some e2 =>
    rw [hf] at h
    have h2 : e.emit = e2.emit := Option.some.inj h
    rw [h2] at hs
    exact he e2 hf i s hs

theorem emitted_mem (fx : EffectInstance) (p : SpawnedParticle) (hp : p ∈ fx.emitted) :
    0 < fx.life - 1 ∧ ∃ e, fx.emitter = some e ∧ ∃ s ∈ e.emit e.calls,
      p = EffectInstance.spawned fx.x fx.y s := by
  unfold EffectInstance.emitted at hp
  cases he : fx.emitter with
  | none => rw [he] at hp; simp at hp
  | some e =>
    rw [he] at hp
    simp only at hp
    by_cases hl : 0 < fx.life - 1
    · rw [if_pos hl] at hp
      obtain ⟨s, hs, rfl⟩ := List.mem_map.mp hp
      exact ⟨hl, e, rfl, s, hs, rfl⟩
    · rw [if_neg hl] at hp
      simp at hp

theorem emitted_eq_nil_of_life (fx : EffectInstance) (h : fx.life ≤ 1) : fx.emitted = [] := by
  unfold EffectInstance.emitted
  cases fx.emitter with
  | none => rfl
  | some e =>
    simp only
    rw [if_neg (by omega)]

theorem emitted_eq_nil_of_none (fx : EffectInstance) (h : fx.emitter = none) :
    fx.emitted = [] := by
  unfold EffectInstance.emitted
  rw [h]

theorem maxZero_geZero (v : JsNum) (h : v ≠ JsNum.nan) : v.maxZero.geZero = true := by
  cases v with
  | nan => exact absurd rfl h
  | posInf => rfl
  | negInf => simp [JsNum.maxZero, JsNum.geZero]
  | fin q => simp [JsNum.maxZero, JsNum.geZero]

theorem shrinkingSquare_update_particles :
    (sampleInstance.spawn shrinkingSquareSpec).update.fx.particles
      = [{ x := JsNum.fin 400, y := JsNum.fin 300, vx := JsNum.fin 0, vy := JsNum.fin 0,
           size := JsNum.fin (-3), gravity := JsNum.fin 0, growth := JsNum.fin (-8),
           length := JsNum.fin 10, lineWidth := JsNum.fin 1, life := some (JsNum.fin 29),
           maxLife := some (JsNum.fin 30), color := JsVal.str "#fff",
           shrink := JsVal.bool false, type := JsVal.str "square" }] := by
  rw [updated_particles]
  have he : (sampleInstance.spawn shrinkingSquareSpec).emitted = [] := rfl
  have hp : (sampleInstance.spawn shrinkingSquareSpec).particles
      = [EffectInstance.spawned (JsNum.fin 400) (JsNum.fin 300) shrinkingSquareSpec] := rfl
  rw [he, hp]
  simp [EffectInstance.spawned, shrinkingSquareSpec, OptNum.of, OptNum.orElse, JsNum.truthy,
    JsVal.orElse, JsVal.truthy, EffectInstance.isLive, OptNum.gtZero, JsNum.gtZero,
    EffectInstance.advance, JsNum.add, JsNum.sub, JsNum.neg, OptNum.toNum]
  norm_num

theorem agedFrom_advance (p : SpawnedParticle) (L k : ℕ) (h : p.agedFrom L k)
    (hl : EffectInstance.isLive p = true) : (EffectInstance.advance p).agedFrom L (k + 1) := by
  obtain ⟨h0, hk, hm, hlife⟩ := h
  rw [isLive_of_life p _ hlife, decide_eq_true_eq] at hl
  have hlt : k < L := by
    have : (k : ℚ) < L := by linarith
    exact_mod_cast this
  refine ⟨h0, hlt, hm, ?_⟩
  rw [advance_life p _ hlife]
  push_cast
  congr 2
  ring

theorem agedFrom_spawned (ox oy : JsNum) (s : ParticleSpec) (l : ℕ) (h0 : 0 < l)
    (hs : s.life = some (JsNum.fin l)) : (EffectInstance.spawned ox oy s).agedFrom l 0 := by
  refine ⟨h0, Nat.zero_le _, hs, ?_⟩
  show s.life = _
  rw [hs]
  simp

theorem agedFrom_alpha (p : SpawnedParticle) (L k : ℕ) (h : p.agedFrom L k) :
    p.life.toNum.div p.maxLife.toNum = JsNum.fin (((L : ℚ) - k) / L) ∧
      (0 : ℚ) ≤ ((L : ℚ) - k) / L ∧ ((L : ℚ) - k) / L ≤ 1 := by
  obtain ⟨h0, hk, hm, hlife⟩ := h
  have hL : (0 : ℚ) < L := by exact_mod_cast h0
  have hkL : (k : ℚ) ≤ L := by exact_mod_cast hk
  refine ⟨?_, ?_, ?_⟩
  · rw [hm, hlife]
    simp [OptNum.toNum, JsNum.div, hL.ne']
  · exact div_nonneg (by linarith) hL.le
  · rw [div_le_one hL]
    have : (0 : ℚ) ≤ k := Nat.cast_nonneg k
    linarith

theorem renderParticle_alpha (M : JsMath) (p : SpawnedParticle) :
    (EffectInstance.renderParticle M p).filterMap CanvasOp.alpha
      = [p.life.toNum.div p.maxLife.toNum] := by
  unfold EffectInstance.renderParticle
  rw [List.filterMap_append]
  split_ifs <;> simp [CanvasOp.alpha]

theorem aged_update (fx : EffectInstance)
    (hp : ∀ p ∈ fx.particles, ∃ l k : ℕ, p.agedFrom l k)
    (he : ∀ e : Emitter, fx.emitter = some e → ∀ (i : ℕ) (s : ParticleSpec), s ∈ e.emit i →
      ∃ l : ℕ, 0 < l ∧ s.life = some (JsNum.fin l)) :
    ∀ q ∈ fx.update.fx.particles, ∃ l k : ℕ, q.agedFrom l k := by
  intro q hq
  obtain ⟨p, hm, hl, rfl⟩ := (mem_update_iff fx q).mp hq
  rcases hm with hm | hm
  · obtain ⟨l, k, h⟩ := hp p hm
    exact ⟨l, k + 1, agedFrom_advance p l k h hl⟩
  · obtain ⟨_, e, hfe, s, hs, rfl⟩ := emitted_mem fx p hm
    obtain ⟨l, h0, hsl⟩ := he e hfe _ s hs
    exact ⟨l, 1, agedFrom_advance _ l 0 (agedFrom_spawned _ _ s l h0 hsl) hl⟩

theorem aged_updates (fx : EffectInstance)
    (hp : ∀ p ∈ fx.particles, ∃ l k : ℕ, p.agedFrom l k)
    (he : ∀ e : Emitter, fx.emitter = some e → ∀ (i : ℕ) (s : ParticleSpec), s ∈ e.emit i →
      ∃ l : ℕ, 0 < l ∧ s.life = some (JsNum.fin l)) (n : ℕ) :
    ∀ q ∈ (fx.updates n).particles, ∃ l k : ℕ, q.agedFrom l k := by
  induction n with
  | zero => exact hp
  | succ n ih =>
    rw [updates_succ]
    refine aged_update _ ih ?_
    intro e hge i s hs
    have h := updates_emit fx n
    rw [hge] at h
    cases hf : fx.emitter with
    | none => rw [hf] at h; exact Option.noConfusion h
    | some e2 =>
      rw [hf] at h
      have h2 : e.emit = e2.emit := Option.some.inj h
      rw [h2] at hs
      exact he e2 hf i s hs

theorem iterate_advance_life (p : SpawnedParticle) (a : ℚ) (h : p.life = some (JsNum.fin a))
    (k : ℕ) : (EffectInstance.advance^[k] p).life = some (JsNum.fin (a - k)) := by
  induction k with
  | zero => simp [h]
  | succ k ih =>
    rw [Function.iterate_succ_apply', advance_life _ _ ih]
    push_cast
    congr 2
    ring

theorem mem_updates_of_live (fx : EffectInstance) (p : SpawnedParticle) (hp : p ∈ fx.particles)
    (k : ℕ) (hl : ∀ j < k, EffectInstance.isLive (EffectInstance.advance^[j] p) = true) :
    EffectInstance.advance^[k] p ∈ (fx.updates k).particles := by
  induction k with
  | zero => exact hp
  | succ k ih =>
    rw [Function.iterate_succ_apply', updates_succ]
    exact mem_update_of_live _ _ (ih (fun j hj => hl j (Nat.lt_succ_of_lt hj)))
      (hl k (Nat.lt_succ_self k))

theorem life_of_mem_update (fx : EffectInstance) (q : SpawnedParticle)
    (hq : q ∈ fx.update.fx.particles) (b : ℚ) (hb : q.life = some (JsNum.fin b)) : -1 < b := by
  obtain ⟨p, _, hl, rfl⟩ := (mem_update_iff fx q).mp hq
  unfold EffectInstance.isLive at hl
  cases hp : p.life with
  | none => rw [hp] at hl; exact Bool.noConfusion hl
  | some v =>
    rw [hp] at hl
    cases v with
    | nan => exact Bool.noConfusion hl
    | negInf => exact Bool.noConfusion hl
    | posInf =>
      simp [EffectInstance.advance, hp, OptNum.toNum, JsNum.sub, JsNum.neg, JsNum.add] at hb
    | fin a =>
      rw [advance_life p a hp] at hb
      have ha : 0 < a := by simpa [OptNum.gtZero, JsNum.gtZero] using hl
      have hab : a - 1 = b := by
        have := Option.some.inj hb
        exact JsNum.fin.inj this
      linarith

theorem updates_emitter_none (fx : EffectInstance) (h : fx.emitter = none) (n : ℕ) :
    (fx.updates n).emitter = none := by
  have := updates_emit fx n
  rw [h] at this
  simpa using this

theorem mem_updates_no_emitter (fx : EffectInstance) (h : fx.emitter = none) (n : ℕ) :
    ∀ q ∈ (fx.updates n).particles, ∃ p ∈ fx.particles,
      q = EffectInstance.advance^[n] p ∧
      ∀ j < n, EffectInstance.isLive (EffectInstance.advance^[j] p) = true := by
  induction n with
  | zero => exact fun q hq => ⟨q, hq, rfl, fun j hj => absurd hj (Nat.not_lt_zero j)⟩
  | succ n ih =>
    intro q hq
    rw [updates_succ] at hq
    obtain ⟨p1, hm, hl, rfl⟩ := (mem_update_iff _ q).mp hq
    rw [emitted_eq_nil_of_none _ (updates_emitter_none fx h n)] at hm
    rcases hm with hm | hm
    · obtain ⟨p, hp, rfl, hlive⟩ := ih p1 hm
      refine ⟨p, hp, (Function.iterate_succ_apply' _ _ _).symm, fun j hj => ?_⟩
      rcases Nat.lt_succ_iff_lt_or_eq.mp hj with hj2 | rfl
      · exact hlive j hj2
      · exact hl
    · simp at hm

theorem iterate_advance_motion (p : SpawnedParticle) (x0 y0 vx0 vy0 g : ℚ)
    (hx : p.x = JsNum.fin x0) (hy : p.y = JsNum.fin y0) (hvx : p.vx = JsNum.fin vx0)
    (hvy : p.vy = JsNum.fin vy0) (hg : p.gravity = JsNum.fin g) (n : ℕ) :
    (EffectInstance.advance^[n] p).vx = JsNum.fin vx0 ∧
      (EffectInstance.advance^[n] p).vy = JsNum.fin (vy0 + n * g) ∧
      (EffectInstance.advance^[n] p).x = JsNum.fin (x0 + n * vx0) ∧
      (EffectInstance.advance^[n] p).y = JsNum.fin (y0 + n * vy0 + g * n * (n - 1) / 2) ∧
      (EffectInstance.advance^[n] p).gravity = JsNum.fin g := by
  induction n with
  | zero => simp [hx, hy, hvx, hvy, hg]
  | succ n ih =>
    obtain ⟨h1, h2, h3, h4, h5⟩ := ih
    rw [Function.iterate_succ_apply']
    refine ⟨?_, ?_, ?_, ?_, ?_⟩
    · show (EffectInstance.advance^[n] p).vx = _
      exact h1
    · show ((EffectInstance.advance^[n] p).vy).add (EffectInstance.advance^[n] p).gravity = _
      rw [h2, h5]
      simp only [JsNum.add]
      push_cast
      congr 1
      ring
    · show ((EffectInstance.advance^[n] p).x).add (EffectInstance.advance^[n] p).vx = _
      rw [h3, h1]
      simp only [JsNum.add]
      push_cast
      congr 1
      ring
    · show ((EffectInstance.advance^[n] p).y).add (EffectInstance.advance^[n] p).vy = _
      rw [h4, h2]
      simp only [JsNum.add]
      push_cast
      congr 1
      ring
    · show (EffectInstance.advance^[n] p).gravity = _
      exact h5

theorem iterate_advance_shrink (p : SpawnedParticle) (s0 : ℚ) (hs : p.size = JsNum.fin s0)
    (hgr : p.growth = JsNum.fin 0) (hsh : p.shrink.truthy = true) (n : ℕ) :
    (EffectInstance.advance^[n] p).size = JsNum.fin (s0 * (9 / 10) ^ n) ∧
      (EffectInstance.advance^[n] p).growth = JsNum.fin 0 ∧
      (EffectInstance.advance^[n] p).shrink = p.shrink := by
  induction n with
  | zero => simp [hs, hgr]
  | succ n ih =>
    obtain ⟨h1, h2, h3⟩ := ih
    rw [Function.iterate_succ_apply']
    refine ⟨?_, h2, h3⟩
    show (if (EffectInstance.advance^[n] p).shrink.truthy = true then _ else _) = _
    rw [h3, if_pos hsh, h1, h2]
    simp only [JsNum.add, JsNum.mul]
    congr 1
    rw [pow_succ]
    ring

theorem fallingParticle_fields :
    fallingParticle.x = JsNum.fin 400 ∧ fallingParticle.y = JsNum.fin 300 ∧
      fallingParticle.vx = JsNum.fin 2 ∧ fallingParticle.vy = JsNum.fin (-3) ∧
      fallingParticle.gravity = JsNum.fin (2 / 5) ∧ fallingParticle.size = JsNum.fin 5 ∧
      fallingParticle.growth = JsNum.fin 0 ∧ fallingParticle.shrink.truthy = true := by
  refine ⟨?_, ?_, ?_, ?_, ?_, ?_, ?_, ?_⟩ <;>
    simp [fallingParticle, fallingSpec, EffectInstance.spawned, OptNum.of, OptNum.orElse,
      JsNum.truthy, JsNum.add, JsVal.orElse, JsVal.truthy]

theorem animate_removes_inactive (M : JsMath) (E : ArcaneFX)
    (hnd : (E.activeGlobalEffects.map Prod.fst).Nodup) (k : String) (g : EffectInstance)
    (hmem : (k, g) ∈ E.activeGlobalEffects) (hina : g.update.active = false) :
    k ∉ (E.animate M).engine.activeGlobalEffects.map Prod.fst := by
  rw [(animate_eq M E hnd).1]
  show k ∉ List.map Prod.fst (List.map _ _)
  rw [keys_filter_map]
  intro h
  obtain ⟨e2, he2, hk⟩ := List.mem_map.mp h
  obtain ⟨he2m, he2a⟩ := List.mem_filter.mp he2
  have heq : e2 = (k, g) := List.inj_on_of_nodup_map hnd he2m hmem hk
  rw [heq, hina] at he2a
  exact Bool.noConfusion he2a

theorem updates_calls (fx : EffectInstance) (e : Emitter) (hlife : fx.life = 100)
    (he : fx.emitter = some e) (n : ℕ) :
    (fx.updates n).emitter = some { e with calls := e.calls + min n 99 } := by
  induction n with
  | zero => simpa [EffectInstance.updates] using he
  | succ n ih =>
    rw [updates_succ, update_emitter, ih, updates_life, hlife]
    simp only
    by_cases hn : n < 99
    · have h1 : (0 : ℤ) < 100 - (n : ℤ) - 1 := by omega
      rw [if_pos h1]
      have h2 : min (n + 1) 99 = min n 99 + 1 := by omega
      rw [h2, Nat.add_assoc]
    · have h1 : ¬ (0 : ℤ) < 100 - (n : ℤ) - 1 := by omega
      rw [if_neg h1]
      have h2 : min (n + 1) 99 = min n 99 := by omega
      rw [h2]

theorem bounded_updates (fx : EffectInstance) (L : ℕ) (hlife : fx.life = 100)
    (hp : fx.holdsLivesUpTo L) (he : fx.emitsLivesUpTo L) (n : ℕ) :
    ∀ q ∈ (fx.updates n).particles, ∃ m : ℕ, q.life = some (JsNum.fin m) ∧ m + n ≤ L + 98 := by
  induction n with
  | zero =>
    intro q hq
    obtain ⟨l, _, hl, hq2⟩ := hp q hq
    exact ⟨l, hq2, by omega⟩
  | succ n ih =>
    intro q hq
    rw [updates_succ] at hq
    obtain ⟨p, hm, hl, rfl⟩ := (mem_update_iff _ q).mp hq
    rcases hm with hm | hm
    · obtain ⟨m, hpm, hb⟩ := ih p hm
      rw [isLive_of_life p _ hpm, decide_eq_true_eq] at hl
      have hm1 : 1 ≤ m := by
        have : (0 : ℚ) < m := hl
        exact_mod_cast this
      refine ⟨m - 1, ?_, by omega⟩
      rw [advance_life p _ hpm]
      congr 2
      rw [Nat.cast_sub hm1]
      simp
    · obtain ⟨hpos, e, hfe, s, hs, rfl⟩ := emitted_mem _ p hm
      rw [updates_life, hlife] at hpos
      obtain ⟨l, hl1, hl2, hsl⟩ :=
        emitsLivesUpTo_of_emit fx (fx.updates n) L (updates_emit fx n) he e hfe _ s hs
      refine ⟨l - 1, ?_, by omega⟩
      have hsp : (EffectInstance.spawned (fx.updates n).x (fx.updates n).y s).life
          = some (JsNum.fin l) := hsl
      rw [advance_life _ _ hsp]
      congr 2
      rw [Nat.cast_sub hl1]
      simp

theorem inactive_at_bound (fx : EffectInstance) (L : ℕ) (hlife : fx.life = 100)
    (hp : fx.holdsLivesUpTo L) (he : fx.emitsLivesUpTo L) : fx.activeAt (L + 98) = false := by
  refine (update_active_iff _).1.mpr (List.eq_nil_iff_forall_not_mem.mpr fun q hq => ?_)
  obtain ⟨p, hm, hl, rfl⟩ := (mem_update_iff _ q).mp hq
  rcases hm with hm | hm
  · obtain ⟨m, hpm, hb⟩ := bounded_updates fx L hlife hp he (L + 98) p hm
    rw [isLive_of_life p _ hpm, decide_eq_true_eq] at hl
    have hm1 : 1 ≤ m := by
      have : (0 : ℚ) < m := hl
      exact_mod_cast this
    omega
  · obtain ⟨hpos, e, hfe, s, hs, rfl⟩ := emitted_mem _ p hm
    rw [updates_life, hlife] at hpos
    obtain ⟨l, hl1, hl2, _⟩ :=
      emitsLivesUpTo_of_emit fx (fx.updates (L + 98)) L (updates_emit fx (L + 98)) he e hfe _ s hs
    push_cast at hpos
    omega

theorem parseFloatStr_zero : parseFloatStr "0" = JsNum.fin 0 := by
  have h : scanFloat "0" = (false, Literal.decimal ⟨0, 0, 0, 0⟩) := by decide
  norm_num [parseFloatStr, h, Literal.toNum, Decimal.value]

theorem parseFloatStr_zero_percent : parseFloatStr "0%" = JsNum.fin 0 := by
  have h : scanFloat "0%" = (false, Literal.decimal ⟨0, 0, 0, 0⟩) := by decide
  norm_num [parseFloatStr, h, Literal.toNum, Decimal.value]

theorem parse_absolute (s : String) (v max : ℚ) (hs : includesPercent s = false)
    (hp : parseFloatStr s = JsNum.fin v) :
    parse (JsVal.str s) max = if v ≠ 0 then JsNum.fin v else JsNum.fin (max / 2) := by
  by_cases hv : v = 0
  · simp [parse, hs, hp, JsNum.truthy, hv]
  · simp [parse, hs, hp, JsNum.truthy, hv]

theorem parse_truthy_or_half (val : JsVal) (max : ℚ)
    (hval : ∀ s, val = JsVal.str s → includesPercent s = false) :
    parse val max = if (parseFloat val).truthy then parseFloat val else JsNum.fin (max / 2) := by
  cases val with
  | str s => simp [parse, hval s rfl, parseFloat]
  | undefined => rfl
  | null => rfl
  | bool b => rfl
  | num n => rfl
  | obj => rfl

theorem mul_one_num (v : JsNum) : v.mul (JsNum.fin 1) = v := by
  cases v with
  | nan => rfl
  | posInf => simp [JsNum.mul, JsNum.isZero, JsNum.isNegative]
  | negInf => simp [JsNum.mul, JsNum.isZero, JsNum.isNegative]
  | fin a => simp [JsNum.mul]

theorem particle_update_fields (M : JsMath) (p : Particle) (hw : p.type ≠ JsVal.str "wave") :
    p.update M
      = { p with
          x := p.x.add p.vx, y := p.y.add p.vy, vx := p.vx.mul p.drag,
          vy := (p.vy.mul p.drag).add p.gravity, size := p.size.add p.growth,
          life := p.life.sub (JsNum.fin 1), flipVal := p.flipVal.add p.flipSpeed } := by
  unfold Particle.update
  simp only
  rw [if_neg hw]

theorem parseFloatStr_hundred_percent : parseFloatStr "100%" = JsNum.fin 100 := by
  have h : scanFloat "100%" = (false, Literal.decimal ⟨100, 0, 0, 0⟩) := by decide
  norm_num [parseFloatStr, h, Literal.toNum, Decimal.value]

theorem parseFloatStr_hundred_ten_percent : parseFloatStr "110%" = JsNum.fin 110 := by
  have h : scanFloat "110%" = (false, Literal.decimal ⟨110, 0, 0, 0⟩) := by decide
  norm_num [parseFloatStr, h, Literal.toNum, Decimal.value]

theorem appliedScale_percent (E : ArcaneFX) (s : String) (P t : ℚ)
    (hpx : endsWith s "px" = false) (hpc : endsWith s "%" = true)
    (hp : parseFloatStr s = JsNum.fin P) :
    HTMLAnimation.appliedScale E (JsVal.str s) (JsNum.fin t)
      = some (JsNum.fin (1 + (P / 100 * E.viewport.width / 100 - 1) * t),
          JsNum.fin (1 + (P / 100 * E.viewport.width / 100 - 1) * t)) := by
  simp [HTMLAnimation.appliedScale, HTMLAnimation.scaleTarget, ArcaneFX.toPixels, hpx, hpc, hp,
    HTMLAnimation.newScale, parseFloat, JsNum.div, JsNum.mul, JsNum.sub, JsNum.neg, JsNum.add,
    sub_eq_add_neg]

theorem generator_counts (M : JsMath) (rnd : ℕ → ℚ) (fx : EffectInstance) :
    ((fire_engulf rnd fx).particles.length = fx.particles.length + 0) ∧
    ((fire_burst M rnd fx).particles.length = fx.particles.length + 40) ∧
    ((fire_spiral M fx).particles.length = fx.particles.length + 0) ∧
    ((water_bubble rnd fx).particles.length = fx.particles.length + 0) ∧
    ((water_splash rnd fx).particles.length = fx.particles.length + 25) ∧
    ((water_vortex M rnd fx).particles.length = fx.particles.length + 30) ∧
    ((wind_gust rnd fx).particles.length = fx.particles.length + 0) ∧
    ((wind_swirl rnd fx).particles.length = fx.particles.length + 0) ∧
    ((wind_cutter rnd fx).particles.length = fx.particles.length + 11) ∧
    ((earth_crumble rnd fx).particles.length = fx.particles.length + 0) ∧
    ((earth_spike rnd fx).particles.length = fx.particles.length + 5) ∧
    ((earth_shield fx).particles.length = fx.particles.length + 0) ∧
    ((anime_cut fx).particles.length = fx.particles.length + 1) ∧
    ((hit_impact M rnd fx).particles.length = fx.particles.length + 16) ∧
    ((flash_step rnd fx).particles.length = fx.particles.length + 10) ∧
    ((impact_flash_white M rnd fx).particles.length = fx.particles.length + 51) := by
  refine ⟨?_, ?_, ?_, ?_, ?_, ?_, ?_, ?_, ?_, ?_, ?_, ?_, ?_, ?_, ?_, ?_⟩
  · rfl
  · unfold fire_burst
    rw [(foldl_spawn _ _ _).1]
    simp [EffectInstance.flash, EffectInstance.addCSS]
  · rfl
  · rfl
  · unfold water_splash
    rw [(foldl_spawn _ _ _).1]
    simp [EffectInstance.flash, EffectInstance.addCSS]
  · unfold water_vortex
    rw [(foldl_spawn _ _ _).1]
    simp [EffectInstance.flash, EffectInstance.addCSS]
  · rfl
  · rfl
  · unfold wind_cutter
    rw [(foldl_spawn _ _ _).1, (spawn_length _ _).1]
    simp
  · rfl
  · unfold earth_spike
    simp only [EffectInstance.addCSS]
    rw [(foldl_spawn _ _ _).1]
    simp
  · rfl
  · simp [anime_cut, EffectInstance.flash, EffectInstance.spawn]
  · unfold hit_impact
    rw [(spawn_length _ _).1, (foldl_spawn _ _ _).1]
    simp [EffectInstance.addCSS]
  · unfold flash_step
    rw [(foldl_spawn _ _ _).1]
    simp [EffectInstance.flash, EffectInstance.addCSS]
  · unfold impact_flash_white
    rw [(spawn_length _ _).1, (foldl_spawn _ _ _).1]
    simp [EffectInstance.addCSS]

theorem registered_spawnCalls (M : JsMath) (rnd : ℕ → ℚ) (fx : EffectInstance) (name : String)
    (g : Generator) (hg : (name, g) ∈ registerEffects M rnd) :
    (g fx).particles.length = fx.particles.length + spawnCalls name := by
  have hc := generator_counts M rnd fx
  simp only [registerEffects, List.mem_cons, List.mem_singleton, List.not_mem_nil, or_false,
    Prod.mk.injEq] at hg
  rcases hg with ⟨rfl, rfl⟩ | ⟨rfl, rfl⟩ | ⟨rfl, rfl⟩ | ⟨rfl, rfl⟩ | ⟨rfl, rfl⟩ | ⟨rfl, rfl⟩ | ⟨rfl, rfl⟩ | ⟨rfl, rfl⟩ | ⟨rfl, rfl⟩ | ⟨rfl, rfl⟩ | ⟨rfl, rfl⟩ | ⟨rfl, rfl⟩ | ⟨rfl, rfl⟩ | ⟨rfl, rfl⟩ | ⟨rfl, rfl⟩ | ⟨rfl, rfl⟩
  · exact hc.1
  · exact hc.2.1
  · exact hc.2.2.1
  · exact hc.2.2.2.1
  · exact hc.2.2.2.2.1
  · exact hc.2.2.2.2.2.1
  · exact hc.2.2.2.2.2.2.1
  · exact hc.2.2.2.2.2.2.2.1
  · exact hc.2.2.2.2.2.2.2.2.1
  · exact hc.2.2.2.2.2.2.2.2.2.1
  · exact hc.2.2.2.2.2.2.2.2.2.2.1
  · exact hc.2.2.2.2.2.2.2.2.2.2.2.1
  · exact hc.2.2.2.2.2.2.2.2.2.2.2.2.1
  · exact hc.2.2.2.2.2.2.2.2.2.2.2.2.2.1
  · exact hc.2.2.2.2.2.2.2.2.2.2.2.2.2.2.1
  · exact hc.2.2.2.2.2.2.2.2.2.2.2.2.2.2.2

theorem lt_loopCount (length : ℚ) (j : ℕ) : j < loopCount length ↔ (j : ℚ) < length :=
  Nat.lt_ceil

theorem loopCount_bounds (r : ℚ) (h0 : 0 ≤ r) (h1 : r < 1) :
    3 ≤ loopCount (3 + r * 3) ∧ loopCount (3 + r * 3) ≤ 6 := by
  constructor
  · have : 2 < loopCount (3 + r * 3) := (lt_loopCount _ 2).mpr (by push_cast; linarith)
    omega
  · exact Nat.ceil_le.mpr (by push_cast; linarith)

theorem lightningBranch_length (M : JsMath) (rnd : ℕ → ℚ) (x y : ℚ) (k : ℕ) :
    (lightningBranch M rnd x y k).1.length = loopCount (3 + rnd (k + 2) * 3) := by
  simp [lightningBranch]

theorem lightningBranches_bounds (M : JsMath) (rnd : ℕ → ℚ) (x y : ℚ)
    (hr : ∀ i, 0 ≤ rnd i ∧ rnd i < 1) (b : ℕ) :
    ∀ k, 3 * b ≤ (lightningBranches M rnd x y b k).1.length ∧
      (lightningBranches M rnd x y b k).1.length ≤ 6 * b := by
  induction b with
  | zero => intro k; simp [lightningBranches]
  | succ b ih =>
    intro k
    obtain ⟨h1, h2⟩ := ih (lightningBranch M rnd x y k).2
    obtain ⟨h3, h4⟩ := loopCount_bounds (rnd (k + 2)) (hr _).1 (hr _).2
    simp only [lightningBranches, List.length_append, lightningBranch_length]
    omega

theorem lightningBranches_const (M : JsMath) (c : ℚ) (x y : ℚ) (b : ℕ) :
    ∀ k, (lightningBranches M (fun _ => c) x y b k).1.length = b * loopCount (3 + c * 3) := by
  induction b with
  | zero => intro k; simp [lightningBranches]
  | succ b ih =>
    intro k
    simp only [lightningBranches, List.length_append, lightningBranch_length, ih]
    ring

theorem generateLightningFork_length (M : JsMath) (rnd : ℕ → ℚ) (x y : ℚ)
    (particles : List Particle) :
    (generateLightningFork M rnd x y particles).length
      = particles.length + 18 + (lightningBranches M rnd x y 3 16).1.length := by
  simp only [generateLightningFork, List.length_append, List.length_map, List.length_range]
  omega

/-! ## Spawning and updating particles -/

/-- C11: `spawn(p)` appends exactly one particle at the end of the collection
and changes nothing else; the particle's position is the instance origin plus
the offset `p.x || 0`, `p.y || 0` (the offset itself when it is a number
other than `NaN`), its `life` and `maxLife` are both `p.life`, and missing fields take
the defaults `vx = vy = 0`, `gravity = 0`, `growth = 0`, type `'circle'`,
size 5 (and `shrink = false`, `length = 10`, `lineWidth = 1`). -/
theorem spawn_appends_one (fx : EffectInstance) (p : ParticleSpec) :
    (fx.spawn p).particles = fx.particles ++ [EffectInstance.spawned fx.x fx.y p] ∧
      (fx.spawn p).particles.length = fx.particles.length + 1 ∧
      (fx.spawn p).particles.take fx.particles.length = fx.particles ∧
      fx.spawn p = { fx with particles := (fx.spawn p).particles } ∧
      (EffectInstance.spawned fx.x fx.y p).life = p.life ∧
      (EffectInstance.spawned fx.x fx.y p).maxLife = p.life ∧
      (EffectInstance.spawned fx.x fx.y p).x = fx.x.add (p.x.orElse (JsNum.fin 0)) ∧
      (EffectInstance.spawned fx.x fx.y p).y = fx.y.add (p.y.orElse (JsNum.fin 0)) ∧
      (∀ a : JsNum, p.x = some a → a ≠ JsNum.nan →
        (EffectInstance.spawned fx.x fx.y p).x = fx.x.add a) ∧
      (∀ b : JsNum, p.y = some b → b ≠ JsNum.nan →
        (EffectInstance.spawned fx.x fx.y p).y = fx.y.add b) ∧
      (p.vx = none → (EffectInstance.spawned fx.x fx.y p).vx = JsNum.fin 0) ∧
      (p.vy = none → (EffectInstance.spawned fx.x fx.y p).vy = JsNum.fin 0) ∧
      (p.gravity = none → (EffectInstance.spawned fx.x fx.y p).gravity = JsNum.fin 0) ∧
      (p.growth = none → (EffectInstance.spawned fx.x fx.y p).growth = JsNum.fin 0) ∧
      (p.type = JsVal.undefined →
        (EffectInstance.spawned fx.x fx.y p).type = JsVal.str "circle") ∧
      (p.size = none → (EffectInstance.spawned fx.x fx.y p).size = JsNum.fin 5) ∧
      (p.shrink = JsVal.undefined →
        (EffectInstance.spawned fx.x fx.y p).shrink = JsVal.bool false) ∧
      (p.length = none → (EffectInstance.spawned fx.x fx.y p).length = JsNum.fin 10) ∧
      (p.lineWidth = none → (EffectInstance.spawned fx.x fx.y p).lineWidth = JsNum.fin 1) := by
  refine ⟨rfl, by simp [EffectInstance.spawn], by simp [EffectInstance.spawn], rfl, rfl, rfl,
    rfl, rfl, ?_, ?_, ?_, ?_, ?_, ?_, ?_, ?_, ?_, ?_, ?_⟩
  · intro a ha hn
    simp only [EffectInstance.spawned, ha, optNum_orElse_zero a hn]
  · intro b hb hn
    simp only [EffectInstance.spawned, hb, optNum_orElse_zero b hn]
  all_goals
    intro h
    simp [EffectInstance.spawned, h, OptNum.orElse, JsVal.orElse, JsVal.truthy]

/-- C12 (counterexample): on a fresh global instance, a description that
gives the life -1 and a description that gives no life each yield a particle
that is not live, and the next `update()` drops it. -/
theorem spawn_not_live_counterexample :
    (EffectInstance.isLive (EffectInstance.spawned (JsNum.fin 400) (JsNum.fin 300) expiredSpec)
        = false ∧
      (sampleInstance.spawn expiredSpec).particles.length = 1 ∧
      (sampleInstance.spawn expiredSpec).update.fx.particles = []) ∧
    (EffectInstance.isLive (EffectInstance.spawned (JsNum.fin 400) (JsNum.fin 300) lifelessSpec)
        = false ∧
      (sampleInstance.spawn lifelessSpec).particles.length = 1 ∧
      (sampleInstance.spawn lifelessSpec).update.fx.particles = []) := by
  have h1 : EffectInstance.isLive
      (EffectInstance.spawned (JsNum.fin 400) (JsNum.fin 300) expiredSpec) = false := by
    simp [EffectInstance.isLive, EffectInstance.spawned, expiredSpec, OptNum.of, OptNum.gtZero,
      JsNum.gtZero]
  have h2 : EffectInstance.isLive
      (EffectInstance.spawned (JsNum.fin 400) (JsNum.fin 300) lifelessSpec) = false := rfl
  refine ⟨⟨h1, rfl, ?_⟩, ⟨h2, rfl, ?_⟩⟩
  · rw [updated_particles, emitted_spawn, sampleInstance_emitted]
    show (List.filter EffectInstance.isLive
      [EffectInstance.spawned (JsNum.fin 400) (JsNum.fin 300) expiredSpec]).map _ = []
    simp [h1]
  · rw [updated_particles, emitted_spawn, sampleInstance_emitted]
    show (List.filter EffectInstance.isLive
      [EffectInstance.spawned (JsNum.fin 400) (JsNum.fin 300) lifelessSpec]).map _ = []
    simp [h2]

/-- C12 (amended): for every instance and every description whose `life` is
a number, `spawn` appends one particle with that life.  The particle is live
exactly when the life is greater than 0; then, advanced by one tick, it is
still in the collection after the next `update()`, which returns `true`.
When the life is not greater than 0 the next `update()` drops the particle:
the collection is what it would be without the `spawn` call. -/
theorem spawn_live_iff_positive_life (fx : EffectInstance) (p : ParticleSpec) (v : JsNum)
    (hv : p.life = some v) :
    (fx.spawn p).particles = fx.particles ++ [EffectInstance.spawned fx.x fx.y p] ∧
      (EffectInstance.spawned fx.x fx.y p).life = some v ∧
      (EffectInstance.isLive (EffectInstance.spawned fx.x fx.y p) = true ↔ v.gtZero = true) ∧
      (v.gtZero = true →
        EffectInstance.advance (EffectInstance.spawned fx.x fx.y p)
          ∈ (fx.spawn p).update.fx.particles ∧
        (fx.spawn p).update.active = true) ∧
      (v.gtZero = false → (fx.spawn p).update.fx.particles = fx.update.fx.particles) := by
  have hlife : (EffectInstance.spawned fx.x fx.y p).life = some v := hv
  have hlive : EffectInstance.isLive (EffectInstance.spawned fx.x fx.y p) = v.gtZero := by
    unfold EffectInstance.isLive
    rw [hlife]
    rfl
  have hparts : (fx.spawn p).particles = fx.particles ++ [EffectInstance.spawned fx.x fx.y p] :=
    rfl
  refine ⟨hparts, hlife, by rw [hlive], ?_, ?_⟩
  · intro hpos
    have hmem : EffectInstance.advance (EffectInstance.spawned fx.x fx.y p)
        ∈ (fx.spawn p).update.fx.particles := by
      rw [updated_particles, hparts]
      refine List.mem_map.mpr ⟨EffectInstance.spawned fx.x fx.y p, ?_, rfl⟩
      refine List.mem_filter.mpr ⟨?_, by rw [hlive]; exact hpos⟩
      simp
    exact ⟨hmem, (update_active_iff _).2.mpr (List.ne_nil_of_mem hmem)⟩
  · intro hneg
    rw [updated_particles, updated_particles, emitted_spawn, hparts]
    simp [List.filter_append, List.filter_cons, hlive, hneg]

theorem spawn_live_iff_positive_life_witness :
    liveSpec.life = some (JsNum.fin 30) ∧
      EffectInstance.advance (EffectInstance.spawned sampleInstance.x sampleInstance.y liveSpec)
        ∈ (sampleInstance.spawn liveSpec).update.fx.particles :=
  ⟨rfl,
    ((spawn_live_iff_positive_life sampleInstance liveSpec (JsNum.fin 30) rfl).2.2.2.1
      (by simp [JsNum.gtZero])).1⟩

/-- C13: for every global instance, `update()` returns `false` exactly when
the particle collection is empty after the update, and `true` exactly when it
is not; the collection after the update consists of the particles present
before and those the emitter added, without the ones that were not live, each
advanced by one tick. -/
theorem update_global_active_iff (fx : EffectInstance) (hg : fx.isLocal = false) :
    (fx.update.active = false ↔ fx.update.fx.particles = []) ∧
      (fx.update.active = true ↔ fx.update.fx.particles ≠ []) ∧
      fx.update.fx.isLocal = false ∧
      fx.update.fx.particles
        = ((fx.particles ++ fx.emitted).filter EffectInstance.isLive).map
            EffectInstance.advance := by
  refine ⟨(update_active_iff fx).1, (update_active_iff fx).2, ?_, ?_⟩
  · show fx.updated.isLocal = false
    rw [updated_eq]; exact hg
  · show fx.updated.particles = _
    rw [updated_eq]

theorem update_global_active_iff_witness :
    sampleInstance.isLocal = false ∧
      (sampleInstance.update.active = false ↔ sampleInstance.update.fx.particles = []) :=
  ⟨rfl, (update_global_active_iff sampleInstance rfl).1⟩

/-- C14 (failing input): a local spawn of `earth_shield` yields a fresh local
instance.  Such an instance has no particle and is within its grace window (its life counter is 99 after the first update, far above
-100), yet its first `update()` returns `false`, and the local loop removes
its container at once instead of scheduling another frame.  More generally,
`update()` of any instance returns `false` whenever no particle is left. -/
theorem local_grace_window_ignored (M : JsMath) (id : String) (w h : ℚ) (opts : JsVal) :
    ((ArcaneFX.new sampleMath sampleRandom 1 800 600)._spawnLocal "a" (JsVal.str "earth_shield")
        sampleElement JsVal.obj).returned
      = some (EffectInstance.new "a" 200 100 true (JsNum.fin 0) (JsNum.fin 0) JsVal.obj) ∧
      (EffectInstance.new id w h true (JsNum.fin 0) (JsNum.fin 0) opts).isLocal = true ∧
      (EffectInstance.new id w h true (JsNum.fin 0) (JsNum.fin 0) opts).update.fx.life = 99 ∧
      (EffectInstance.new id w h true (JsNum.fin 0) (JsNum.fin 0) opts).update.fx.particles = [] ∧
      (EffectInstance.new id w h true (JsNum.fin 0) (JsNum.fin 0) opts).update.active = false ∧
      ((EffectInstance.new id w h true (JsNum.fin 0) (JsNum.fin 0) opts).loop M).rescheduled
        = false ∧
      ((EffectInstance.new id w h true (JsNum.fin 0) (JsNum.fin 0) opts).loop M).containerRemoved
        = true ∧
      (∀ fx : EffectInstance, fx.update.fx.particles = [] → fx.update.active = false) := by
  have hu : (EffectInstance.new id w h true (JsNum.fin 0) (JsNum.fin 0) opts).updated
      = { EffectInstance.new id w h true (JsNum.fin 0) (JsNum.fin 0) opts with life := 99 } := by
    rw [updated_eq]
    simp [EffectInstance.new, EffectInstance.emitted]
  have hp : (EffectInstance.new id w h true (JsNum.fin 0) (JsNum.fin 0) opts).update.fx.particles
      = [] := by
    show (EffectInstance.new id w h true (JsNum.fin 0) (JsNum.fin 0) opts).updated.particles = []
    rw [hu]; rfl
  have ha := (update_active_iff
    (EffectInstance.new id w h true (JsNum.fin 0) (JsNum.fin 0) opts)).1.mpr hp
  have hs : ((ArcaneFX.new sampleMath sampleRandom 1 800 600)._spawnLocal "a"
      (JsVal.str "earth_shield") sampleElement JsVal.obj).returned
      = some (EffectInstance.new "a" 200 100 true (JsNum.fin 0) (JsNum.fin 0) JsVal.obj) := by
    rw [spawnLocal_registered _ "a" _ sampleElement _ earth_shield
      (registry_lookup sampleMath sampleRandom).2.2.2.2.2.2.2.2.2.2.2.1]
    rfl
  refine ⟨hs, rfl, ?_, hp, ha, ?_, ?_, fun fx hfx => (update_active_iff fx).1.mpr hfx⟩
  · show (EffectInstance.new id w h true (JsNum.fin 0) (JsNum.fin 0) opts).updated.life = 99
    rw [hu]
  · simp [EffectInstance.loop, ha]
  · simp only [EffectInstance.loop, ha]
    show (EffectInstance.new id w h true (JsNum.fin 0) (JsNum.fin 0) opts).updated.isLocal = true
    rw [hu]; rfl

/-- C15: each `update()` decrements the instance life counter by exactly 1.
When an emitter is present and the counter is positive after the decrement,
the emitter is invoked exactly once (its invocation count grows by one) and
the particles it spawns join the collection before the dead particles are
dropped and the others advanced in the same call; otherwise the emitter is
not invoked and only the particles already present are processed. -/
theorem update_life_and_emitter (fx : EffectInstance) :
    fx.update.fx.life = fx.life - 1 ∧
      (∀ e : Emitter, fx.emitter = some e → 0 < fx.life - 1 →
        fx.update.fx.emitter = some { e with calls := e.calls + 1 } ∧
        fx.update.fx.particles
          = ((fx.particles ++ (e.emit e.calls).map (EffectInstance.spawned fx.x fx.y)).filter
              EffectInstance.isLive).map EffectInstance.advance) ∧
      (∀ e : Emitter, fx.emitter = some e → ¬ 0 < fx.life - 1 →
        fx.update.fx.emitter = some e ∧
        fx.update.fx.particles
          = (fx.particles.filter EffectInstance.isLive).map EffectInstance.advance) ∧
      (fx.emitter = none →
        fx.update.fx.emitter = none ∧
        fx.update.fx.particles
          = (fx.particles.filter EffectInstance.isLive).map EffectInstance.advance) := by
  have hu : fx.update.fx = fx.updated := rfl
  rw [hu, updated_eq]
  refine ⟨rfl, ?_, ?_, ?_⟩
  · intro e he hl
    simp [he, hl, EffectInstance.emitted]
  · intro e he hl
    simp [he, hl, EffectInstance.emitted]
  · intro he
    simp [he, EffectInstance.emitted]

/-- C16 (failing input): a particle with life 1 passes the filter of
`update()`, is decremented to life 0 and stays in the collection; `update()`
returns `true`, and `render` issues the draw calls of a circle for it, with
alpha 0.  In the engine loop the instance that holds it is rendered in that
frame. -/
theorem zero_life_particle_rendered (M : JsMath) :
    (sampleInstance.spawn lastTickSpec).update.active = true ∧
      (sampleInstance.spawn lastTickSpec).update.fx.particles.map (fun p => p.life)
        = [some (JsNum.fin 0)] ∧
      (sampleInstance.spawn lastTickSpec).update.fx.render M
        = [CanvasOp.setFillStyle (JsVal.str "#fff"), CanvasOp.setStrokeStyle (JsVal.str "#fff"),
            CanvasOp.setGlobalAlpha (JsNum.fin 0), CanvasOp.beginPath,
            CanvasOp.arc (JsNum.fin 400) (JsNum.fin 300) (JsNum.fin 5) (JsNum.fin 0)
              (JsNum.fin 6.28),
            CanvasOp.fill] ∧
      (ArcaneFX.animate M
        { sampleEngine with
          activeGlobalEffects := [("a", sampleInstance.spawn lastTickSpec)] }).rendered
        = ["a"] := by
  have ha : (sampleInstance.spawn lastTickSpec).update.active = true :=
    (update_active_iff _).2.mpr (by rw [lastTick_update_particles]; simp)
  refine ⟨ha, ?_, ?_, ?_⟩
  · rw [lastTick_update_particles]; rfl
  · unfold EffectInstance.render
    rw [lastTick_update_particles]
    simp [EffectInstance.renderParticle, OptNum.toNum, JsNum.div, JsNum.maxZero]
  · simp [ArcaneFX.animate, ArcaneFX.animateEntry, ha]

/-! ## The registry and the frame loop -/

/-- C17 (counterexample): on an engine with the registry of `registerEffects`,
spawning `earth_shield` globally returns an instance with no particle and no
emitter, and spawning `fire_engulf` returns an instance with an emitter and
no particle. -/
theorem earth_shield_spawn_empty_counterexample :
    (mapGet (ArcaneFX.new sampleMath sampleRandom 1 800 600).effects
        (JsVal.str "earth_shield")).isSome = true ∧
      (((ArcaneFX.new sampleMath sampleRandom 1 800 600)._spawnGlobal "a"
          (JsVal.str "earth_shield") (JsVal.str "50%") (JsVal.str "50%") JsVal.obj).returned.map
        (fun fx => (fx.particles.length, fx.emitter.isSome))) = some (0, false) ∧
      (((ArcaneFX.new sampleMath sampleRandom 1 800 600)._spawnGlobal "a"
          (JsVal.str "fire_engulf") (JsVal.str "50%") (JsVal.str "50%") JsVal.obj).returned.map
        (fun fx => (fx.particles.length, fx.emitter.isSome))) = some (0, true) := by
  refine ⟨?_, ?_, ?_⟩
  · rw [show (ArcaneFX.new sampleMath sampleRandom 1 800 600).effects
        = registerEffects sampleMath sampleRandom from rfl,
      (registry_lookup sampleMath sampleRandom).2.2.2.2.2.2.2.2.2.2.2.1]
    rfl
  · rw [(spawnGlobal_registered _ "a" _ _ _ _ earth_shield
      (registry_lookup sampleMath sampleRandom).2.2.2.2.2.2.2.2.2.2.2.1).1]
    rfl
  · rw [(spawnGlobal_registered _ "a" _ _ _ _ (fire_engulf sampleRandom)
      (registry_lookup sampleMath sampleRandom).1).1]
    rfl

/-- C17 (amended): on an engine with the registry of `registerEffects`, a
global spawn of a registered effect returns an instance.  For `earth_shield`
it has no particle and no emitter; for the six emitter effects it has an
emitter and no particle yet; for the nine other effects it has no emitter and
as many particles as the generator makes `spawn` calls, at least one.  So
every registered effect other than `earth_shield` yields at least one
particle or an emitter. -/
theorem registered_effect_particles_or_emitter (M : JsMath) (rnd : ℕ → ℚ) (E : ArcaneFX)
    (hE : E.effects = registerEffects M rnd) (id : String) (x y opts : JsVal) (name : String)
    (hname : name ∈ (registerEffects M rnd).map Prod.fst) :
    ∃ inst : EffectInstance,
      (E._spawnGlobal id (JsVal.str name) x y opts).returned = some inst ∧
        ((name = "earth_shield" ∨ name ∈ emitterEffects ∨ name ∈ burstEffects.map Prod.fst) ∧
          (name = "earth_shield" → inst.particles = [] ∧ inst.emitter = none) ∧
          (name ∈ emitterEffects → inst.particles = [] ∧ inst.emitter.isSome = true) ∧
          (∀ n : ℕ, (name, n) ∈ burstEffects →
            inst.particles.length = n ∧ 0 < n ∧ inst.emitter = none) ∧
          (name ≠ "earth_shield" → 0 < inst.particles.length ∨ inst.emitter.isSome = true)) := by
  simp only [registerEffects, List.map_cons, List.map_nil, List.mem_cons, List.mem_singleton,
    List.not_mem_nil, or_false] at hname
  rcases hname with rfl | rfl | rfl | rfl | rfl | rfl | rfl | rfl | rfl | rfl | rfl | rfl | rfl |
    rfl | rfl | rfl
  · exact spawn_summary E id _ x y opts _ (by rw [hE]; exact (registry_lookup M rnd).1) _
      (fun fx hp he => by
        have hb := burst_generators M rnd fx hp he
        have hem := emitter_generators M rnd fx hp
        simp [emitterEffects, burstEffects, hb, hem, earth_shield, EffectInstance.addCSS, hp, he])
  · exact spawn_summary E id _ x y opts _ (by rw [hE]; exact (registry_lookup M rnd).2.1) _
      (fun fx hp he => by
        have hb := burst_generators M rnd fx hp he
        have hem := emitter_generators M rnd fx hp
        simp [emitterEffects, burstEffects, hb, hem, earth_shield, EffectInstance.addCSS, hp, he])
  · exact spawn_summary E id _ x y opts _ (by rw [hE]; exact (registry_lookup M rnd).2.2.1) _
      (fun fx hp he => by
        have hb := burst_generators M rnd fx hp he
        have hem := emitter_generators M rnd fx hp
        simp [emitterEffects, burstEffects, hb, hem, earth_shield, EffectInstance.addCSS, hp, he])
  · exact spawn_summary E id _ x y opts _ (by rw [hE]; exact (registry_lookup M rnd).2.2.2.1) _
      (fun fx hp he => by
        have hb := burst_generators M rnd fx hp he
        have hem := emitter_generators M rnd fx hp
        simp [emitterEffects, burstEffects, hb, hem, earth_shield, EffectInstance.addCSS, hp, he])
  · exact spawn_summary E id _ x y opts _ (by rw [hE]; exact (registry_lookup M rnd).2.2.2.2.1) _
      (fun fx hp he => by
        have hb := burst_generators M rnd fx hp he
        have hem := emitter_generators M rnd fx hp
        simp [emitterEffects, burstEffects, hb, hem, earth_shield, EffectInstance.addCSS, hp, he])
  · exact spawn_summary E id _ x y opts _ (by rw [hE]; exact (registry_lookup M rnd).2.2.2.2.2.1) _
      (fun fx hp he => by
        have hb := burst_generators M rnd fx hp he
        have hem := emitter_generators M rnd fx hp
        simp [emitterEffects, burstEffects, hb, hem, earth_shield, EffectInstance.addCSS, hp, he])
  · exact spawn_summary E id _ x y opts _ (by rw [hE]; exact (registry_lookup M rnd).2.2.2.2.2.2.1) _
      (fun fx hp he => by
        have hb := burst_generators M rnd fx hp he
        have hem := emitter_generators M rnd fx hp
        simp [emitterEffects, burstEffects, hb, hem, earth_shield, EffectInstance.addCSS, hp, he])
  · exact spawn_summary E id _ x y opts _ (by rw [hE]; exact (registry_lookup M rnd).2.2.2.2.2.2.2.1) _
      (fun fx hp he => by
        have hb := burst_generators M rnd fx hp he
        have hem := emitter_generators M rnd fx hp
        simp [emitterEffects, burstEffects, hb, hem, earth_shield, EffectInstance.addCSS, hp, he])
  · exact spawn_summary E id _ x y opts _ (by rw [hE]; exact (registry_lookup M rnd).2.2.2.2.2.2.2.2.1) _
      (fun fx hp he => by
        have hb := burst_generators M rnd fx hp he
        have hem := emitter_generators M rnd fx hp
        simp [emitterEffects, burstEffects, hb, hem, earth_shield, EffectInstance.addCSS, hp, he])
  · exact spawn_summary E id _ x y opts _ (by rw [hE]; exact (registry_lookup M rnd).2.2.2.2.2.2.2.2.2.1) _
      (fun fx hp he => by
        have hb := burst_generators M rnd fx hp he
        have hem := emitter_generators M rnd fx hp
        simp [emitterEffects, burstEffects, hb, hem, earth_shield, EffectInstance.addCSS, hp, he])
  · exact spawn_summary E id _ x y opts _ (by rw [hE]; exact (registry_lookup M rnd).2.2.2.2.2.2.2.2.2.2.1) _
      (fun fx hp he => by
        have hb := burst_generators M rnd fx hp he
        have hem := emitter_generators M rnd fx hp
        simp [emitterEffects, burstEffects, hb, hem, earth_shield, EffectInstance.addCSS, hp, he])
  · exact spawn_summary E id _ x y opts _ (by rw [hE]; exact (registry_lookup M rnd).2.2.2.2.2.2.2.2.2.2.2.1) _
      (fun fx hp he => by
        have hb := burst_generators M rnd fx hp he
        have hem := emitter_generators M rnd fx hp
        simp [emitterEffects, burstEffects, hb, hem, earth_shield, EffectInstance.addCSS, hp, he])
  · exact spawn_summary E id _ x y opts _ (by rw [hE]; exact (registry_lookup M rnd).2.2.2.2.2.2.2.2.2.2.2.2.1) _
      (fun fx hp he => by
        have hb := burst_generators M rnd fx hp he
        have hem := emitter_generators M rnd fx hp
        simp [emitterEffects, burstEffects, hb, hem, earth_shield, EffectInstance.addCSS, hp, he])
  · exact spawn_summary E id _ x y opts _ (by rw [hE]; exact (registry_lookup M rnd).2.2.2.2.2.2.2.2.2.2.2.2.2.1) _
      (fun fx hp he => by
        have hb := burst_generators M rnd fx hp he
        have hem := emitter_generators M rnd fx hp
        simp [emitterEffects, burstEffects, hb, hem, earth_shield, EffectInstance.addCSS, hp, he])
  · exact spawn_summary E id _ x y opts _ (by rw [hE]; exact (registry_lookup M rnd).2.2.2.2.2.2.2.2.2.2.2.2.2.2.1) _
      (fun fx hp he => by
        have hb := burst_generators M rnd fx hp he
        have hem := emitter_generators M rnd fx hp
        simp [emitterEffects, burstEffects, hb, hem, earth_shield, EffectInstance.addCSS, hp, he])
  · exact spawn_summary E id _ x y opts _ (by rw [hE]; exact (registry_lookup M rnd).2.2.2.2.2.2.2.2.2.2.2.2.2.2.2) _
      (fun fx hp he => by
        have hb := burst_generators M rnd fx hp he
        have hem := emitter_generators M rnd fx hp
        simp [emitterEffects, burstEffects, hb, hem, earth_shield, EffectInstance.addCSS, hp, he])

theorem registered_effect_particles_or_emitter_witness :
    (ArcaneFX.new sampleMath sampleRandom 1 800 600).effects
        = registerEffects sampleMath sampleRandom ∧
      "anime_cut" ∈ (registerEffects sampleMath sampleRandom).map Prod.fst ∧
      ∃ inst : EffectInstance,
        ((ArcaneFX.new sampleMath sampleRandom 1 800 600)._spawnGlobal "a"
            (JsVal.str "anime_cut") (JsVal.str "50%") (JsVal.str "50%") JsVal.obj).returned
          = some inst ∧
        (∀ n : ℕ, ("anime_cut", n) ∈ burstEffects →
          inst.particles.length = n ∧ 0 < n ∧ inst.emitter = none) := by
  have hn : "anime_cut" ∈ (registerEffects sampleMath sampleRandom).map Prod.fst := by
    simp [registerEffects]
  obtain ⟨inst, h1, h2⟩ := registered_effect_particles_or_emitter sampleMath sampleRandom
    (ArcaneFX.new sampleMath sampleRandom 1 800 600) rfl "a" (JsVal.str "50%") (JsVal.str "50%")
    JsVal.obj "anime_cut" hn
  exact ⟨rfl, hn, inst, h1, h2.2.2.2.1⟩

/-- C18: when the keys of `activeGlobalEffects` are distinct (as in every
`Map`), one pass of the frame loop calls `update()` once on every registered
instance, in map order; it calls `render` on exactly those whose `update()`
returned `true`; afterwards the map holds exactly those instances, each in
its updated state and under its key, with distinct keys; and an instance
whose `update()` returned `false` is no longer in the map and is not ticked
in any later pass. -/
theorem frame_pass_ticks_once (M : JsMath) (E : ArcaneFX)
    (hnd : (E.activeGlobalEffects.map Prod.fst).Nodup) :
    (E.animate M).ticked = E.activeGlobalEffects.map Prod.fst ∧
      (∀ k ∈ E.activeGlobalEffects.map Prod.fst, (E.animate M).ticked.count k = 1) ∧
      (E.animate M).rendered
        = (E.activeGlobalEffects.filter (fun e => e.2.update.active)).map Prod.fst ∧
      (E.animate M).engine.activeGlobalEffects
        = (E.activeGlobalEffects.filter (fun e => e.2.update.active)).map
            (fun e => (e.1, e.2.update.fx)) ∧
      ((E.animate M).engine.activeGlobalEffects.map Prod.fst).Nodup ∧
      (∀ e ∈ E.activeGlobalEffects, e.2.update.active = false →
        e.1 ∉ (E.animate M).rendered ∧
        e.1 ∉ (E.animate M).engine.activeGlobalEffects.map Prod.fst ∧
        ∀ n : ℕ, e.1 ∉ (ArcaneFX.animate M (ArcaneFX.frames M n (E.animate M).engine)).ticked) := by
  obtain ⟨h1, h2, h3⟩ := animate_eq M E hnd
  obtain ⟨h4, _⟩ := animate_keys M E hnd
  have hout : ∀ e ∈ E.activeGlobalEffects, e.2.update.active = false →
      e.1 ∉ (E.activeGlobalEffects.filter (fun e => e.2.update.active)).map Prod.fst := by
    intro e he hina hmem
    obtain ⟨e2, he2, hk⟩ := List.mem_map.mp hmem
    obtain ⟨he2m, he2a⟩ := List.mem_filter.mp he2
    have heq : e2 = e := List.inj_on_of_nodup_map hnd he2m he hk
    rw [heq, hina] at he2a
    exact Bool.noConfusion he2a
  have hkeys : (E.animate M).engine.activeGlobalEffects.map Prod.fst
      = (E.activeGlobalEffects.filter (fun e => e.2.update.active)).map Prod.fst := by
    rw [h1]
    exact keys_filter_map _
  refine ⟨h2, ?_, h3, ?_, h4, ?_⟩
  · intro k hk
    rw [h2]
    exact List.count_eq_one_of_mem hnd hk
  · rw [h1]
  · intro e he hina
    refine ⟨?_, ?_, ?_⟩
    · rw [h3]
      exact hout e he hina
    · rw [hkeys]
      exact hout e he hina
    · intro n hmem
      obtain ⟨h5, h6⟩ := frames_keys M n (E.animate M).engine h4
      rw [(animate_eq M _ h5).2.1] at hmem
      have := h6 _ hmem
      rw [hkeys] at this
      exact hout e he hina this

theorem frame_pass_ticks_once_witness :
    (sampleFrameEngine.activeGlobalEffects.map Prod.fst).Nodup ∧
      (sampleFrameEngine.animate sampleMath).ticked = ["a", "b"] ∧
      ∀ n : ℕ, "b" ∉ (ArcaneFX.animate sampleMath
        (ArcaneFX.frames sampleMath n (sampleFrameEngine.animate sampleMath).engine)).ticked :=
  ⟨by decide,
    (frame_pass_ticks_once sampleMath sampleFrameEngine (by decide)).1,
    ((frame_pass_ticks_once sampleMath sampleFrameEngine (by decide)).2.2.2.2.2
      ("b", EffectInstance.new "b" 800 600 false (JsNum.fin 400) (JsNum.fin 300) JsVal.obj)
      (by simp [sampleFrameEngine])
      ((update_active_iff _).1.mpr (by rw [updated_particles]; rfl))).2.2⟩

/-- C19 (counterexample): `water_bubble` is spawned globally while
`Math.random()` returns 0.5.  The instance has an emitter and an instance
life of 100; in the next frame its emitter is invoked (the invocation count
becomes 1) and returns without spawning, the particle collection is empty,
`update()` returns `false`, and the frame loop removes the instance. -/
theorem emitter_instance_removed_counterexample :
    (((ArcaneFX.new sampleMath sampleRandom 1 800 600)._spawnGlobal "a" (JsVal.str "water_bubble")
        (JsVal.str "50%") (JsVal.str "50%") JsVal.obj).engine.activeGlobalEffects.map
      (fun e => (e.1, e.2.emitter.isSome, e.2.life, e.2.particles.length)))
        = [("a", true, 100, 0)] ∧
      (((ArcaneFX.new sampleMath sampleRandom 1 800 600)._spawnGlobal "a"
          (JsVal.str "water_bubble") (JsVal.str "50%") (JsVal.str "50%")
          JsVal.obj).engine.activeGlobalEffects.map
        (fun e => (e.2.update.fx.life, e.2.update.fx.emitter.map (fun em => em.calls),
          e.2.update.active))) = [(99, some 1, false)] ∧
      (ArcaneFX.animate sampleMath
        ((ArcaneFX.new sampleMath sampleRandom 1 800 600)._spawnGlobal "a"
          (JsVal.str "water_bubble") (JsVal.str "50%") (JsVal.str "50%")
          JsVal.obj).engine).ticked = ["a"] ∧
      (ArcaneFX.animate sampleMath
        ((ArcaneFX.new sampleMath sampleRandom 1 800 600)._spawnGlobal "a"
          (JsVal.str "water_bubble") (JsVal.str "50%") (JsVal.str "50%")
          JsVal.obj).engine).engine.activeGlobalEffects = [] := by
  have hreg := (registry_lookup sampleMath sampleRandom).2.2.2.1
  have hmap := (spawnGlobal_registered (ArcaneFX.new sampleMath sampleRandom 1 800 600) "a"
    (JsVal.str "water_bubble") (JsVal.str "50%") (JsVal.str "50%") JsVal.obj
    (water_bubble sampleRandom) hreg).2
  have hmap2 : ((ArcaneFX.new sampleMath sampleRandom 1 800 600)._spawnGlobal "a"
      (JsVal.str "water_bubble") (JsVal.str "50%") (JsVal.str "50%")
      JsVal.obj).engine.activeGlobalEffects
      = [("a", water_bubble sampleRandom
          (EffectInstance.new "a" 800 600 false (parse (JsVal.str "50%") 800)
            (parse (JsVal.str "50%") 600) JsVal.obj))] := by
    rw [hmap]
    rfl
  have hact := (update_active_iff _).1.mpr bubble_instance_idle
  have hanim := animate_eq sampleMath _ (by rw [hmap2]; simp)
  refine ⟨?_, ?_, ?_, ?_⟩
  · rw [hmap2]
    rfl
  · rw [hmap2]
    simp only [List.map_cons, List.map_nil, hact]
    have hu := updated_eq (water_bubble sampleRandom
      (EffectInstance.new "a" 800 600 false (parse (JsVal.str "50%") 800)
        (parse (JsVal.str "50%") 600) JsVal.obj))
    have hf : ∀ fx : EffectInstance, fx.update.fx = fx.updated := fun _ => rfl
    rw [hf, hu]
    rfl
  · rw [hanim.2.1, hmap2]
    rfl
  · rw [hanim.1]
    show (List.filter _ _).map _ = []
    rw [hmap2]
    simp [hact]

/-- C19 (amended): with distinct keys in `activeGlobalEffects`, the frame loop
keeps a registered instance exactly when its particle collection is not empty
after its `update()` in that frame, and removes it exactly when the
collection is empty, whether or not it has an emitter and instance life left.
An instance with an emitter and instance life left is kept in every frame in
which its emitter spawns at least one particle with life greater than 0. -/
theorem removal_iff_no_particles (M : JsMath) (E : ArcaneFX)
    (hnd : (E.activeGlobalEffects.map Prod.fst).Nodup) (k : String) (fx : EffectInstance)
    (hmem : (k, fx) ∈ E.activeGlobalEffects) :
    (k ∈ (E.animate M).engine.activeGlobalEffects.map Prod.fst ↔ fx.update.fx.particles ≠ []) ∧
      (k ∉ (E.animate M).engine.activeGlobalEffects.map Prod.fst ↔ fx.update.fx.particles = []) ∧
      (fx.update.fx.particles ≠ [] →
        (k, fx.update.fx) ∈ (E.animate M).engine.activeGlobalEffects) ∧
      (∀ e : Emitter, fx.emitter = some e → 0 < fx.life - 1 →
        (∃ p ∈ e.emit e.calls, OptNum.gtZero p.life = true) →
        (k, fx.update.fx) ∈ (E.animate M).engine.activeGlobalEffects) := by
  have hmap : (E.animate M).engine.activeGlobalEffects
      = (E.activeGlobalEffects.filter (fun e => e.2.update.active)).map
          (fun e => (e.1, e.2.update.fx)) := by
    rw [(animate_eq M E hnd).1]
  have hkeys : (E.animate M).engine.activeGlobalEffects.map Prod.fst
      = (E.activeGlobalEffects.filter (fun e => e.2.update.active)).map Prod.fst := by
    rw [hmap]
    exact keys_filter_map _
  have hiff : k ∈ (E.animate M).engine.activeGlobalEffects.map Prod.fst
      ↔ fx.update.fx.particles ≠ [] := by
    rw [hkeys, ← (update_active_iff fx).2]
    constructor
    · intro h
      obtain ⟨e2, he2, hk⟩ := List.mem_map.mp h
      obtain ⟨he2m, he2a⟩ := List.mem_filter.mp he2
      have heq : e2 = (k, fx) := List.inj_on_of_nodup_map hnd he2m hmem hk
      rw [heq] at he2a
      exact he2a
    · intro h
      exact List.mem_map.mpr ⟨(k, fx), List.mem_filter.mpr ⟨hmem, h⟩, rfl⟩
  have hkept : fx.update.fx.particles ≠ [] →
      (k, fx.update.fx) ∈ (E.animate M).engine.activeGlobalEffects := by
    intro h
    rw [hmap]
    exact List.mem_map.mpr
      ⟨(k, fx), List.mem_filter.mpr ⟨hmem, (update_active_iff fx).2.mpr h⟩, rfl⟩
  refine ⟨hiff, ?_, hkept, ?_⟩
  · rw [hiff]
    exact not_not
  · intro e he hl ⟨p, hp, hlive⟩
    apply hkept
    rw [updated_particles]
    have hem : fx.emitted = (e.emit e.calls).map (EffectInstance.spawned fx.x fx.y) := by
      simp [EffectInstance.emitted, he, hl]
    have hin : EffectInstance.advance (EffectInstance.spawned fx.x fx.y p)
        ∈ ((fx.particles ++ fx.emitted).filter EffectInstance.isLive).map
            EffectInstance.advance := by
      have hl2 : EffectInstance.isLive (EffectInstance.spawned fx.x fx.y p) = true := hlive
      refine List.mem_map.mpr ⟨_, List.mem_filter.mpr ⟨?_, hl2⟩, rfl⟩
      rw [hem]
      exact List.mem_append_right _ (List.mem_map.mpr ⟨p, hp, rfl⟩)
    exact List.ne_nil_of_mem hin

theorem removal_iff_no_particles_witness :
    (sampleEmitterEngine.activeGlobalEffects.map Prod.fst).Nodup ∧
      ("a", fire_engulf sampleRandom sampleInstance) ∈ sampleEmitterEngine.activeGlobalEffects ∧
      ("a", (fire_engulf sampleRandom sampleInstance).update.fx)
        ∈ (sampleEmitterEngine.animate sampleMath).engine.activeGlobalEffects :=
  ⟨by decide, by simp [sampleEmitterEngine],
    (removal_iff_no_particles sampleMath sampleEmitterEngine (by decide) "a"
      (fire_engulf sampleRandom sampleInstance) (by simp [sampleEmitterEngine])).2.2.2
      _ rfl (by decide)
      ⟨_, List.mem_singleton.mpr rfl, by simp [OptNum.of, OptNum.gtZero, JsNum.gtZero]⟩⟩

/-! ## The class `Particle` on a tick -/

/-- C20: one call of `Particle.update()` on a particle whose type is not
`'wave'` sets `x` to `x + vx`, `y` to `y + vy` (with the velocity from before
the call), `vx` to `vx * drag`, `vy` to `vy * drag + gravity`, `size` to
`size + growth` and `life` to `life - 1`, adds `flipSpeed` to `flipVal`, and
leaves the other fields as they are.  A finite life `L` therefore becomes
`L - 1`, which is less than `L`, and `L - n` after `n` calls. -/
theorem particle_update_rule (M : JsMath) (p : Particle) (hw : p.type ≠ JsVal.str "wave") :
    p.update M
        = { p with
            x := p.x.add p.vx, y := p.y.add p.vy, vx := p.vx.mul p.drag,
            vy := (p.vy.mul p.drag).add p.gravity, size := p.size.add p.growth,
            life := p.life.sub (JsNum.fin 1), flipVal := p.flipVal.add p.flipSpeed } ∧
      (∀ L : ℚ, p.life = JsNum.fin L →
        (p.update M).life = JsNum.fin (L - 1) ∧ JsNum.lt (p.update M).life p.life = true ∧
        ∀ n : ℕ, ((Particle.update M)^[n] p).life = JsNum.fin (L - n)) := by
  refine ⟨?_, ?_⟩
  · unfold Particle.update
    simp only
    rw [if_neg hw]
  · intro L h
    have h1 : (p.update M).life = JsNum.fin (L - 1) := by
      rw [particle_update_life, h]
      simp [JsNum.sub, JsNum.neg, JsNum.add, sub_eq_add_neg]
    refine ⟨h1, ?_, fun n => particle_iterate_life M n p L h⟩
    rw [h1, h]
    simp [JsNum.lt]

theorem particle_update_rule_witness :
    sampleParticle.type ≠ JsVal.str "wave" ∧
      (sampleParticle.update sampleMath).life = JsNum.fin (3 - 1) :=
  ⟨by decide,
    ((particle_update_rule sampleMath sampleParticle (by decide)).2 3
      (by simp [sampleParticle, Particle.new, OptNum.of, OptNum.orElse, JsNum.truthy])).1⟩

/-! ## Draw calls of an instance -/

/-- C21 (counterexample): a square particle spawned with size 5 and growth -8
has size -3 after one `update()`; `render` then calls
`fillRect(401.5, 301.5, -3, -3)`, whose width and height are negative. -/
theorem square_negative_size_counterexample :
    (sampleInstance.spawn shrinkingSquareSpec).update.active = true ∧
      (sampleInstance.spawn shrinkingSquareSpec).update.fx.render sampleMath
        = [CanvasOp.setFillStyle (JsVal.str "#fff"), CanvasOp.setStrokeStyle (JsVal.str "#fff"),
            CanvasOp.setGlobalAlpha (JsNum.fin (29 / 30)), CanvasOp.beginPath,
            CanvasOp.fillRect (JsNum.fin (803 / 2)) (JsNum.fin (603 / 2)) (JsNum.fin (-3))
              (JsNum.fin (-3))] ∧
      (((sampleInstance.spawn shrinkingSquareSpec).update.fx.render sampleMath).flatMap
        CanvasOp.extents).map JsNum.geZero = [false, false] := by
  have ha : (sampleInstance.spawn shrinkingSquareSpec).update.active = true :=
    (update_active_iff _).2.mpr (by rw [shrinkingSquare_update_particles]; simp)
  have hr : (sampleInstance.spawn shrinkingSquareSpec).update.fx.render sampleMath
        = [CanvasOp.setFillStyle (JsVal.str "#fff"), CanvasOp.setStrokeStyle (JsVal.str "#fff"),
            CanvasOp.setGlobalAlpha (JsNum.fin (29 / 30)), CanvasOp.beginPath,
            CanvasOp.fillRect (JsNum.fin (803 / 2)) (JsNum.fin (603 / 2)) (JsNum.fin (-3))
              (JsNum.fin (-3))] := by
    unfold EffectInstance.render
    rw [shrinkingSquare_update_particles]
    simp [EffectInstance.renderParticle, OptNum.toNum, JsNum.div, JsNum.sub, JsNum.neg,
      JsNum.add]
    norm_num
  refine ⟨ha, hr, ?_⟩
  rw [hr]
  simp [CanvasOp.extents, JsNum.geZero]

/-- C21 (amended): for a particle of type `'circle'` or `'stroke'` whose size
is not `NaN`, the radius that `EffectInstance.render` passes to `arc` is
`Math.max(0, size)`, which is not negative, and a circle passes no other
radius, width or line width.  The line width of a `'stroke'` particle is its
`lineWidth || 1`; a `'square'` particle passes its size as the width and the
height of `fillRect`, and a `'line'` particle passes its size as the line
width, both as they are; a `'triangle'` particle passes none. -/
theorem render_extents (M : JsMath) (p : SpawnedParticle) :
    (p.type = JsVal.str "circle" →
      (EffectInstance.renderParticle M p).flatMap CanvasOp.extents = [p.size.maxZero] ∧
      (p.size ≠ JsNum.nan →
        ∀ v ∈ (EffectInstance.renderParticle M p).flatMap CanvasOp.extents,
          JsNum.geZero v = true)) ∧
      (p.type = JsVal.str "stroke" →
        (EffectInstance.renderParticle M p).flatMap CanvasOp.extents
          = [p.size.maxZero, if p.lineWidth.truthy then p.lineWidth else JsNum.fin 1] ∧
        (p.size ≠ JsNum.nan → JsNum.geZero p.size.maxZero = true)) ∧
      (p.type = JsVal.str "square" →
        (EffectInstance.renderParticle M p).flatMap CanvasOp.extents = [p.size, p.size]) ∧
      (p.type = JsVal.str "line" →
        (EffectInstance.renderParticle M p).flatMap CanvasOp.extents = [p.size]) ∧
      (p.type = JsVal.str "triangle" →
        (EffectInstance.renderParticle M p).flatMap CanvasOp.extents = []) := by
  refine ⟨?_, ?_, ?_, ?_, ?_⟩
  · intro ht
    have h : (EffectInstance.renderParticle M p).flatMap CanvasOp.extents = [p.size.maxZero] := by
      simp [EffectInstance.renderParticle, ht, CanvasOp.extents]
    refine ⟨h, fun hn v hv => ?_⟩
    rw [h, List.mem_singleton] at hv
    rw [hv]
    exact maxZero_geZero _ hn
  · intro ht
    refine ⟨?_, fun hn => maxZero_geZero _ hn⟩
    simp [EffectInstance.renderParticle, ht, CanvasOp.extents]
  · intro ht
    simp [EffectInstance.renderParticle, ht, CanvasOp.extents]
  · intro ht
    simp [EffectInstance.renderParticle, ht, CanvasOp.extents]
  · intro ht
    simp [EffectInstance.renderParticle, ht, CanvasOp.extents]

/-- C22 (counterexample): for a particle of type `'wave'`,
`EffectInstance.render` sets the styles and the opacity and begins a path,
and calls none of `fill`, `stroke` and `fillRect`. -/
theorem wave_not_painted_counterexample :
    (sampleInstance.spawn waveSpec).render sampleMath
        = [CanvasOp.setFillStyle (JsVal.str "#fff"), CanvasOp.setStrokeStyle (JsVal.str "#fff"),
            CanvasOp.setGlobalAlpha (JsNum.fin 1), CanvasOp.beginPath] ∧
      paintCount ((sampleInstance.spawn waveSpec).render sampleMath) = 0 := by
  have hr : (sampleInstance.spawn waveSpec).render sampleMath
        = [CanvasOp.setFillStyle (JsVal.str "#fff"), CanvasOp.setStrokeStyle (JsVal.str "#fff"),
            CanvasOp.setGlobalAlpha (JsNum.fin 1), CanvasOp.beginPath] := by
    have hp : (sampleInstance.spawn waveSpec).particles
        = [EffectInstance.spawned (JsNum.fin 400) (JsNum.fin 300) waveSpec] := rfl
    unfold EffectInstance.render
    rw [hp]
    simp [EffectInstance.renderParticle, EffectInstance.spawned, waveSpec, OptNum.of,
      OptNum.orElse, JsVal.orElse, JsVal.truthy, OptNum.toNum, JsNum.div]
  refine ⟨hr, ?_⟩
  rw [hr]
  rfl

/-- C22 (amended): `EffectInstance.render` issues the draw calls of the
particles of the collection one particle after the other, in collection
order.  For every particle it sets the fill style, the stroke style and the
opacity and begins a path.  For a particle of type `'circle'`, `'square'`,
`'triangle'`, `'stroke'` or `'line'` it then issues exactly one of `fill`,
`stroke` and `fillRect` (`fill` for a circle and a triangle, `fillRect` for a
square, `stroke` for a stroke and a line); for a particle of any other type,
such as `'wave'`, `'lightning'`, `'card'`, `'slash'` and `'flash'`, it issues
none. -/
theorem render_paints_known_archetypes (M : JsMath) (fx : EffectInstance) :
    fx.render M = (fx.particles.map (EffectInstance.renderParticle M)).flatten ∧
      (∀ p : SpawnedParticle,
        (EffectInstance.renderParticle M p).take 4
          = [CanvasOp.setFillStyle p.color, CanvasOp.setStrokeStyle p.color,
              CanvasOp.setGlobalAlpha (p.life.toNum.div p.maxLife.toNum), CanvasOp.beginPath] ∧
        paintCount ((EffectInstance.renderParticle M p).take 4) = 0 ∧
        (p.type ∈ renderedArchetypes → paintCount (EffectInstance.renderParticle M p) = 1) ∧
        (p.type = JsVal.str "circle" ∨ p.type = JsVal.str "triangle" →
          (EffectInstance.renderParticle M p).filter CanvasOp.isPaint = [CanvasOp.fill]) ∧
        (p.type = JsVal.str "stroke" ∨ p.type = JsVal.str "line" →
          (EffectInstance.renderParticle M p).filter CanvasOp.isPaint = [CanvasOp.stroke]) ∧
        (p.type = JsVal.str "square" →
          (EffectInstance.renderParticle M p).filter CanvasOp.isPaint
            = [CanvasOp.fillRect (p.x.sub (p.size.div (JsNum.fin 2)))
                (p.y.sub (p.size.div (JsNum.fin 2))) p.size p.size]) ∧
        (p.type ∉ renderedArchetypes →
          paintCount (EffectInstance.renderParticle M p) = 0 ∧
          (EffectInstance.renderParticle M p).length = 4) ∧
        (p.type ∈ unrenderedArchetypes → paintCount (EffectInstance.renderParticle M p) = 0)) := by
  refine ⟨?_, fun p => ⟨rfl, rfl, ?_, ?_, ?_, ?_, ?_, ?_⟩⟩
  · simp [EffectInstance.render, List.flatMap]
  · intro h
    simp only [renderedArchetypes, List.mem_cons, List.mem_singleton, List.not_mem_nil,
      or_false] at h
    rcases h with h | h | h | h | h <;>
      simp [EffectInstance.renderParticle, h, paintCount, CanvasOp.isPaint]
  · rintro (h | h) <;> simp [EffectInstance.renderParticle, h, CanvasOp.isPaint]
  · rintro (h | h) <;> simp [EffectInstance.renderParticle, h, CanvasOp.isPaint]
  · intro h
    simp [EffectInstance.renderParticle, h, CanvasOp.isPaint]
  · intro h
    simp only [renderedArchetypes, List.mem_cons, List.mem_singleton, List.not_mem_nil,
      or_false, not_or] at h
    obtain ⟨h1, h2, h3, h4, h5⟩ := h
    simp [EffectInstance.renderParticle, h1, h2, h3, h4, h5, paintCount, CanvasOp.isPaint]
  · intro h
    simp only [unrenderedArchetypes, List.mem_cons, List.mem_singleton, List.not_mem_nil,
      or_false] at h
    rcases h with h | h | h | h | h <;>
      simp [EffectInstance.renderParticle, h, paintCount, CanvasOp.isPaint]

/-- C23: for every particle, `EffectInstance.render` sets the opacity exactly
once, to `life / maxLife`.  When every particle of the collection was pushed
by `spawn` with a positive whole life (so `life = maxLife`) and the emitter,
if any, only spawns particles with a positive whole life, then after any
number `n` of `update()` calls every particle `q` in the collection has
`maxLife = L` and `life = L - k` for whole numbers `0 < L` and `k ≤ L`, and
the opacity that `render` sets for it is `(L - k) / L`, which lies between 0
and 1. -/
theorem linear_fade (M : JsMath) (fx : EffectInstance) (n : ℕ)
    (hp : ∀ p ∈ fx.particles, ∃ l : ℕ, p.agedFrom l 0)
    (he : ∀ e : Emitter, fx.emitter = some e → ∀ (i : ℕ) (s : ParticleSpec), s ∈ e.emit i →
      ∃ l : ℕ, 0 < l ∧ s.life = some (JsNum.fin l)) :
    (∀ p : SpawnedParticle,
      (EffectInstance.renderParticle M p).filterMap CanvasOp.alpha
        = [p.life.toNum.div p.maxLife.toNum]) ∧
      ∀ q ∈ (fx.updates n).particles, ∃ L k : ℕ, ∃ a : ℚ,
        q.agedFrom L k ∧ a = ((L : ℚ) - k) / L ∧ 0 ≤ a ∧ a ≤ 1 ∧
        (EffectInstance.renderParticle M q).filterMap CanvasOp.alpha = [JsNum.fin a] := by
  refine ⟨renderParticle_alpha M, fun q hq => ?_⟩
  obtain ⟨L, k, h⟩ := aged_updates fx (fun p hp2 => (hp p hp2).imp fun l hl => ⟨0, hl⟩) he n q hq
  obtain ⟨h1, h2, h3⟩ := agedFrom_alpha q L k h
  exact ⟨L, k, _, h, rfl, h2, h3, by rw [renderParticle_alpha, h1]⟩

theorem linear_fade_witness :
    (∀ p ∈ (sampleInstance.spawn liveSpec).particles, ∃ l : ℕ, p.agedFrom l 0) ∧
      ∀ q ∈ ((sampleInstance.spawn liveSpec).updates 3).particles, ∃ L k : ℕ, ∃ a : ℚ,
        q.agedFrom L k ∧ a = ((L : ℚ) - k) / L ∧ 0 ≤ a ∧ a ≤ 1 ∧
        (EffectInstance.renderParticle sampleMath q).filterMap CanvasOp.alpha = [JsNum.fin a] :=
  have hp : ∀ p ∈ (sampleInstance.spawn liveSpec).particles, ∃ l : ℕ, p.agedFrom l 0 := by
    intro p hp
    have : p = EffectInstance.spawned (JsNum.fin 400) (JsNum.fin 300) liveSpec := by
      simpa [EffectInstance.spawn, sampleInstance, EffectInstance.new] using hp
    rw [this]
    exact ⟨30, agedFrom_spawned _ _ liveSpec 30 (by decide) (by simp [liveSpec, OptNum.of])⟩
  ⟨hp, (linear_fade sampleMath (sampleInstance.spawn liveSpec) 3 hp
    (fun e he => by simp [EffectInstance.spawn, sampleInstance, EffectInstance.new] at he)).2⟩

/-! ## Particle lifetimes and trajectories -/

/-- C26: a particle that is in the collection with the positive whole life
`L` is in the collection after each of the next `L` calls of `update()`, with
life `L - k` after the `k`-th (so 0 after the `L`-th), and it is not in the
collection after any later call.  Consequently, for an instance without an
emitter all of whose particles have a whole life between 1 and `L`, one of
them `L`, the calls number 1 to `L` of `update()` return `true` and every
later call returns `false`. -/
theorem exact_lifetime (fx : EffectInstance) (p : SpawnedParticle) (L : ℕ)
    (hp : p ∈ fx.particles) (hL : 0 < L) (hlife : p.life = some (JsNum.fin L)) :
    (∀ k ≤ L,
        EffectInstance.advance^[k] p ∈ (fx.updates k).particles ∧
        (EffectInstance.advance^[k] p).life = some (JsNum.fin ((L : ℚ) - k))) ∧
      (EffectInstance.advance^[L] p).life = some (JsNum.fin 0) ∧
      (∀ k, L < k → EffectInstance.advance^[k] p ∉ (fx.updates k).particles) ∧
      (fx.emitter = none → fx.holdsLivesUpTo L →
        (∀ n < L, fx.activeAt n = true) ∧ ∀ n, L ≤ n → fx.activeAt n = false) := by
  have hlive : ∀ j < L, EffectInstance.isLive (EffectInstance.advance^[j] p) = true := by
    intro j hj
    rw [isLive_of_life _ _ (iterate_advance_life p L hlife j), decide_eq_true_eq]
    have : (j : ℚ) < L := by exact_mod_cast hj
    linarith
  have hmem : ∀ k ≤ L, EffectInstance.advance^[k] p ∈ (fx.updates k).particles :=
    fun k hk => mem_updates_of_live fx p hp k (fun j hj => hlive j (lt_of_lt_of_le hj hk))
  refine ⟨fun k hk => ⟨hmem k hk, iterate_advance_life p L hlife k⟩, ?_, ?_, ?_⟩
  · rw [iterate_advance_life p L hlife L]
    simp
  · intro k hk hin
    obtain ⟨m, rfl⟩ : ∃ m, k = m + 1 := ⟨k - 1, by omega⟩
    rw [updates_succ] at hin
    have h := life_of_mem_update _ _ hin _ (iterate_advance_life p L hlife (m + 1))
    have : (L : ℚ) + 1 ≤ ((m + 1 : ℕ) : ℚ) := by exact_mod_cast hk
    linarith
  · intro hem hall
    refine ⟨fun n hn => ?_, fun n hn => ?_⟩
    · have h := hmem (n + 1) hn
      rw [updates_succ] at h
      exact (update_active_iff _).2.mpr (List.ne_nil_of_mem h)
    · refine (update_active_iff _).1.mpr (List.eq_nil_iff_forall_not_mem.mpr fun q hq => ?_)
      obtain ⟨p2, hp2, _, hl2⟩ := mem_updates_no_emitter fx hem (n + 1) q hq
      obtain ⟨l, _, hlL, hl⟩ := hall p2 hp2
      have h := hl2 n (Nat.lt_succ_self n)
      rw [isLive_of_life _ _ (iterate_advance_life p2 l hl n), decide_eq_true_eq] at h
      have h1 : (l : ℚ) ≤ L := by exact_mod_cast hlL
      have h2 : (L : ℚ) ≤ n := by exact_mod_cast hn
      linarith

theorem exact_lifetime_witness :
    EffectInstance.spawned (JsNum.fin 400) (JsNum.fin 300) liveSpec
        ∈ (sampleInstance.spawn liveSpec).particles ∧
      0 < 30 ∧
      (EffectInstance.spawned (JsNum.fin 400) (JsNum.fin 300) liveSpec).life
        = some (JsNum.fin (30 : ℕ)) ∧
      (∀ n < 30, (sampleInstance.spawn liveSpec).activeAt n = true) ∧
      ∀ n, 30 ≤ n → (sampleInstance.spawn liveSpec).activeAt n = false :=
  have hm : EffectInstance.spawned (JsNum.fin 400) (JsNum.fin 300) liveSpec
      ∈ (sampleInstance.spawn liveSpec).particles := by
    simp [EffectInstance.spawn, sampleInstance, EffectInstance.new]
  have hl : (EffectInstance.spawned (JsNum.fin 400) (JsNum.fin 300) liveSpec).life
      = some (JsNum.fin (30 : ℕ)) := by
    simp [EffectInstance.spawned, liveSpec, OptNum.of]
  ⟨hm, by decide, hl,
    (exact_lifetime (sampleInstance.spawn liveSpec) _ 30 hm (by decide) hl).2.2.2 rfl
      (fun q hq => by
        have : q = EffectInstance.spawned (JsNum.fin 400) (JsNum.fin 300) liveSpec := by
          simpa [EffectInstance.spawn, sampleInstance, EffectInstance.new] using hq
        exact ⟨30, by decide, by decide, by rw [this]; exact hl⟩)⟩

/-- C27: for a particle with finite position `(x0, y0)`, velocity
`(vx0, vy0)` and gravity `g`, its state after `n` steps of `update()` has
`vx = vx0`, `vy = vy0 + n * g`, `x = x0 + n * vx0` and
`y = y0 + n * vy0 + g * n * (n - 1) / 2`; with `shrink` set, growth 0 and
size `s0` its size is `s0 * (9/10)^n`, which is positive when `s0` is.  This
state is the one found in the collection after `n` calls of `update()` when
the particle is live before each of them. -/
theorem constant_acceleration (p : SpawnedParticle) (x0 y0 vx0 vy0 g : ℚ) (n : ℕ)
    (hx : p.x = JsNum.fin x0) (hy : p.y = JsNum.fin y0) (hvx : p.vx = JsNum.fin vx0)
    (hvy : p.vy = JsNum.fin vy0) (hg : p.gravity = JsNum.fin g) :
    (EffectInstance.advance^[n] p).vx = JsNum.fin vx0 ∧
      (EffectInstance.advance^[n] p).vy = JsNum.fin (vy0 + n * g) ∧
      (EffectInstance.advance^[n] p).x = JsNum.fin (x0 + n * vx0) ∧
      (EffectInstance.advance^[n] p).y = JsNum.fin (y0 + n * vy0 + g * n * (n - 1) / 2) ∧
      (∀ s0 : ℚ, p.size = JsNum.fin s0 → p.growth = JsNum.fin 0 → p.shrink.truthy = true →
        (EffectInstance.advance^[n] p).size = JsNum.fin (s0 * (9 / 10) ^ n) ∧
        (0 < s0 → 0 < s0 * (9 / 10) ^ n)) ∧
      (∀ fx : EffectInstance, p ∈ fx.particles →
        (∀ j < n, EffectInstance.isLive (EffectInstance.advance^[j] p) = true) →
        EffectInstance.advance^[n] p ∈ (fx.updates n).particles) := by
  obtain ⟨h1, h2, h3, h4, _⟩ := iterate_advance_motion p x0 y0 vx0 vy0 g hx hy hvx hvy hg n
  refine ⟨h1, h2, h3, h4, ?_, fun fx hp hl => mem_updates_of_live fx p hp n hl⟩
  intro s0 hs hgr hsh
  exact ⟨(iterate_advance_shrink p s0 hs hgr hsh n).1, fun h => mul_pos h (by positivity)⟩

theorem constant_acceleration_witness :
    fallingParticle.x = JsNum.fin 400 ∧ fallingParticle.y = JsNum.fin 300 ∧
      fallingParticle.vx = JsNum.fin 2 ∧ fallingParticle.vy = JsNum.fin (-3) ∧
      fallingParticle.gravity = JsNum.fin (2 / 5) ∧
      (EffectInstance.advance^[3] fallingParticle).vy
        = JsNum.fin (-3 + ((3 : ℕ) : ℚ) * (2 / 5)) ∧
      (EffectInstance.advance^[3] fallingParticle).y
        = JsNum.fin (300 + ((3 : ℕ) : ℚ) * (-3) + 2 / 5 * ((3 : ℕ) : ℚ) * (((3 : ℕ) : ℚ) - 1) / 2) :=
  ⟨fallingParticle_fields.1, fallingParticle_fields.2.1, fallingParticle_fields.2.2.1,
    fallingParticle_fields.2.2.2.1, fallingParticle_fields.2.2.2.2.1,
    (constant_acceleration fallingParticle 400 300 2 (-3) (2 / 5) 3 fallingParticle_fields.1
      fallingParticle_fields.2.1 fallingParticle_fields.2.2.1 fallingParticle_fields.2.2.2.1
      fallingParticle_fields.2.2.2.2.1).2.1,
    (constant_acceleration fallingParticle 400 300 2 (-3) (2 / 5) 3 fallingParticle_fields.1
      fallingParticle_fields.2.1 fallingParticle_fields.2.2.1 fallingParticle_fields.2.2.2.1
      fallingParticle_fields.2.2.2.2.1).2.2.2.1⟩

/-! ## Termination of an instance -/

/-- C29: start from an instance whose life counter is 100, as after the
constructor and a generator.  Its emitter, if any, is invoked by the calls
number 1 to 99 of `update()` and by no later call: after `n` calls it has
been invoked `min n 99` times.  If every particle in the collection and every
particle the emitter ever spawns has a whole life between 1 and `L`, then
call number `L + 99` of `update()` returns `false`; so there is a first call
that returns `false`, its number is at most `L + 99`, and the frame pass that
makes this call removes the instance from `activeGlobalEffects`. -/
theorem instance_terminates (fx : EffectInstance) (L : ℕ) (hlife : fx.life = 100)
    (hp : fx.holdsLivesUpTo L) (he : fx.emitsLivesUpTo L) :
    (∀ (e : Emitter) (n : ℕ), fx.emitter = some e →
        (fx.updates n).emitter = some { e with calls := e.calls + min n 99 }) ∧
      fx.activeAt (L + 98) = false ∧
      ∃ n : ℕ, n + 1 ≤ L + 99 ∧ fx.activeAt n = false ∧ (∀ m < n, fx.activeAt m = true) ∧
        ∀ (M : JsMath) (E : ArcaneFX) (k : String),
          (E.activeGlobalEffects.map Prod.fst).Nodup →
          (k, fx.updates n) ∈ E.activeGlobalEffects →
          k ∉ (E.animate M).engine.activeGlobalEffects.map Prod.fst := by
  have hb := inactive_at_bound fx L hlife hp he
  have hex : ∃ n, fx.activeAt n = false := ⟨L + 98, hb⟩
  refine ⟨fun e n hfe => updates_calls fx e hlife hfe n, hb, Nat.find hex, ?_, Nat.find_spec hex,
    ?_, ?_⟩
  · have := Nat.find_min' hex hb
    omega
  · intro m hm
    have := Nat.find_min hex hm
    simpa using this
  · intro M E k hnd hmem
    exact animate_removes_inactive M E hnd k _ hmem (Nat.find_spec hex)

theorem instance_terminates_witness :
    (fire_engulf sampleRandom sampleInstance).life = 100 ∧
      (fire_engulf sampleRandom sampleInstance).holdsLivesUpTo 40 ∧
      (fire_engulf sampleRandom sampleInstance).emitsLivesUpTo 40 ∧
      (fire_engulf sampleRandom sampleInstance).activeAt (40 + 98) = false :=
  have hp : (fire_engulf sampleRandom sampleInstance).holdsLivesUpTo 40 := by
    intro p hp
    simp [fire_engulf, EffectInstance.addCSS, sampleInstance, EffectInstance.new] at hp
  have he : (fire_engulf sampleRandom sampleInstance).emitsLivesUpTo 40 := by
    intro e hfe i s hs
    have h : e.emit = fun n =>
        [{ x := OptNum.of (sampleRandom (4 * n) * sampleInstance.w),
           y := OptNum.of sampleInstance.h,
           vx := OptNum.of ((sampleRandom (4 * n + 1) - 0.5) * 2),
           vy := OptNum.of (-2 - sampleRandom (4 * n + 2) * 3),
           size := OptNum.of (6 + sampleRandom (4 * n + 3) * 8), color := JsVal.str "#ff4500",
           life := OptNum.of 40, shrink := JsVal.bool true, type := JsVal.str "circle" }] := by
      have h2 := Option.some.inj hfe
      rw [← h2]
    rw [h, List.mem_singleton] at hs
    refine ⟨40, by decide, by decide, ?_⟩
    rw [hs]
    simp [OptNum.of]
  ⟨rfl, hp, he, (instance_terminates (fire_engulf sampleRandom sampleInstance) 40 rfl hp he).2.1⟩

/-! ## Absolute and percentage coordinates -/

/-- C28: in `_spawnGlobal`, a non-zero number and a string without `%` that
reads as a non-zero number resolve to that number; the number 0 and the
string `'0'` resolve to half of the viewport dimension; the string `'0%'`
resolves to 0; and on a viewport dimension other than 0 no coordinate that is
not a percentage string resolves to 0.  So a global spawn of a registered
effect at `(0, '0')` builds its instance with the centre of the viewport as
origin, a spawn at `('0%', '0%')` with the origin `(0, 0)`, and
`spawn(name, 0, 0)` passes `y || '50%'` and builds it at the centre as
well. -/
theorem zero_coordinate_resolves_to_centre (max : ℚ) :
    (∀ v : ℚ, v ≠ 0 → parse (JsVal.num (JsNum.fin v)) max = JsNum.fin v) ∧
      (∀ (s : String) (v : ℚ), includesPercent s = false → parseFloatStr s = JsNum.fin v →
        v ≠ 0 → parse (JsVal.str s) max = JsNum.fin v) ∧
      parse (JsVal.num (JsNum.fin 0)) max = JsNum.fin (max / 2) ∧
      parse (JsVal.str "0") max = JsNum.fin (max / 2) ∧
      parse (JsVal.str "0%") max = JsNum.fin 0 ∧
      (max ≠ 0 → ∀ val : JsVal, (∀ s, val = JsVal.str s → includesPercent s = false) →
        parse val max ≠ JsNum.fin 0) ∧
      (∀ (E : ArcaneFX) (id : String) (name opts : JsVal) (g : Generator),
        mapGet E.effects name = some g →
        (E._spawnGlobal id name (JsVal.num (JsNum.fin 0)) (JsVal.str "0") opts).returned
          = some (g (EffectInstance.new id E.viewport.width E.viewport.height false
              (JsNum.fin (E.viewport.width / 2)) (JsNum.fin (E.viewport.height / 2))
              (if opts = JsVal.undefined then JsVal.obj else opts))) ∧
        (E._spawnGlobal id name (JsVal.str "0%") (JsVal.str "0%") opts).returned
          = some (g (EffectInstance.new id E.viewport.width E.viewport.height false
              (JsNum.fin 0) (JsNum.fin 0)
              (if opts = JsVal.undefined then JsVal.obj else opts))) ∧
        E.spawn id name (SpawnTarget.value (JsVal.num (JsNum.fin 0))) (JsVal.num (JsNum.fin 0))
            opts
          = Sum.inr (E._spawnGlobal id name (JsVal.num (JsNum.fin 0)) (JsVal.str "50%") opts) ∧
        (E._spawnGlobal id name (JsVal.num (JsNum.fin 0)) (JsVal.str "50%") opts).returned
          = some (g (EffectInstance.new id E.viewport.width E.viewport.height false
              (JsNum.fin (E.viewport.width / 2)) (JsNum.fin (E.viewport.height / 2))
              (if opts = JsVal.undefined then JsVal.obj else opts)))) := by
  have hnum0 : ∀ m : ℚ, parse (JsVal.num (JsNum.fin 0)) m = JsNum.fin (m / 2) := by
    intro m
    simp [parse, parseFloat, JsNum.truthy]
  have hstr0 : ∀ m : ℚ, parse (JsVal.str "0") m = JsNum.fin (m / 2) := by
    intro m
    rw [parse_absolute "0" 0 m (by decide) parseFloatStr_zero]
    simp
  have hpct0 : ∀ m : ℚ, parse (JsVal.str "0%") m = JsNum.fin 0 := by
    intro m
    rw [parse_percent "0%" 0 m (by decide) parseFloatStr_zero_percent]
    simp
  have hhalf : ∀ m : ℚ, parse (JsVal.str "50%") m = JsNum.fin (m / 2) := by
    intro m
    rw [parse_percent "50%" 50 m (by decide) parseFloatStr_fifty]
    congr 1
    ring
  refine ⟨?_, ?_, hnum0 max, hstr0 max, hpct0 max, ?_, ?_⟩
  · intro v hv
    simp [parse, parseFloat, JsNum.truthy, hv]
  · intro s v hs hp hv
    rw [parse_absolute s v max hs hp, if_pos hv]
  · intro hmax val hval
    rw [parse_truthy_or_half val max hval]
    split_ifs with ht
    · intro h0
      rw [h0] at ht
      simp [JsNum.truthy] at ht
    · intro h0
      have := JsNum.fin.inj h0
      exact hmax (by linarith)
  · intro E id name opts g hreg
    refine ⟨?_, ?_, rfl, ?_⟩
    · rw [(spawnGlobal_registered E id name _ _ opts g hreg).1, hnum0, hstr0]
    · rw [(spawnGlobal_registered E id name _ _ opts g hreg).1, hpct0, hpct0]
    · rw [(spawnGlobal_registered E id name _ _ opts g hreg).1, hnum0, hhalf]

/-! ## The two particle steps -/

/-- C30 (counterexample): the particle `new Particle(0, 0, { life: 3,
drag: 0.5 })` has a drag other than 1 and no velocity; the loop body of
`EffectInstance.update()` and `Particle.update()` give it the same `x`, `y`,
`vx`, `vy`, `size` and `life`. -/
theorem drag_without_velocity_counterexample :
    stillParticle.drag = JsNum.fin (1 / 2) ∧ stillParticle.type ≠ JsVal.str "wave" ∧
      (EffectInstance.advance (stillParticle.asEntry JsVal.undefined)).x
        = (stillParticle.update sampleMath).x ∧
      (EffectInstance.advance (stillParticle.asEntry JsVal.undefined)).y
        = (stillParticle.update sampleMath).y ∧
      (EffectInstance.advance (stillParticle.asEntry JsVal.undefined)).vx
        = (stillParticle.update sampleMath).vx ∧
      (EffectInstance.advance (stillParticle.asEntry JsVal.undefined)).vy
        = (stillParticle.update sampleMath).vy ∧
      (EffectInstance.advance (stillParticle.asEntry JsVal.undefined)).size
        = (stillParticle.update sampleMath).size ∧
      (EffectInstance.advance (stillParticle.asEntry JsVal.undefined)).life
        = some (stillParticle.update sampleMath).life := by
  have hw : stillParticle.type ≠ JsVal.str "wave" := by decide
  have hd : stillParticle.drag = JsNum.fin (1 / 2) := by
    simp [stillParticle, Particle.new, OptNum.of, OptNum.orElse, JsNum.truthy]
    norm_num
  have hvx : stillParticle.vx = JsNum.fin 0 := rfl
  have hvy : stillParticle.vy = JsNum.fin 0 := rfl
  have hg : stillParticle.gravity = JsNum.fin 0 := rfl
  rw [particle_update_fields sampleMath stillParticle hw]
  refine ⟨hd, hw, rfl, rfl, ?_, ?_, ?_, rfl⟩
  · show stillParticle.vx = stillParticle.vx.mul stillParticle.drag
    rw [hvx, hd]
    simp [JsNum.mul]
  · show stillParticle.vy.add stillParticle.gravity
      = (stillParticle.vy.mul stillParticle.drag).add stillParticle.gravity
    rw [hvy, hd, hg]
    simp [JsNum.mul, JsNum.add]
  · rfl

/-- C30 (amended): take a `Particle` object whose type is not `'wave'` and
which has no truthy `shrink` property.  The loop body of
`EffectInstance.update()` and `Particle.update()` give it the same `x`, `y`,
`size` and `life`, whatever its drag.  With drag 1 they also give the same
`vx` and `vy`.  With a finite drag `d`, velocity `(vx, vy)` and gravity they
give the same `vx` exactly when `d = 1` or `vx = 0`, and the same `vy`
exactly when `d = 1` or `vy = 0`: the two results differ exactly when the
drag is not 1 and the particle has a velocity. -/
theorem advance_agrees_with_particle_update (M : JsMath) (p : Particle) (shrink : JsVal)
    (hw : p.type ≠ JsVal.str "wave") (hs : shrink.truthy = false) :
    (EffectInstance.advance (p.asEntry shrink)).x = (p.update M).x ∧
      (EffectInstance.advance (p.asEntry shrink)).y = (p.update M).y ∧
      (EffectInstance.advance (p.asEntry shrink)).size = (p.update M).size ∧
      (EffectInstance.advance (p.asEntry shrink)).life = some (p.update M).life ∧
      (p.drag = JsNum.fin 1 →
        (EffectInstance.advance (p.asEntry shrink)).vx = (p.update M).vx ∧
        (EffectInstance.advance (p.asEntry shrink)).vy = (p.update M).vy) ∧
      (∀ d vx vy g : ℚ, p.drag = JsNum.fin d → p.vx = JsNum.fin vx → p.vy = JsNum.fin vy →
        p.gravity = JsNum.fin g →
        ((EffectInstance.advance (p.asEntry shrink)).vx = (p.update M).vx ↔ d = 1 ∨ vx = 0) ∧
        ((EffectInstance.advance (p.asEntry shrink)).vy = (p.update M).vy ↔ d = 1 ∨ vy = 0)) := by
  rw [particle_update_fields M p hw]
  have hsize : (EffectInstance.advance (p.asEntry shrink)).size = p.size.add p.growth := by
    show (if shrink.truthy = true then _ else _) = _
    rw [hs]
    rfl
  refine ⟨rfl, rfl, hsize, rfl, ?_, ?_⟩
  · intro hd
    refine ⟨?_, ?_⟩
    · show p.vx = p.vx.mul p.drag
      rw [hd, mul_one_num]
    · show p.vy.add p.gravity = (p.vy.mul p.drag).add p.gravity
      rw [hd, mul_one_num]
  · intro d vx vy g hd hvx hvy hg
    have key : ∀ a : ℚ, a = a * d ↔ d = 1 ∨ a = 0 := by
      intro a
      constructor
      · intro h
        by_cases ha : a = 0
        · exact Or.inr ha
        · left
          have h2 : a * (d - 1) = 0 := by linarith
          rcases mul_eq_zero.mp h2 with h3 | h3
          · exact absurd h3 ha
          · linarith
      · rintro (h | h)
        · rw [h, mul_one]
        · rw [h, zero_mul]
    refine ⟨?_, ?_⟩
    · show p.vx = p.vx.mul p.drag ↔ _
      rw [hvx, hd]
      simp only [JsNum.mul, JsNum.fin.injEq]
      exact key vx
    · show p.vy.add p.gravity = (p.vy.mul p.drag).add p.gravity ↔ _
      rw [hvy, hd, hg]
      simp only [JsNum.mul, JsNum.add, JsNum.fin.injEq, add_left_inj]
      exact key vy

theorem advance_agrees_with_particle_update_witness :
    sampleParticle.type ≠ JsVal.str "wave" ∧ JsVal.undefined.truthy = false ∧
      (EffectInstance.advance (sampleParticle.asEntry JsVal.undefined)).x
        = (sampleParticle.update sampleMath).x :=
  ⟨by decide, rfl,
    (advance_agrees_with_particle_update sampleMath sampleParticle JsVal.undefined (by decide)
      rfl).1⟩

/-! ## The scale of an HTML animation -/

/-- C25 (failing input): on a viewport 800 pixels wide, an animation with
`scale: '100%'` ends (progress 1) with `scaleX(8) scaleY(8)`, not with the
factor 1, and one with `scale: '110%'` ends with the factor 8.8, not 1.1; at
progress 0 the factor is 1.  In general the option `'P%'` ends with the
factor `P / 100 * width / 100`, where `width` is the width of the viewport:
`toPixels` turns the percentage into pixels of the viewport width, and
`applyTransformation` divides that pixel value by 100. -/
theorem scale_percent_uses_viewport_width :
    sampleEngine.viewport.width = 800 ∧
      HTMLAnimation.appliedScale sampleEngine (JsVal.str "100%") (JsNum.fin 1)
        = some (JsNum.fin 8, JsNum.fin 8) ∧
      HTMLAnimation.appliedScale sampleEngine (JsVal.str "110%") (JsNum.fin 1)
        = some (JsNum.fin (44 / 5), JsNum.fin (44 / 5)) ∧
      HTMLAnimation.appliedScale sampleEngine (JsVal.str "100%") (JsNum.fin 0)
        = some (JsNum.fin 1, JsNum.fin 1) ∧
      (∀ (E : ArcaneFX) (s : String) (P : ℚ), endsWith s "px" = false → endsWith s "%" = true →
        parseFloatStr s = JsNum.fin P →
        HTMLAnimation.appliedScale E (JsVal.str s) (JsNum.fin 1)
          = some (JsNum.fin (P / 100 * E.viewport.width / 100),
              JsNum.fin (P / 100 * E.viewport.width / 100)) ∧
        HTMLAnimation.appliedScale E (JsVal.str s) (JsNum.fin 0)
          = some (JsNum.fin 1, JsNum.fin 1)) := by
  refine ⟨rfl, ?_, ?_, ?_, ?_⟩
  · rw [appliedScale_percent sampleEngine "100%" 100 1 (by decide) (by decide)
      parseFloatStr_hundred_percent]
    norm_num [sampleEngine]
  · rw [appliedScale_percent sampleEngine "110%" 110 1 (by decide) (by decide)
      parseFloatStr_hundred_ten_percent]
    norm_num [sampleEngine]
  · rw [appliedScale_percent sampleEngine "100%" 100 0 (by decide) (by decide)
      parseFloatStr_hundred_percent]
    norm_num
  · intro E s P hpx hpc hp
    rw [appliedScale_percent E s P 1 hpx hpc hp, appliedScale_percent E s P 0 hpx hpc hp]
    norm_num

/-! ## Particle counts of the generators -/

/-- C24 (counterexample): `generateLightningFork` adds 27 particles when every
call of `Math.random()` returns 0 and 33 particles when every call returns
0.5: each of its three branches runs `for (let j = 0; j < length; j++)` with
`length = 3 + Math.random() * 3`. -/
theorem lightning_fork_count_counterexample :
    (generateLightningFork sampleMath zeroRandom 0 0 []).length = 27 ∧
      (generateLightningFork sampleMath sampleRandom 0 0 []).length = 33 := by
  have h3 : loopCount (3 + (0 : ℚ) * 3) = 3 := by
    unfold loopCount
    rw [Nat.ceil_eq_iff (by decide)]
    norm_num
  have h5 : loopCount (3 + (1 / 2 : ℚ) * 3) = 5 := by
    unfold loopCount
    rw [Nat.ceil_eq_iff (by decide)]
    norm_num
  constructor
  · rw [generateLightningFork_length]
    show ([] : List Particle).length + 18
      + (lightningBranches sampleMath (fun _ => (0 : ℚ)) 0 0 3 16).1.length = 27
    rw [lightningBranches_const, h3]
    rfl
  · rw [generateLightningFork_length]
    show ([] : List Particle).length + 18
      + (lightningBranches sampleMath (fun _ => (1 / 2 : ℚ)) 0 0 3 16).1.length = 33
    rw [lightningBranches_const, h5]
    rfl

/-- C24 (amended): every generator registered by `registerEffects` adds the
same number of particles to an instance whatever the functions of `Math` and
the values of `Math.random()` are: the number of its `spawn` calls, which is
40 for `fire_burst`, 51 for `impact_flash_white`, and 0 for the generators
that only install an emitter and for `earth_shield`.  The generator
`generateLightningFork` does not: it adds 18 particles and, for each of its
three branches, as many particles as there are whole numbers `j` with
`j < length`, where `length` is 3 plus three times the third random draw of
the branch; for draws in `[0, 1)` that makes between 27 and 36 particles. -/
theorem generator_counts_fixed_except_fork (M M2 : JsMath) (rnd rnd2 : ℕ → ℚ)
    (fx : EffectInstance) (x y : ℚ) (particles : List Particle) :
    (∀ (name : String) (g g2 : Generator), (name, g) ∈ registerEffects M rnd →
        (name, g2) ∈ registerEffects M2 rnd2 →
        (g fx).particles.length = fx.particles.length + spawnCalls name ∧
        (g fx).particles.length = (g2 fx).particles.length) ∧
      spawnCalls "fire_burst" = 40 ∧ spawnCalls "impact_flash_white" = 51 ∧
      (∀ name ∈ emitterEffects, spawnCalls name = 0) ∧ spawnCalls "earth_shield" = 0 ∧
      (generateLightningFork M rnd x y particles).length
        = particles.length + 18 + (lightningBranches M rnd x y 3 16).1.length ∧
      (lightningBranches M rnd x y 3 16).1.length
        = (lightningBranch M rnd x y 16).1.length
          + (lightningBranch M rnd x y (lightningBranch M rnd x y 16).2).1.length
          + (lightningBranch M rnd x y
              (lightningBranch M rnd x y (lightningBranch M rnd x y 16).2).2).1.length ∧
      (∀ k : ℕ, (lightningBranch M rnd x y k).1.length = loopCount (3 + rnd (k + 2) * 3)) ∧
      (∀ (length : ℚ) (j : ℕ), j < loopCount length ↔ (j : ℚ) < length) ∧
      ((∀ i, 0 ≤ rnd i ∧ rnd i < 1) →
        particles.length + 27 ≤ (generateLightningFork M rnd x y particles).length ∧
        (generateLightningFork M rnd x y particles).length ≤ particles.length + 36) := by
  refine ⟨fun name g g2 hg hg2 => ?_, by decide, by decide, by decide, by decide,
    generateLightningFork_length M rnd x y particles, ?_,
    lightningBranch_length M rnd x y, lt_loopCount, fun hr => ?_⟩
  · rw [registered_spawnCalls M rnd fx name g hg, registered_spawnCalls M2 rnd2 fx name g2 hg2]
    exact ⟨rfl, rfl⟩
  · simp only [lightningBranches, List.length_append, List.length_nil]
    omega
  · rw [generateLightningFork_length]
    obtain ⟨h1, h2⟩ := lightningBranches_bounds M rnd x y hr 3 16
    omega

end Arcane
